import Mathlib

/-!
Verification of the ћ++ compiler front-end (C sources) against its
natural-language specification.

This file is a shallow embedding of the relevant C code into Lean 4:

* `utf8.c`     — `utf8_decode`, `utf8_encode`, `utf8_strcmp`, the identifier
                 classification predicates;
* `keywords.c` — the keyword table, `is_keyword`, `get_keyword_token`;
* `error.c`    — the diagnostics registry (`error_report`, `MAX_ERRORS`);
* `lexer.c`    — the full tokenizer (`lexer_next_token`, `lexer_peek_token`,
                 `scan_token`, `scan_string`, `scan_character_literal`, …);
* `ast.c`      — `ast_clone` / `clone_type` and the `ast_create_*` allocators.

Modelling conventions:

* C byte strings are `List Nat` (byte values 0‥255).  A NUL-terminated string
  is the list of its bytes before the terminator; reading index `i` of a C
  string is `l.getD i 0`, so out-of-range reads yield the NUL byte, exactly
  as reading the terminator (or further buffer bytes, which we never reach).
* Machine integers are `Nat` / `Int` with explicit masking where the C code
  truncates (casts to `char` become `% 256`).
* Unbounded C loops are given explicit fuel that dominates their iteration
  count (each iteration consumes at least one source byte, so
  `length - position + 1` is enough); this keeps every definition a
  computable structural recursion.
* Heap allocation always succeeds; `malloc`-failure branches of the C code
  are unreachable in the model and are noted where they are dropped.
* For `ast.c`, object identity (needed to talk about sharing) is modelled by
  threading an allocation counter: every allocated node, owned string, and
  `TypeInfo` record carries a numeric id, fresh ids being handed out in
  increasing order.
-/

namespace Chpp

/-! ## utf8.h / utf8.c -/

/-- Struct `utf8_char_t` from `utf8.h`: a `char bytes[4]` array (kept as a
list of 4 byte values), the length `len` in bytes, and the decoded
`codepoint` (`utf8_codepoint_t`, i.e. `uint32_t`). -/
structure Utf8Char where
  bytes : List Nat
  len : Nat
  codepoint : Nat
  deriving DecidableEq, Repr

/-- Macro `UTF8_IS_CONTINUATION(b)` from `utf8.h`: `(b & 0xC0) == 0x80`. -/
def UTF8_IS_CONTINUATION (b : Nat) : Bool := b &&& 0xC0 == 0x80

/-- Continuation-byte loop of `utf8_decode` (`for (int i = 1; i < num_bytes; i++)`).
`i` is the current index, `remaining` the number of continuation bytes still
to read, `cp` the codepoint accumulator, `ch` the output struct as mutated so
far.  On a premature NUL or a non-continuation byte the C code `return 0`s;
we return `none` for the codepoint while keeping the struct state. -/
def utf8_decode_loop (str : List Nat) (i : Nat) (remaining : Nat) (cp : Nat)
    (ch : Utf8Char) : Option Nat × Utf8Char :=
  match remaining with
  | 0 => (some cp, ch)
  | r + 1 =>
    let byte := str.getD i 0
    if byte = 0 then (none, ch)
    else if ¬ UTF8_IS_CONTINUATION byte then (none, ch)
    else utf8_decode_loop str (i + 1) r ((cp <<< 6) ||| (byte &&& 0x3F))
      { ch with bytes := ch.bytes.set i byte }

/-- Leading-byte dispatch of `utf8_decode` (the `if`/`else if` chain that
sets `num_bytes` and the initial codepoint bits, `return 0` on an invalid
first byte). -/
def utf8_decode_header (first_byte : Nat) : Option (Nat × Nat) :=
  if first_byte &&& 0x80 = 0 then some (1, first_byte)
  else if first_byte &&& 0xE0 = 0xC0 then some (2, first_byte &&& 0x1F)
  else if first_byte &&& 0xF0 = 0xE0 then some (3, first_byte &&& 0x0F)
  else if first_byte &&& 0xF8 = 0xF0 then some (4, first_byte &&& 0x07)
  else none

/-- Function `utf8_decode` from `utf8.c`.  Returns the number of bytes
consumed (0 on rejection) together with the final contents of the output
parameter `character`.  The `str == NULL` / `character == NULL` guards have no
counterpart for Lean values. -/
def utf8_decode (str : List Nat) : Nat × Utf8Char :=
  let character : Utf8Char := ⟨[0, 0, 0, 0], 0, 0⟩
  let first_byte := str.getD 0 0
  if first_byte = 0 then (0, character)
  else
    let character := { character with bytes := character.bytes.set 0 first_byte }
    match utf8_decode_header first_byte with
    | none => (0, character)
    | some (num_bytes, cp0) =>
      match utf8_decode_loop str 1 (num_bytes - 1) cp0 character with
      | (none, ch) => (0, ch)
      | (some codepoint, ch) =>
        let ch := { ch with len := num_bytes, codepoint := codepoint }
        if (num_bytes = 2 ∧ codepoint < 0x80) ∨
           (num_bytes = 3 ∧ codepoint < 0x800) ∨
           (num_bytes = 4 ∧ codepoint < 0x10000) then (0, ch)
        else if codepoint > 0x10FFFF ∨ (0xD800 ≤ codepoint ∧ codepoint ≤ 0xDFFF) then
          (0, ch)
        else (num_bytes, ch)

/-- Function `utf8_encode` from `utf8.c`.  Returns the number of bytes
written (0 for codepoints above `0x10FFFF`) together with the final contents
of the output parameter (memset to zero on entry, `codepoint` stored
unconditionally, bytes and `len` filled per branch). -/
def utf8_encode (codepoint : Nat) : Nat × Utf8Char :=
  let character : Utf8Char := { bytes := [0, 0, 0, 0], len := 0, codepoint := codepoint }
  if codepoint < 0x80 then
    (1, { character with bytes := [codepoint, 0, 0, 0], len := 1 })
  else if codepoint < 0x800 then
    (2, { character with
          bytes := [0xC0 ||| (codepoint >>> 6), 0x80 ||| (codepoint &&& 0x3F), 0, 0],
          len := 2 })
  else if codepoint < 0x10000 then
    (3, { character with
          bytes := [0xE0 ||| (codepoint >>> 12), 0x80 ||| ((codepoint >>> 6) &&& 0x3F),
                    0x80 ||| (codepoint &&& 0x3F), 0],
          len := 3 })
  else if codepoint ≤ 0x10FFFF then
    (4, { character with
          bytes := [0xF0 ||| (codepoint >>> 18), 0x80 ||| ((codepoint >>> 12) &&& 0x3F),
                    0x80 ||| ((codepoint >>> 6) &&& 0x3F), 0x80 ||| (codepoint &&& 0x3F)],
          len := 4 })
  else
    (0, character)

/-- Loop of `utf8_strcmp` from `utf8.c` (`while (*p1 && *p2) …` followed by
the end-of-string comparison).  Fuel: every iteration drops at least one byte
from one of the strings, so `|p1| + |p2| + 1` dominates the iteration count;
the fuel-0 branch is unreachable from `utf8_strcmp`. -/
def utf8_strcmp_loop : Nat → List Nat → List Nat → Int
  | 0, _, _ => 0
  | fuel + 1, p1, p2 =>
    if p1.getD 0 0 ≠ 0 ∧ p2.getD 0 0 ≠ 0 then
      let r1 := utf8_decode p1
      let r2 := utf8_decode p2
      if r1.1 = 0 then utf8_strcmp_loop fuel (p1.drop 1) p2
      else if r2.1 = 0 then utf8_strcmp_loop fuel p1 (p2.drop 1)
      else if r1.2.codepoint ≠ r2.2.codepoint then
        (r1.2.codepoint : Int) - (r2.2.codepoint : Int)
      else utf8_strcmp_loop fuel (p1.drop r1.1) (p2.drop r2.1)
    else
      if p1.getD 0 0 ≠ 0 then 1
      else if p2.getD 0 0 ≠ 0 then -1
      else 0

/-- Function `utf8_strcmp` from `utf8.c`.  The `NULL`-pointer cases have no
counterpart for Lean lists.  The codepoint difference is computed in
`uint32_t` and cast to `int` in C; since codepoints are below `2^21` the
resulting sign and value agree with the `Int` subtraction used here. -/
def utf8_strcmp (str1 str2 : List Nat) : Int :=
  utf8_strcmp_loop (str1.length + str2.length + 1) str1 str2

/-- Function `utf8_is_alphabetic` from `utf8.c`.  The source checks the
Cyrillic block twice (labelled "Cyrillic" and "Extended Cyrillic"); both
occurrences are kept. -/
def utf8_is_alphabetic (codepoint : Nat) : Bool :=
  if (0x41 ≤ codepoint ∧ codepoint ≤ 0x5A) ∨ (0x61 ≤ codepoint ∧ codepoint ≤ 0x7A) then
    true
  else if 0x0400 ≤ codepoint ∧ codepoint ≤ 0x04FF then true
  else if 0x0400 ≤ codepoint ∧ codepoint ≤ 0x04FF then true
  else if codepoint = 0x045B ∨ codepoint = 0x0452 ∨
          codepoint = 0x045F ∨ codepoint = 0x0458 then true
  else false

/-- Function `utf8_is_digit` from `utf8.c`: ASCII digits. -/
def utf8_is_digit (codepoint : Nat) : Bool :=
  0x30 ≤ codepoint ∧ codepoint ≤ 0x39

/-- Function `utf8_is_identifier_char` from `utf8.c`. -/
def utf8_is_identifier_char (codepoint : Nat) ( is_start : Bool) : Bool :=
  if codepoint = 0x5F then true
  else if is_start ∧ utf8_is_digit codepoint then false
  else if utf8_is_alphabetic codepoint then true
  else if ¬ is_start ∧ utf8_is_digit codepoint then true
  else false


/-! helper lemmas bridging the C bit operations with arithmetic -/

theorem shiftRight_six (x : Nat) : x >>> 6 = x / 64 := Nat.shiftRight_eq_div_pow x 6
theorem shiftRight_twelve (x : Nat) : x >>> 12 = x / 4096 := Nat.shiftRight_eq_div_pow x 12
theorem shiftRight_eighteen (x : Nat) : x >>> 18 = x / 262144 := Nat.shiftRight_eq_div_pow x 18
theorem shiftLeft_six (x : Nat) : x <<< 6 = x * 64 := Nat.shiftLeft_eq x 6
theorem and_63 (x : Nat) : x &&& 63 = x % 64 := Nat.and_pow_two_sub_one_eq_mod x 6

theorem or_192 (q : Nat) (h : q < 64) : 192 ||| q = 192 + q := by
  have h2 := Nat.mul_add_lt_is_or (i := 6) (b := q) (by omega : q < 2 ^ 6) 3
  rw [show (2 : ℕ) ^ 6 * 3 = 192 from rfl] at h2
  omega

theorem or_128 (q : Nat) (h : q < 128) : 128 ||| q = 128 + q := by
  have h2 := Nat.mul_add_lt_is_or (i := 7) (b := q) (by omega : q < 2 ^ 7) 1
  rw [show (2 : ℕ) ^ 7 * 1 = 128 from rfl] at h2
  omega

theorem or_224 (q : Nat) (h : q < 32) : 224 ||| q = 224 + q := by
  have h2 := Nat.mul_add_lt_is_or (i := 5) (b := q) (by omega : q < 2 ^ 5) 7
  rw [show (2 : ℕ) ^ 5 * 7 = 224 from rfl] at h2
  omega

theorem or_240 (q : Nat) (h : q < 16) : 240 ||| q = 240 + q := by
  have h2 := Nat.mul_add_lt_is_or (i := 4) (b := q) (by omega : q < 2 ^ 4) 15
  rw [show (2 : ℕ) ^ 4 * 15 = 240 from rfl] at h2
  omega

theorem shl_or_low (hi lo : Nat) (h : lo < 64) : (hi <<< 6) ||| lo = 64 * hi + lo := by
  have h2 := Nat.mul_add_lt_is_or (i := 6) (b := lo) (by omega : lo < 2 ^ 6) hi
  rw [show (2 : ℕ) ^ 6 = 64 from rfl] at h2
  rw [shiftLeft_six, Nat.mul_comm]
  omega

/-! classification of `utf8_decode_header` on each byte range -/

set_option maxRecDepth 2000 in
theorem header_ascii (b : Nat) (h : b < 128) : utf8_decode_header b = some (1, b) := by
  revert h; revert b; decide

set_option maxRecDepth 2000 in
theorem header_cont (b : Nat) (h1 : 128 ≤ b) (h2 : b < 192) : utf8_decode_header b = none := by
  revert h2; revert h1; revert b; decide

theorem header_two (q : Nat) (h : q < 32) : utf8_decode_header (192 + q) = some (2, q) := by
  revert h; revert q; decide

theorem header_three (q : Nat) (h : q < 16) : utf8_decode_header (224 + q) = some (3, q) := by
  revert h; revert q; decide

theorem header_four (q : Nat) (h : q < 8) : utf8_decode_header (240 + q) = some (4, q) := by
  revert h; revert q; decide

theorem header_invalid_high (b : Nat) (h1 : 248 ≤ b) (h2 : b < 256) :
    utf8_decode_header b = none := by
  have h3 : b - 248 < 8 := by omega
  have h4 : b = 248 + (b - 248) := by omega
  rw [h4]
  revert h3
  revert b
  decide

theorem cont_is_continuation (r : Nat) (h : r < 64) :
    UTF8_IS_CONTINUATION (128 + r) = true := by
  revert h; revert r; decide

/-! acceptance-form lemmas: `utf8_decode` on the encoded shapes -/

theorem utf8_decode_one (b : Nat) (rest : List Nat) (h1 : 1 ≤ b) (h2 : b < 128) :
    utf8_decode (b :: rest) = (1, ⟨[b, 0, 0, 0], 1, b⟩) := by
  have hh := header_ascii b h2
  simp only [utf8_decode, List.getD_cons_zero, hh, utf8_decode_loop, List.set]
  rw [if_neg (by omega)]
  rw [if_neg (by omega)]
  rw [if_neg (by omega)]

theorem utf8_decode_two (hi lo : Nat) (rest : List Nat) (hhi : hi < 32) (hlo : lo < 64) :
    utf8_decode ((192 + hi) :: (128 + lo) :: rest) =
      (if 64 * hi + lo < 128 then 0 else 2, ⟨[192 + hi, 128 + lo, 0, 0], 2, 64 * hi + lo⟩) := by
  have hh := header_two hi hhi
  have hc := cont_is_continuation lo hlo
  simp only [utf8_decode, List.getD_cons_zero, hh, utf8_decode_loop, List.getD_cons_succ,
    List.set, hc]
  rw [if_neg (by omega : ¬(192 + hi = 0))]
  rw [if_neg (by omega : ¬(128 + lo = 0))]
  simp only [not_true, if_false, ite_false]
  rw [and_63, shl_or_low hi ((128 + lo) % 64) (by omega)]
  have hmod : (128 + lo) % 64 = lo := by omega
  rw [hmod]
  simp only [show ((2:Nat) = 3 ↔ False) from by decide, show ((2:Nat) = 4 ↔ False) from by decide,
    show ((2:Nat) = 2 ↔ True) from by decide, true_and, false_and, or_false, false_or]
  rw [if_neg (show ¬(64 * hi + lo > 0x10FFFF ∨ (0xD800 ≤ 64 * hi + lo ∧ 64 * hi + lo ≤ 0xDFFF))
    from by omega)]
  split_ifs with h <;> rfl


theorem utf8_decode_three (hi mid lo : Nat) (rest : List Nat)
    (hhi : hi < 16) (hmid : mid < 64) (hlo : lo < 64) :
    utf8_decode ((224 + hi) :: (128 + mid) :: (128 + lo) :: rest) =
      (if 4096 * hi + 64 * mid + lo < 0x800 ∨
          (0xD800 ≤ 4096 * hi + 64 * mid + lo ∧ 4096 * hi + 64 * mid + lo ≤ 0xDFFF)
       then 0 else 3,
       ⟨[224 + hi, 128 + mid, 128 + lo, 0], 3, 4096 * hi + 64 * mid + lo⟩) := by
  have hh := header_three hi hhi
  have hc1 := cont_is_continuation mid hmid
  have hc2 := cont_is_continuation lo hlo
  simp only [utf8_decode, List.getD_cons_zero, hh, utf8_decode_loop, List.getD_cons_succ,
    List.set, hc1, hc2]
  rw [if_neg (by omega : ¬(224 + hi = 0))]
  rw [if_neg (by omega : ¬(128 + mid = 0))]
  rw [if_neg (by omega : ¬(128 + lo = 0))]
  simp only [not_true, if_false, ite_false]
  rw [and_63, and_63, shl_or_low hi ((128 + mid) % 64) (by omega)]
  have hm1 : (128 + mid) % 64 = mid := by omega
  rw [hm1, shl_or_low (64 * hi + mid) ((128 + lo) % 64) (by omega)]
  have hm2 : (128 + lo) % 64 = lo := by omega
  rw [hm2]
  have he : 64 * (64 * hi + mid) + lo = 4096 * hi + 64 * mid + lo := by ring
  rw [he]
  simp only [show ((3:Nat) = 2 ↔ False) from by decide, show ((3:Nat) = 4 ↔ False) from by decide,
    show ((3:Nat) = 3 ↔ True) from by decide, true_and, false_and, or_false, false_or]
  split_ifs with h1 h2 h3 <;> first | rfl | (exfalso; omega)

theorem utf8_decode_four (hi a b lo : Nat) (rest : List Nat)
    (hhi : hi < 8) (ha : a < 64) (hb : b < 64) (hlo : lo < 64) :
    utf8_decode ((240 + hi) :: (128 + a) :: (128 + b) :: (128 + lo) :: rest) =
      (if 262144 * hi + 4096 * a + 64 * b + lo < 0x10000 ∨
          0x10FFFF < 262144 * hi + 4096 * a + 64 * b + lo
       then 0 else 4,
       ⟨[240 + hi, 128 + a, 128 + b, 128 + lo], 4, 262144 * hi + 4096 * a + 64 * b + lo⟩) := by
  have hh := header_four hi hhi
  have hc1 := cont_is_continuation a ha
  have hc2 := cont_is_continuation b hb
  have hc3 := cont_is_continuation lo hlo
  simp only [utf8_decode, List.getD_cons_zero, hh, utf8_decode_loop, List.getD_cons_succ,
    List.set, hc1, hc2, hc3]
  rw [if_neg (by omega : ¬(240 + hi = 0))]
  rw [if_neg (by omega : ¬(128 + a = 0))]
  rw [if_neg (by omega : ¬(128 + b = 0))]
  rw [if_neg (by omega : ¬(128 + lo = 0))]
  simp only [not_true, if_false, ite_false]
  rw [and_63, and_63, and_63, shl_or_low hi ((128 + a) % 64) (by omega)]
  have hm1 : (128 + a) % 64 = a := by omega
  rw [hm1, shl_or_low (64 * hi + a) ((128 + b) % 64) (by omega)]
  have hm2 : (128 + b) % 64 = b := by omega
  rw [hm2, shl_or_low (64 * (64 * hi + a) + b) ((128 + lo) % 64) (by omega)]
  have hm3 : (128 + lo) % 64 = lo := by omega
  rw [hm3]
  have he : 64 * (64 * (64 * hi + a) + b) + lo = 262144 * hi + 4096 * a + 64 * b + lo := by ring
  rw [he]
  simp only [show ((4:Nat) = 2 ↔ False) from by decide, show ((4:Nat) = 3 ↔ False) from by decide,
    show ((4:Nat) = 4 ↔ True) from by decide, true_and, false_and, or_false, false_or]
  split_ifs with h1 h2 h3 <;> first | rfl | (exfalso; omega)

theorem utf8_decode_bad_cont (q b : Nat) (rest : List Nat) (hq : q < 32)
    (hb : UTF8_IS_CONTINUATION b = false) :
    utf8_decode ((192 + q) :: b :: rest) = (0, ⟨[192 + q, 0, 0, 0], 0, 0⟩) := by
  have hh := header_two q hq
  by_cases hz : b = 0
  · simp only [utf8_decode, List.getD_cons_zero, hh, utf8_decode_loop, List.getD_cons_succ,
      List.set, hz]
    rw [if_neg (by omega : ¬(192 + q = 0))]
    simp
  · simp only [utf8_decode, List.getD_cons_zero, hh, utf8_decode_loop, List.getD_cons_succ,
      List.set, hb]
    rw [if_neg (by omega : ¬(192 + q = 0))]
    simp [hz]

theorem utf8_decode_invalid_lead (b : Nat) (rest : List Nat)
    (h : (128 ≤ b ∧ b < 192) ∨ (248 ≤ b ∧ b < 256)) :
    utf8_decode (b :: rest) = (0, ⟨[b, 0, 0, 0], 0, 0⟩) := by
  have hh : utf8_decode_header b = none := by
    rcases h with ⟨h1, h2⟩ | ⟨h1, h2⟩
    · exact header_cont b h1 h2
    · exact header_invalid_high b h1 h2
  simp only [utf8_decode, List.getD_cons_zero, hh, List.set]
  rw [if_neg (by omega : ¬(b = 0))]

theorem utf8_decode_truncated (b : Nat) (h1 : 192 ≤ b) (h2 : b < 256) :
    (utf8_decode [b]).1 = 0 := by
  rcases Nat.lt_or_ge b 224 with h3 | h3
  · have hh := header_two (b - 192) (by omega)
    rw [show b = 192 + (b - 192) from by omega]
    simp only [utf8_decode, List.getD_cons_zero, hh, utf8_decode_loop, List.set]
    rw [if_neg (by omega : ¬(192 + (b - 192) = 0))]
    simp [List.getD]
  · rcases Nat.lt_or_ge b 240 with h4 | h4
    · have hh := header_three (b - 224) (by omega)
      rw [show b = 224 + (b - 224) from by omega]
      simp only [utf8_decode, List.getD_cons_zero, hh, utf8_decode_loop, List.set]
      rw [if_neg (by omega : ¬(224 + (b - 224) = 0))]
      simp [List.getD]
    · rcases Nat.lt_or_ge b 248 with h5 | h5
      · have hh := header_four (b - 240) (by omega)
        rw [show b = 240 + (b - 240) from by omega]
        simp only [utf8_decode, List.getD_cons_zero, hh, utf8_decode_loop, List.set]
        rw [if_neg (by omega : ¬(240 + (b - 240) = 0))]
        simp [List.getD]
      · rw [utf8_decode_invalid_lead b [] (Or.inr ⟨h5, h2⟩)]

theorem utf8_encode_one_eq (c : Nat) (h : c < 128) :
    utf8_encode c = (1, ⟨[c, 0, 0, 0], 1, c⟩) := by
  simp only [utf8_encode]
  rw [if_pos (by omega)]

theorem utf8_encode_two_eq (c : Nat) (h1 : 128 ≤ c) (h2 : c < 2048) :
    utf8_encode c = (2, ⟨[192 + c / 64, 128 + c % 64, 0, 0], 2, c⟩) := by
  simp only [utf8_encode]
  rw [if_neg (by omega), if_pos (by omega)]
  rw [shiftRight_six, and_63, or_192 (c / 64) (by omega), or_128 (c % 64) (by omega)]

theorem utf8_encode_three_eq (c : Nat) (h1 : 2048 ≤ c) (h2 : c < 65536) :
    utf8_encode c =
      (3, ⟨[224 + c / 4096, 128 + c / 64 % 64, 128 + c % 64, 0], 3, c⟩) := by
  simp only [utf8_encode]
  rw [if_neg (by omega), if_neg (by omega), if_pos (by omega)]
  rw [shiftRight_twelve, shiftRight_six, and_63, and_63,
    or_224 (c / 4096) (by omega), or_128 (c / 64 % 64) (by omega), or_128 (c % 64) (by omega)]

theorem utf8_encode_four_eq (c : Nat) (h1 : 65536 ≤ c) (h2 : c ≤ 0x10FFFF) :
    utf8_encode c =
      (4, ⟨[240 + c / 262144, 128 + c / 4096 % 64, 128 + c / 64 % 64, 128 + c % 64], 4, c⟩) := by
  simp only [utf8_encode]
  rw [if_neg (by omega), if_neg (by omega), if_neg (by omega), if_pos (by omega)]
  rw [shiftRight_eighteen, shiftRight_twelve, shiftRight_six, and_63, and_63, and_63,
    or_240 (c / 262144) (by omega), or_128 (c / 4096 % 64) (by omega),
    or_128 (c / 64 % 64) (by omega), or_128 (c % 64) (by omega)]


/-- Specification-side definition (from the claim's wording): the UTF-8
length class of a codepoint. -/
def length_class (c : Nat) : Nat :=
  if c < 0x80 then 1 else if c < 0x800 then 2 else if c < 0x10000 then 3 else 4

/-- C2 amended. -/
theorem utf8_encode_decode_roundtrip (c : Nat) (h0 : 1 ≤ c) (h1 : c ≤ 0x10FFFF)
    (h2 : ¬(0xD800 ≤ c ∧ c ≤ 0xDFFF)) :
    (utf8_encode c).1 = length_class c ∧
    (utf8_decode (utf8_encode c).2.bytes).1 = length_class c ∧
    (utf8_decode (utf8_encode c).2.bytes).2.codepoint = c := by
  unfold length_class
  rcases Nat.lt_or_ge c 128 with hr | hr
  · rw [utf8_encode_one_eq c hr]
    simp only
    rw [utf8_decode_one c [0, 0, 0] h0 hr]
    simp [hr]
  · rcases Nat.lt_or_ge c 2048 with hr2 | hr2
    · rw [utf8_encode_two_eq c hr hr2]
      simp only
      rw [utf8_decode_two (c / 64) (c % 64) [0, 0] (by omega) (by omega)]
      have he : 64 * (c / 64) + c % 64 = c := by omega
      rw [he]
      have hc1 : ¬ c < 128 := by omega
      have hc2 : c < 2048 := by omega
      simp only [if_neg hc1, if_pos hc2]
      exact ⟨trivial, trivial, trivial⟩
    · rcases Nat.lt_or_ge c 65536 with hr3 | hr3
      · rw [utf8_encode_three_eq c hr2 hr3]
        simp only
        rw [utf8_decode_three (c / 4096) (c / 64 % 64) (c % 64) [0] (by omega) (by omega)
          (by omega)]
        have he : 4096 * (c / 4096) + 64 * (c / 64 % 64) + c % 64 = c := by omega
        rw [he]
        have hd : ¬(c < 2048 ∨ (55296 ≤ c ∧ c ≤ 57343)) := by omega
        have hc1 : ¬ c < 128 := by omega
        have hc2 : ¬ c < 2048 := by omega
        have hc3 : c < 65536 := by omega
        simp only [if_neg hd, if_neg hc1, if_neg hc2, if_pos hc3]
        exact ⟨trivial, trivial, trivial⟩
      · rw [utf8_encode_four_eq c hr3 h1]
        simp only
        rw [utf8_decode_four (c / 262144) (c / 4096 % 64) (c / 64 % 64) (c % 64) []
          (by omega) (by omega) (by omega) (by omega)]
        have he : 262144 * (c / 262144) + 4096 * (c / 4096 % 64) + 64 * (c / 64 % 64) + c % 64
            = c := by omega
        rw [he]
        have hd : ¬(c < 65536 ∨ 1114111 < c) := by omega
        have hc1 : ¬ c < 128 := by omega
        have hc2 : ¬ c < 2048 := by omega
        have hc3 : ¬ c < 65536 := by omega
        simp only [if_neg hd, if_neg hc1, if_neg hc2, if_neg hc3]
        exact ⟨trivial, trivial, trivial⟩

/-- C2 witness. -/
theorem utf8_encode_decode_roundtrip_witness :
    (utf8_encode 0x45B).1 = length_class 0x45B ∧
    (utf8_decode (utf8_encode 0x45B).2.bytes).1 = length_class 0x45B ∧
    (utf8_decode (utf8_encode 0x45B).2.bytes).2.codepoint = 0x45B :=
  utf8_encode_decode_roundtrip 0x45B (by decide) (by decide) (by decide)

/-- C2 counterexample: NUL. -/
theorem utf8_roundtrip_fails_at_zero :
    (utf8_encode 0).1 = 1 ∧ (utf8_decode (utf8_encode 0).2.bytes).1 = 0 := by decide

/-- C7 counterexample. -/
theorem utf8_encode_surrogate_not_rejected :
    (utf8_encode 0xD800).1 = 3 ∧ (utf8_encode 0xD800).1 ≠ 0 := by decide

/-- C7 amended. -/
theorem utf8_encode_rejects_only_above_max (c : Nat) :
    (0x10FFFF < c → utf8_encode c = (0, ⟨[0, 0, 0, 0], 0, c⟩)) ∧
    (0xD800 ≤ c → c ≤ 0xDFFF → (utf8_encode c).1 = 3) := by
  constructor
  · intro h
    simp only [utf8_encode]
    rw [if_neg (by omega), if_neg (by omega), if_neg (by omega), if_neg (by omega)]
  · intro h1 h2
    rw [utf8_encode_three_eq c (by omega) (by omega)]

/-- C7 witness. -/
theorem utf8_encode_rejects_only_above_max_witness :
    utf8_encode 0x110000 = (0, ⟨[0, 0, 0, 0], 0, 0x110000⟩) ∧ (utf8_encode 0xD801).1 = 3 :=
  ⟨(utf8_encode_rejects_only_above_max 0x110000).1 (by decide),
   (utf8_encode_rejects_only_above_max 0xD801).2 (by decide) (by decide)⟩


/-- C8 counterexample. -/
theorem utf8_decode_overlong_partial_result :
    (utf8_decode [0xC0, 0x80]).1 = 0 ∧
    (utf8_decode [0xC0, 0x80]).2.len = 2 ∧
    (utf8_decode [0xC0, 0x80]).2.bytes = [0xC0, 0x80, 0, 0] := by decide

/-- C8 amended. -/
theorem utf8_decode_rejections (c b q : Nat) (rest : List Nat) :
    ((128 ≤ b ∧ b < 192) ∨ (248 ≤ b ∧ b < 256) →
      utf8_decode (b :: rest) = (0, ⟨[b, 0, 0, 0], 0, 0⟩)) ∧
    (192 ≤ b → b < 256 → (utf8_decode [b]).1 = 0) ∧
    (q < 32 → UTF8_IS_CONTINUATION b = false →
      utf8_decode ((192 + q) :: b :: rest) = (0, ⟨[192 + q, 0, 0, 0], 0, 0⟩)) ∧
    (c < 128 →
      utf8_decode ((192 + c / 64) :: (128 + c % 64) :: rest) =
        (0, ⟨[192 + c / 64, 128 + c % 64, 0, 0], 2, c⟩)) ∧
    (c < 2048 →
      utf8_decode ((224 + c / 4096) :: (128 + c / 64 % 64) :: (128 + c % 64) :: rest) =
        (0, ⟨[224 + c / 4096, 128 + c / 64 % 64, 128 + c % 64, 0], 3, c⟩)) ∧
    (c < 65536 →
      utf8_decode
          ((240 + c / 262144) :: (128 + c / 4096 % 64) :: (128 + c / 64 % 64) ::
            (128 + c % 64) :: rest) =
        (0, ⟨[240 + c / 262144, 128 + c / 4096 % 64, 128 + c / 64 % 64, 128 + c % 64], 4, c⟩)) ∧
    (0xD800 ≤ c → c ≤ 0xDFFF →
      utf8_decode (utf8_encode c).2.bytes = (0, ⟨(utf8_encode c).2.bytes, 3, c⟩)) ∧
    (0x10FFFF < c → c < 0x200000 →
      utf8_decode
          ((240 + c / 262144) :: (128 + c / 4096 % 64) :: (128 + c / 64 % 64) ::
            (128 + c % 64) :: rest) =
        (0, ⟨[240 + c / 262144, 128 + c / 4096 % 64, 128 + c / 64 % 64, 128 + c % 64], 4, c⟩)) := by
  refine ⟨utf8_decode_invalid_lead b rest, utf8_decode_truncated b, utf8_decode_bad_cont q b rest,
    ?_, ?_, ?_, ?_, ?_⟩
  · intro h
    rw [utf8_decode_two (c / 64) (c % 64) rest (by omega) (by omega)]
    have he : 64 * (c / 64) + c % 64 = c := by omega
    rw [he, if_pos (by omega)]
  · intro h
    rw [utf8_decode_three (c / 4096) (c / 64 % 64) (c % 64) rest (by omega) (by omega) (by omega)]
    have he : 4096 * (c / 4096) + 64 * (c / 64 % 64) + c % 64 = c := by omega
    rw [he, if_pos (by omega)]
  · intro h
    rw [utf8_decode_four (c / 262144) (c / 4096 % 64) (c / 64 % 64) (c % 64) rest
      (by omega) (by omega) (by omega) (by omega)]
    have he : 262144 * (c / 262144) + 4096 * (c / 4096 % 64) + 64 * (c / 64 % 64) + c % 64 = c := by
      omega
    rw [he, if_pos (by omega)]
  · intro h1 h2
    rw [utf8_encode_three_eq c (by omega) (by omega)]
    simp only
    rw [utf8_decode_three (c / 4096) (c / 64 % 64) (c % 64) [0] (by omega) (by omega) (by omega)]
    have he : 4096 * (c / 4096) + 64 * (c / 64 % 64) + c % 64 = c := by omega
    rw [he, if_pos (by omega)]
  · intro h1 h2
    rw [utf8_decode_four (c / 262144) (c / 4096 % 64) (c / 64 % 64) (c % 64) rest
      (by omega) (by omega) (by omega) (by omega)]
    have he : 262144 * (c / 262144) + 4096 * (c / 4096 % 64) + 64 * (c / 64 % 64) + c % 64 = c := by
      omega
    rw [he, if_pos (by omega)]

/-- C8 witness. -/
theorem utf8_decode_rejections_witness :
    utf8_decode [0x85] = (0, ⟨[0x85, 0, 0, 0], 0, 0⟩) ∧
    (utf8_decode [0xD0]).1 = 0 ∧
    utf8_decode [0xC2, 0x41] = (0, ⟨[0xC2, 0, 0, 0], 0, 0⟩) ∧
    utf8_decode [0xC1, 0xBF] = (0, ⟨[0xC1, 0xBF, 0, 0], 2, 0x7F⟩) ∧
    utf8_decode (utf8_encode 0xD800).2.bytes = (0, ⟨(utf8_encode 0xD800).2.bytes, 3, 0xD800⟩) ∧
    utf8_decode [0xF4, 0x90, 0x80, 0x80] =
      (0, ⟨[0xF4, 0x90, 0x80, 0x80], 4, 0x110000⟩) := by
  refine ⟨(utf8_decode_rejections 0 0x85 0 []).1 (by omega),
    (utf8_decode_rejections 0 0xD0 0 []).2.1 (by omega) (by omega),
    (utf8_decode_rejections 0 0x41 2 []).2.2.1 (by omega) (by decide),
    (utf8_decode_rejections 0x7F 0 0 []).2.2.2.1 (by omega),
    (utf8_decode_rejections 0xD800 0 0 [0]).2.2.2.2.2.2.1 (by omega) (by omega),
    (utf8_decode_rejections 0x110000 0 0 []).2.2.2.2.2.2.2 (by omega) (by omega)⟩



/-! ## lexer.h: token kinds; keywords.c: the keyword table -/

/-- Enum `TokenType` from `lexer.h`.  The C enum assigns `TOKEN_IF = 1000`
explicitly; no two enumerators share a value, so an inductive type is a
faithful model of the tag set. -/
inductive TokenType where
  | TOKEN_EOF
  | TOKEN_ERROR
  | TOKEN_IDENTIFIER
  | TOKEN_NUMBER
  | TOKEN_CHAR_LITERAL
  | TOKEN_STRING
  | TOKEN_PLUS
  | TOKEN_MINUS
  | TOKEN_STAR
  | TOKEN_SLASH
  | TOKEN_PERCENT
  | TOKEN_EQUALS
  | TOKEN_DOUBLE_EQUALS
  | TOKEN_NOT_EQUALS
  | TOKEN_LESS
  | TOKEN_LESS_EQUALS
  | TOKEN_GREATER
  | TOKEN_GREATER_EQUALS
  | TOKEN_AND
  | TOKEN_DOUBLE_AND
  | TOKEN_OR
  | TOKEN_DOUBLE_OR
  | TOKEN_NOT
  | TOKEN_CARET
  | TOKEN_TILDE
  | TOKEN_LEFT_PAREN
  | TOKEN_RIGHT_PAREN
  | TOKEN_LEFT_BRACKET
  | TOKEN_RIGHT_BRACKET
  | TOKEN_LEFT_ANGLE
  | TOKEN_RIGHT_ANGLE
  | TOKEN_SEMICOLON
  | TOKEN_COMMA
  | TOKEN_DOT
  | TOKEN_COLON
  | TOKEN_ARRAY
  | TOKEN_IF
  | TOKEN_ELSE
  | TOKEN_WHILE
  | TOKEN_FOR
  | TOKEN_DO
  | TOKEN_BREAK
  | TOKEN_RETURN
  | TOKEN_EXTERNAL
  | TOKEN_TRUE
  | TOKEN_FALSE
  | TOKEN_KEYWORD_LAST
  deriving DecidableEq, Repr

open TokenType

/-- Table `keywords_table` from `keywords.c`.  Each keyword string is given
by its UTF-8 bytes (the C file stores the Cyrillic strings directly). -/
def keywords_table : List (List Nat × TokenType) :=
  [([0xD0, 0xB0, 0xD0, 0xBA, 0xD0, 0xBE], TOKEN_IF),                                -- "ако"
   ([0xD0, 0xB8, 0xD0, 0xBD, 0xD0, 0xB0, 0xD1, 0x87, 0xD0, 0xB5], TOKEN_ELSE),     -- "иначе"
   ([0xD0, 0xB4, 0xD0, 0xBE, 0xD0, 0xBA], TOKEN_WHILE),                             -- "док"
   ([0xD0, 0xB7, 0xD0, 0xB0], TOKEN_FOR),                                           -- "за"
   ([0xD1, 0x80, 0xD0, 0xB0, 0xD0, 0xB4, 0xD0, 0xB8], TOKEN_DO),                    -- "ради"
   ([0xD0, 0xBF, 0xD1, 0x80, 0xD0, 0xB5, 0xD0, 0xBA, 0xD0, 0xB8, 0xD0, 0xBD,
     0xD0, 0xB8], TOKEN_BREAK),                                                     -- "прекини"
   ([0xD0, 0xB2, 0xD1, 0x80, 0xD0, 0xB0, 0xD1, 0x82, 0xD0, 0xB8], TOKEN_RETURN),   -- "врати"
   ([0xD0, 0xB5, 0xD0, 0xBA, 0xD1, 0x81, 0xD1, 0x82, 0xD0, 0xB5, 0xD1, 0x80,
     0xD0, 0xBD, 0xD0, 0xBE], TOKEN_EXTERNAL),                                      -- "екстерно"
   ([0xD1, 0x82, 0xD0, 0xB0, 0xD1, 0x87, 0xD0, 0xBD, 0xD0, 0xBE], TOKEN_TRUE),     -- "тачно"
   ([0xD0, 0xBD, 0xD0, 0xB5, 0xD1, 0x82, 0xD0, 0xB0, 0xD1, 0x87, 0xD0, 0xBD,
     0xD0, 0xBE], TOKEN_FALSE)]                                                     -- "нетачно"

/-- Loop of `is_keyword` from `keywords.c` (`for` over `keywords_table` with
early `return true` on `utf8_strcmp(str, …) == 0`). -/
def is_keyword_loop : List (List Nat × TokenType) → List Nat → Bool
  | [], _ => false
  | (word, _) :: rest, str =>
    if utf8_strcmp str word = 0 then true else is_keyword_loop rest str

/-- Function `is_keyword` from `keywords.c` (the `str == NULL` guard has no
counterpart for Lean lists). -/
def is_keyword (str : List Nat) : Bool := is_keyword_loop keywords_table str

/-- Loop of `get_keyword_token` from `keywords.c`. -/
def get_keyword_token_loop : List (List Nat × TokenType) → List Nat → TokenType
  | [], _ => TOKEN_KEYWORD_LAST
  | (word, t) :: rest, str =>
    if utf8_strcmp str word = 0 then t else get_keyword_token_loop rest str

/-- Function `get_keyword_token` from `keywords.c`. -/
def get_keyword_token (str : List Nat) : TokenType :=
  get_keyword_token_loop keywords_table str

theorem keyword_loops_agree (tbl : List (List Nat × TokenType)) (str : List Nat)
    (h : ∀ p ∈ tbl, p.2 ≠ TOKEN_KEYWORD_LAST) :
    (is_keyword_loop tbl str = true ↔ get_keyword_token_loop tbl str ≠ TOKEN_KEYWORD_LAST) := by
  induction tbl with
  | nil => simp [is_keyword_loop, get_keyword_token_loop]
  | cons p rest ih =>
    obtain ⟨word, t⟩ := p
    simp only [is_keyword_loop, get_keyword_token_loop]
    by_cases hc : utf8_strcmp str word = 0
    · simp only [if_pos hc]
      exact ⟨fun _ => h (word, t) (List.mem_cons_self _ _), fun _ => trivial⟩
    · simp only [if_neg hc]
      exact ih fun p hp => h p (List.mem_cons_of_mem _ hp)

theorem keyword_loop_exists (tbl : List (List Nat × TokenType)) (str : List Nat) :
    (is_keyword_loop tbl str = true ↔
      ∃ word, word ∈ tbl.map Prod.fst ∧ utf8_strcmp str word = 0) := by
  induction tbl with
  | nil => simp [is_keyword_loop]
  | cons p rest ih =>
    obtain ⟨word, t⟩ := p
    simp only [is_keyword_loop, List.map_cons, List.mem_cons]
    by_cases hc : utf8_strcmp str word = 0
    · simp only [if_pos hc]
      exact ⟨fun _ => ⟨word, Or.inl rfl, hc⟩, fun _ => trivial⟩
    · simp only [if_neg hc]
      rw [ih]
      constructor
      · rintro ⟨w, hw, hs⟩
        exact ⟨w, Or.inr hw, hs⟩
      · rintro ⟨w, hw | hw, hs⟩
        · exact absurd (hw ▸ hs) hc
        · exact ⟨w, hw, hs⟩

/-- C1 amended. -/
theorem is_keyword_characterization :
    (∀ str : List Nat, is_keyword str = true ↔ get_keyword_token str ≠ TOKEN_KEYWORD_LAST) ∧
    (∀ str : List Nat,
      is_keyword str = true ↔ ∃ word, word ∈ keywords_table.map Prod.fst ∧
        utf8_strcmp str word = 0) ∧
    (∀ word, word ∈ keywords_table.map Prod.fst → is_keyword word = true) := by
  refine ⟨fun str => keyword_loops_agree keywords_table str (by decide),
    fun str => keyword_loop_exists keywords_table str, ?_⟩
  decide

/-- C1 witness. -/
theorem is_keyword_characterization_witness :
    is_keyword [0xD0, 0xB0, 0xD0, 0xBA, 0xD0, 0xBE] = true :=
  is_keyword_characterization.2.2 [0xD0, 0xB0, 0xD0, 0xBA, 0xD0, 0xBE] (by decide)

/-- C1 counterexample. -/
theorem is_keyword_accepts_ill_formed_bytes :
    is_keyword ([0x80, 0xD0, 0xB0, 0xD0, 0xBA, 0xD0, 0xBE]) = true ∧
    ([0x80, 0xD0, 0xB0, 0xD0, 0xBA, 0xD0, 0xBE] ∉ keywords_table.map Prod.fst) := by
  decide


/-! ## error.h / error.c: the diagnostics registry -/

/-- Enum `ErrorType` from `error.h`. -/
inductive ErrorType where
  | ERROR_LEXICAL
  | ERROR_SYNTAX
  | ERROR_SEMANTIC
  | ERROR_CODEGEN
  | ERROR_IO
  | ERROR_INTERNAL
  deriving DecidableEq, Repr

/-- Enum `ErrorSeverity` from `error.h`. -/
inductive ErrorSeverity where
  | ERROR_WARNING
  | ERROR_ERROR
  | ERROR_FATAL
  deriving DecidableEq, Repr

open ErrorType ErrorSeverity

/-- Struct `Error` from `error.h`.  The `safe_strdup` copies performed by
`error_report` are value copies here. -/
structure Error where
  etype : ErrorType
  severity : ErrorSeverity
  filename : String
  line : Int
  column : Int
  message : String
  suggestion : Option String
  compiler_file : String
  compiler_line : Int
  deriving DecidableEq, Repr

/-- Lines that `error.c` writes to `stderr`: the rendering of a reported
entry (`error_print`), the "Too many errors, stopping error tracking."
notice, and the "Fatal error encountered, stopping compilation." line.  The
textual formatting (colors, path stripping) is not modelled; what matters
for the claims is which lines are emitted. -/
inductive ConsoleLine where
  | printed_error (e : Error)
  | too_many_errors
  | fatal_stop
  deriving DecidableEq, Repr

/-- Process-wide state of `error.c`: the static `error_list[MAX_ERRORS]`
array together with `error_count` (modelled as a list of the recorded
entries), the stream of stderr lines, and whether `exit` was called. -/
structure ErrState where
  error_list : List Error
  stderr : List ConsoleLine
  exited : Bool
  deriving DecidableEq, Repr

/-- Constant `MAX_ERRORS` from `error.c`. -/
def MAX_ERRORS : Nat := 500

/-- Empty registry (state after `error_init`). -/
def error_init : ErrState := { error_list := [], stderr := [], exited := false }

/-- Function `error_report` from `error.c`.  Returns the C `bool` result and
the new registry state.  The `NULL`-argument fallbacks (`"<unknown>"`,
`"<no message>"`) have no counterpart for Lean strings; log-file output
duplicates the stderr stream and is not modelled separately.  On
`ERROR_FATAL` the C process prints, cleans up and `exit`s; this is the
`exited` flag. -/
def error_report (st : ErrState) (etype : ErrorType) (severity : ErrorSeverity)
    (filename : String) (line column : Int) (message : String)
    (suggestion : Option String) (compiler_file : String) (compiler_line : Int) :
    Bool × ErrState :=
  if MAX_ERRORS ≤ st.error_list.length then
    (false, { st with stderr := st.stderr ++ [ConsoleLine.too_many_errors] })
  else
    let e : Error :=
      { etype := etype, severity := severity, filename := filename, line := line,
        column := column, message := message, suggestion := suggestion,
        compiler_file := compiler_file, compiler_line := compiler_line }
    let st := { st with error_list := st.error_list ++ [e],
                        stderr := st.stderr ++ [ConsoleLine.printed_error e] }
    if severity = ERROR_FATAL then
      (true, { st with stderr := st.stderr ++ [ConsoleLine.fatal_stop], exited := true })
    else
      (true, st)

/-- Function `error_get_count` from `error.c`, for a specific severity
(`severity < 0` returns the total count). -/
def error_get_count (st : ErrState) (severity : Option ErrorSeverity) : Nat :=
  match severity with
  | none => st.error_list.length
  | some s => (st.error_list.filter (fun e => e.severity = s)).length

/-- Convenient fixed entry used by concrete counterexamples. -/
def sample_error : Error :=
  { etype := ERROR_LEXICAL, severity := ERROR_ERROR, filename := "f", line := 1, column := 1,
    message := "m", suggestion := none, compiler_file := "c", compiler_line := 0 }

/-- Registry already holding `MAX_ERRORS` entries. -/
def full_err_state : ErrState :=
  { error_list := List.replicate MAX_ERRORS sample_error, stderr := [], exited := false }

set_option maxRecDepth 10000 in
/-- C6 counterexample. -/
theorem error_report_notice_not_single :
    (error_report
      (error_report full_err_state ERROR_LEXICAL ERROR_ERROR "f" 1 1 "m" none "c" 0).2
      ERROR_LEXICAL ERROR_ERROR "f" 1 1 "m" none "c" 0).2.stderr =
        [ConsoleLine.too_many_errors, ConsoleLine.too_many_errors] ∧
    (error_report
      (error_report full_err_state ERROR_LEXICAL ERROR_ERROR "f" 1 1 "m" none "c" 0).2
      ERROR_LEXICAL ERROR_ERROR "f" 1 1 "m" none "c" 0).2.error_list.length = 500 := by
  constructor
  · rfl
  · rfl

/-- C6 amended. -/
theorem error_report_cap (st : ErrState) (etype : ErrorType) (severity : ErrorSeverity)
    (filename : String) (line column : Int) (message : String) (suggestion : Option String)
    (compiler_file : String) (compiler_line : Int) :
    (MAX_ERRORS ≤ st.error_list.length →
      error_report st etype severity filename line column message suggestion compiler_file
          compiler_line =
        (false, { st with stderr := st.stderr ++ [ConsoleLine.too_many_errors] })) ∧
    (st.error_list.length ≤ MAX_ERRORS →
      (error_report st etype severity filename line column message suggestion compiler_file
          compiler_line).2.error_list.length ≤ MAX_ERRORS) ∧
    (st.error_list.length < MAX_ERRORS →
      (error_report st etype severity filename line column message suggestion compiler_file
          compiler_line).2.error_list.length = st.error_list.length + 1) := by
  refine ⟨fun h => ?_, fun h => ?_, fun h => ?_⟩
  · simp only [error_report, if_pos h]
  · by_cases hf : MAX_ERRORS ≤ st.error_list.length
    · simp only [error_report, if_pos hf]
      omega
    · simp only [error_report, if_neg hf]
      by_cases hs : severity = ERROR_FATAL <;> simp [hs] <;> omega
  · have hf : ¬ MAX_ERRORS ≤ st.error_list.length := by omega
    simp only [error_report, if_neg hf]
    by_cases hs : severity = ERROR_FATAL <;> simp [hs]

set_option maxRecDepth 10000 in
/-- C6 witness. -/
theorem error_report_cap_witness :
    error_report full_err_state ErrorType.ERROR_LEXICAL ErrorSeverity.ERROR_ERROR "f" 1 1 "m"
        none "c" 0 =
      (false, { full_err_state with
                stderr := full_err_state.stderr ++ [ConsoleLine.too_many_errors] }) ∧
    (error_report error_init ErrorType.ERROR_LEXICAL ErrorSeverity.ERROR_ERROR "f" 1 1 "m"
        none "c" 0).2.error_list.length = 1 :=
  ⟨(error_report_cap full_err_state ERROR_LEXICAL ERROR_ERROR "f" 1 1 "m" none "c" 0).1
      (by decide),
   (error_report_cap error_init ERROR_LEXICAL ERROR_ERROR "f" 1 1 "m" none "c" 0).2.2
      (by decide)⟩


/-! ## lexer.c: tokens and the lexer state -/

/-- Value of the `const char* lexeme` slot of a token: either a pointer into
the source buffer (`make_token` sets `lexer->source + lexer->start`; we keep
the start offset, the length living in `lexeme_length`), or a pointer to an
error-message string (`error_token`). -/
inductive Lexeme where
  | slice (start : Nat)
  | msg (s : String)
  deriving DecidableEq, Repr

/-- Union `value` of a token: integer value, owned string value (bytes), or
character value (`int32_t` codepoint, always non-negative here). -/
inductive TokenValue where
  | int_value (v : Int)
  | string_value (bytes : List Nat)
  | char_value (c : Nat)
  deriving DecidableEq, Repr

/-- Struct `Token` from `lexer.h`. -/
structure Token where
  type : TokenType
  lexeme : Lexeme
  lexeme_length : Nat
  line : Int
  column : Int
  value : TokenValue
  deriving DecidableEq, Repr

/-- Struct `LexerState` from `lexer.h`.  `source_length` is
`source.length`; the C buffer's NUL terminator is modelled by reading
out-of-range indices as 0.  `current_token` and `next_token` are
uninitialized in C until first written; they get a fixed dummy value here
(unobservable before being written, since `has_next_token` starts false).
The process-global diagnostics registry of `error.c` is threaded through as
the `errors` field.  The `target_info` field is never read by any lexer
path and is omitted. -/
structure LexerState where
  source : List Nat
  filename : String
  current : Nat
  start : Nat
  line : Int
  column : Int
  previous_column : Int
  current_token : Token
  next_token : Token
  has_next_token : Bool
  errors : ErrState
  deriving DecidableEq, Repr

/-- Placeholder for the uninitialized `current_token` / `next_token` fields. -/
def uninit_token : Token :=
  { type := TOKEN_EOF, lexeme := Lexeme.slice 0, lexeme_length := 0, line := 0, column := 0,
    value := TokenValue.int_value 0 }

/-- Function `lexer_init` from `lexer.c`, after the file has been read into
memory (file I/O is outside the model: the caller provides the byte
contents). -/
def lexer_init (source : List Nat) (filename : String) (errors : ErrState) : LexerState :=
  { source := source, filename := filename, current := 0, start := 0, line := 1, column := 1,
    previous_column := 1, current_token := uninit_token, next_token := uninit_token,
    has_next_token := false, errors := errors }

/-- Function `determine_utf8_bytes` from `lexer.c` (invalid lead bytes count
as a single byte). -/
def determine_utf8_bytes (first_byte : Nat) : Nat :=
  if first_byte &&& 0x80 = 0 then 1
  else if first_byte &&& 0xE0 = 0xC0 then 2
  else if first_byte &&& 0xF0 = 0xE0 then 3
  else if first_byte &&& 0xF8 = 0xF0 then 4
  else 1

/-- Function `peek` from `lexer.c`: the byte at the cursor, `'\0'` at the
end.  (The C version returns the `char` value, which is negative for bytes
over 127; every comparison made against it in `lexer.c` involves ASCII
characters or zero, for which the signed and the unsigned readings agree, so
the byte value is used here.) -/
def peek (lexer : LexerState) : Nat :=
  if lexer.source.length ≤ lexer.current then 0
  else lexer.source.getD lexer.current 0

/-- Function `peek_next` from `lexer.c`. -/
def peek_next (lexer : LexerState) : Nat :=
  if lexer.source.length ≤ lexer.current + 1 then 0
  else lexer.source.getD (lexer.current + 1) 0

/-- Function `peek_utf8_char` from `lexer.c`: decodes the codepoint at the
cursor without advancing; `EOF` (−1) at the end of the buffer or on an
incomplete trailing sequence. -/
def peek_utf8_char (lexer : LexerState) : Int :=
  if lexer.source.length ≤ lexer.current then -1
  else
    let first_byte := lexer.source.getD lexer.current 0
    let num_bytes := determine_utf8_bytes first_byte
    if lexer.source.length < lexer.current + num_bytes then -1
    else if num_bytes = 1 then (first_byte : Int)
    else if num_bytes = 2 then
      (((first_byte &&& 0x1F) <<< 6) |||
        (lexer.source.getD (lexer.current + 1) 0 &&& 0x3F) : Nat)
    else if num_bytes = 3 then
      (((first_byte &&& 0x0F) <<< 12) |||
        ((lexer.source.getD (lexer.current + 1) 0 &&& 0x3F) <<< 6) |||
        (lexer.source.getD (lexer.current + 2) 0 &&& 0x3F) : Nat)
    else
      (((first_byte &&& 0x07) <<< 18) |||
        ((lexer.source.getD (lexer.current + 1) 0 &&& 0x3F) <<< 12) |||
        ((lexer.source.getD (lexer.current + 2) 0 &&& 0x3F) <<< 6) |||
        (lexer.source.getD (lexer.current + 3) 0 &&& 0x3F) : Nat)

/-- Continuation-byte loop of `advance` (`for (int i = 1; i < bytes_to_read;
i++)`): reads further bytes, rewinding one byte and falling back to the
first byte on an invalid continuation, falling back without rewind on a
premature end of buffer. -/
def advance_loop (lexer : LexerState) (acc : List Nat) (remaining : Nat)
    (first_byte : Nat) : Nat × LexerState :=
  match remaining with
  | 0 =>
    match utf8_decode acc with
    | (0, _) => (first_byte, lexer)
    | (_, character) => (character.codepoint, lexer)
  | r + 1 =>
    if lexer.source.length ≤ lexer.current then (first_byte, lexer)
    else
      let next_byte := lexer.source.getD lexer.current 0
      let lexer := { lexer with current := lexer.current + 1, column := lexer.column + 1 }
      if next_byte &&& 0xC0 ≠ 0x80 then
        (first_byte, { lexer with current := lexer.current - 1, column := lexer.column - 1 })
      else
        advance_loop lexer (acc ++ [next_byte]) r first_byte

/-- Function `advance` from `lexer.c`: consumes one codepoint (or one byte
on invalid UTF-8), updating cursor, line and column; returns `'\0'` at the
end of the buffer.  The dead `bytes_to_read <= 0` check of the C code is
unreachable because `determine_utf8_bytes` never returns less than 1. -/
def advance (lexer : LexerState) : Nat × LexerState :=
  if lexer.source.length ≤ lexer.current then (0, lexer)
  else
    let first_byte := lexer.source.getD lexer.current 0
    let lexer := { lexer with current := lexer.current + 1,
                              previous_column := lexer.column, column := lexer.column + 1 }
    if first_byte = 10 then
      (10, { lexer with line := lexer.line + 1, column := 1 })
    else if first_byte &&& 0x80 = 0 then
      (first_byte, lexer)
    else
      let bytes_to_read := determine_utf8_bytes first_byte
      advance_loop lexer [first_byte] (bytes_to_read - 1) first_byte

/-- Function `advance_utf8` from `lexer.c` (defined in the source but never
called). -/
def advance_utf8 (lexer : LexerState) : Int × LexerState :=
  if lexer.source.length ≤ lexer.current then (-1, lexer)
  else
    let codepoint := peek_utf8_char lexer
    let first_byte := lexer.source.getD lexer.current 0
    let num_bytes := determine_utf8_bytes first_byte
    (codepoint, { lexer with current := lexer.current + num_bytes })

/-- Function `match` from `lexer.c` (named `lexer_match` here because
`match` is reserved in Lean): conditionally consumes one byte. -/
def lexer_match (lexer : LexerState) (expected : Nat) : Bool × LexerState :=
  if lexer.source.length ≤ lexer.current then (false, lexer)
  else if lexer.source.getD lexer.current 0 ≠ expected then (false, lexer)
  else (true, { lexer with current := lexer.current + 1, column := lexer.column + 1 })

/-- Macro-level model of `isdigit` from `<ctype.h>` on byte/codepoint
values: ASCII decimal digits.  (For arguments above 255 the C call is
undefined behaviour; every actual call site is reached only with ASCII
values or values for which the result is `false` on the reference C
library.) -/
def isdigit (c : Nat) : Bool := 48 ≤ c ∧ c ≤ 57

/-- Model of `isxdigit` from `<ctype.h>`: ASCII hexadecimal digits. -/
def isxdigit (c : Nat) : Bool :=
  (48 ≤ c ∧ c ≤ 57) ∨ (65 ≤ c ∧ c ≤ 70) ∨ (97 ≤ c ∧ c ≤ 102)

/-- Numeric value of one ASCII hex digit (helper for the `strtol(hex, NULL,
16)` calls on the buffers collected by the escape scanners). -/
def hex_digit_value (c : Nat) : Nat :=
  if 48 ≤ c ∧ c ≤ 57 then c - 48
  else if 65 ≤ c ∧ c ≤ 70 then c - 55
  else if 97 ≤ c ∧ c ≤ 102 then c - 87
  else 0

/-- Value of `strtol(hex, NULL, 16)` on a buffer of hex digits. -/
def hex_value : List Nat → Nat
  | [] => 0
  | d :: rest => hex_digit_value d * 16 ^ rest.length + hex_value rest

/-- Value of `strtol(number_str, NULL, 10)` on a lexeme beginning with ASCII
digits (`scan_number` only ever passes such lexemes; parsing stops at the
first non-digit, and overflow clamps to `LONG_MAX` as glibc does). -/
def strtol10 (s : List Nat) : Int :=
  let digits := s.takeWhile isdigit
  let v : Nat := digits.foldl (fun acc d => acc * 10 + (d - 48)) 0
  if v ≤ 9223372036854775807 then (v : Int) else 9223372036854775807

/-- Function `is_identifier_start` from `lexer.c`.  The argument is the
`int32_t` codepoint (possibly `EOF`); the C cast `(utf8_codepoint_t)c` for
values above 127 is the identity on the non-negative values that reach it. -/
def is_identifier_start (c : Int) : Bool :=
  if (97 ≤ c ∧ c ≤ 122) ∨ (65 ≤ c ∧ c ≤ 90) ∨ c = 95 then true
  else if 127 < c then utf8_is_identifier_char c.toNat true
  else false

/-- Function `is_identifier_part` from `lexer.c`. -/
def is_identifier_part (c : Int) : Bool :=
  if (97 ≤ c ∧ c ≤ 122) ∨ (65 ≤ c ∧ c ≤ 90) ∨ (48 ≤ c ∧ c ≤ 57) ∨ c = 95 then true
  else if 127 < c then utf8_is_identifier_char c.toNat false
  else false

/-- Function `make_token` from `lexer.c`. -/
def make_token (lexer : LexerState) (type : TokenType) : Token :=
  { type := type, lexeme := Lexeme.slice lexer.start,
    lexeme_length := lexer.current - lexer.start,
    line := lexer.line,
    column := lexer.column - ((lexer.current - lexer.start : Nat) : Int),
    value := TokenValue.int_value 0 }

/-- Function `error_token` from `lexer.c`: the message string becomes the
lexeme, `lexeme_length` is its `strlen`. -/
def error_token (lexer : LexerState) (message : String) : Token :=
  { type := TOKEN_ERROR, lexeme := Lexeme.msg message,
    lexeme_length := message.utf8ByteSize,
    line := lexer.line, column := lexer.column, value := TokenValue.int_value 0 }


open ErrorType ErrorSeverity in
/-- Shorthand for the `error_report(...)` statements of `lexer.c`: only the
registry state matters to the lexer.  The `__FILE__` / `__LINE__` arguments
are modelled as `"lexer.c"` / 0. -/
def lexer_report (st : ErrState) (severity : ErrorSeverity) (filename : String)
    (line column : Int) (message : String) (suggestion : String) : ErrState :=
  (error_report st ERROR_LEXICAL severity filename line column message (some suggestion)
    "lexer.c" 0).2

/-- Message built by `snprintf(error_msg, …, "Invalid escape sequence
'\\%c'", (char)c)` in `scan_string` / `scan_character_literal`. -/
def invalid_escape_message (c : Nat) : String :=
  "Invalid escape sequence '\\" ++ String.mk [Char.ofNat (c % 256)] ++ "'"

/-- Inner loop of the line-comment case of `skip_whitespace`
(`while (peek != '\n' && peek != '\0') advance`). -/
def line_comment_loop : Nat → LexerState → LexerState
  | 0, lexer => lexer
  | fuel + 1, lexer =>
    if peek lexer ≠ 10 ∧ peek lexer ≠ 0 then line_comment_loop fuel (advance lexer).2
    else lexer

/-- Inner loop of the block-comment case of `skip_whitespace` (scan for the
closing `*/`, consuming it when found). -/
def block_comment_loop : Nat → LexerState → LexerState
  | 0, lexer => lexer
  | fuel + 1, lexer =>
    if lexer.current < lexer.source.length then
      if peek lexer = 42 ∧ peek_next lexer = 47 then (advance (advance lexer).2).2
      else block_comment_loop fuel (advance lexer).2
    else lexer

/-- Function `skip_whitespace` from `lexer.c` (the outer `while` with its
`switch`; each iteration consumes at least one byte, bounding the iteration
count by the remaining length). -/
def skip_whitespace_loop : Nat → LexerState → LexerState
  | 0, lexer => lexer
  | fuel + 1, lexer =>
    if lexer.current < lexer.source.length then
      let c := peek lexer
      if c = 32 ∨ c = 9 ∨ c = 13 then skip_whitespace_loop fuel (advance lexer).2
      else if c = 10 then skip_whitespace_loop fuel (advance lexer).2
      else if c = 47 then
        if peek_next lexer = 47 then
          skip_whitespace_loop fuel
            (line_comment_loop (lexer.source.length - lexer.current + 1) lexer)
        else if peek_next lexer = 42 then
          let lexer := (advance (advance lexer).2).2
          let lexer := block_comment_loop (lexer.source.length - lexer.current + 1) lexer
          let lexer :=
            if lexer.source.length ≤ lexer.current then
              { lexer with errors := (lexer_report lexer.errors ErrorSeverity.ERROR_WARNING
                  lexer.filename lexer.line lexer.column "Unterminated multi-line comment"
                  "Add */ to close the comment") }
            else lexer
          skip_whitespace_loop fuel lexer
        else lexer
      else lexer
    else lexer

/-- Function `skip_whitespace` from `lexer.c`. -/
def skip_whitespace (lexer : LexerState) : LexerState :=
  skip_whitespace_loop (lexer.source.length - lexer.current + 1) lexer

/-- Identifier loop of `scan_identifier`
(`while (is_identifier_part(peek_utf8_char(lexer))) advance`). -/
def scan_identifier_loop : Nat → LexerState → LexerState
  | 0, lexer => lexer
  | fuel + 1, lexer =>
    if is_identifier_part (peek_utf8_char lexer) then
      scan_identifier_loop fuel (advance lexer).2
    else lexer

/-- Function `scan_identifier` from `lexer.c`.  The `malloc`-failure branch
("Memory allocation failed") is unreachable in the model. -/
def scan_identifier (lexer : LexerState) : Token × LexerState :=
  let lexer := scan_identifier_loop (lexer.source.length - lexer.current + 1) lexer
  let length := lexer.current - lexer.start
  let identifier := (lexer.source.drop lexer.start).take length
  if is_keyword identifier then
    (make_token lexer (get_keyword_token identifier), lexer)
  else
    let token := make_token lexer TOKEN_IDENTIFIER
    ({ token with value := TokenValue.string_value identifier }, lexer)

/-- Digit loop of `scan_number` (`while (isdigit(peek(lexer))) advance`). -/
def scan_number_loop : Nat → LexerState → LexerState
  | 0, lexer => lexer
  | fuel + 1, lexer =>
    if isdigit (peek lexer) then scan_number_loop fuel (advance lexer).2
    else lexer

/-- Function `scan_number` from `lexer.c`. -/
def scan_number (lexer : LexerState) : Token × LexerState :=
  let lexer := scan_number_loop (lexer.source.length - lexer.current + 1) lexer
  let lexer :=
    if peek lexer = 46 ∧ isdigit (peek_next lexer) then
      let lexer := (advance lexer).2
      let lexer := scan_number_loop (lexer.source.length - lexer.current + 1) lexer
      { lexer with errors := (lexer_report lexer.errors ErrorSeverity.ERROR_WARNING
          lexer.filename lexer.line lexer.column
          "Floating-point numbers are not fully supported yet"
          "Truncating to integer value") }
    else lexer
  let length := lexer.current - lexer.start
  if 64 ≤ length then
    (error_token lexer "Number too large", lexer)
  else
    let number_str := (lexer.source.drop lexer.start).take length
    let token := make_token lexer TOKEN_NUMBER
    ({ token with value := TokenValue.int_value (strtol10 number_str) }, lexer)

/-- Hex-digit collection loop shared by the `\uXXXX` (count 4) and `\xXX`
(count 2) escape scanners: on a missing or non-hex digit the C code takes
its error path (`inl`, with the state at the point of failure); otherwise it
returns the collected digits. -/
def scan_hex_loop : Nat → LexerState → List Nat → Sum LexerState (List Nat × LexerState)
  | 0, lexer, hex => Sum.inr (hex, lexer)
  | count + 1, lexer, hex =>
    if lexer.source.length ≤ lexer.current ∨ isxdigit (peek lexer) = false then
      Sum.inl lexer
    else
      let d := peek lexer
      scan_hex_loop count (advance lexer).2 (hex ++ [d])

/-- Buffer-store step of `scan_string`: ASCII characters are stored
directly, larger codepoints are re-encoded through `utf8_encode` and the
`bytes` written bytes are appended (nothing is appended when `utf8_encode`
rejects). -/
def string_buffer_append (buffer : List Nat) (c : Nat) : List Nat :=
  if c < 128 then buffer ++ [c]
  else buffer ++ ((utf8_encode c).2.bytes.take (utf8_encode c).1)

/-- Main loop of `scan_string` (`while (peek != '"' && current <
source_length)`), building the string buffer.  `inl` is an early
`return error_token(…)` (diagnostic already reported); `inr` is normal loop
exit.  Each iteration consumes at least one byte. -/
def scan_string_loop : Nat → LexerState → List Nat → Int → Int →
    Sum (Token × LexerState) (List Nat × LexerState)
  | 0, lexer, buffer, _, _ => Sum.inr (buffer, lexer)
  | fuel + 1, lexer, buffer, start_line, start_column =>
    if peek lexer ≠ 34 ∧ lexer.current < lexer.source.length then
      let (c, lexer) := advance lexer
      if c = 92 then
        let (next, lexer) := advance lexer
        if next = 34 then
          scan_string_loop fuel lexer (string_buffer_append buffer 34) start_line start_column
        else if next = 92 then
          scan_string_loop fuel lexer (string_buffer_append buffer 92) start_line start_column
        else if next = 114 then
          scan_string_loop fuel lexer (string_buffer_append buffer 13) start_line start_column
        else if next = 116 then
          scan_string_loop fuel lexer (string_buffer_append buffer 9) start_line start_column
        else if next = 48 then
          scan_string_loop fuel lexer (string_buffer_append buffer 0) start_line start_column
        else if next = 110 then
          scan_string_loop fuel lexer (string_buffer_append buffer 10) start_line start_column
        else if next = 117 then
          match scan_hex_loop 4 lexer [] with
          | Sum.inl lexer =>
            let lexer := { lexer with errors := (lexer_report lexer.errors
                ErrorSeverity.ERROR_ERROR lexer.filename start_line start_column
                "Invalid Unicode escape sequence"
                "Unicode escape must be in the form \\uXXXX") }
            Sum.inl (error_token lexer "Invalid Unicode escape", lexer)
          | Sum.inr (hex, lexer) =>
            scan_string_loop fuel lexer (string_buffer_append buffer (hex_value hex))
              start_line start_column
        else if next = 120 then
          match scan_hex_loop 2 lexer [] with
          | Sum.inl lexer =>
            let lexer := { lexer with errors := (lexer_report lexer.errors
                ErrorSeverity.ERROR_ERROR lexer.filename start_line start_column
                "Invalid hex escape sequence"
                "Hex escape must be in the form \\xXX") }
            Sum.inl (error_token lexer "Invalid hex escape", lexer)
          | Sum.inr (hex, lexer) =>
            scan_string_loop fuel lexer (string_buffer_append buffer (hex_value hex))
              start_line start_column
        else if next = 98 then
          scan_string_loop fuel lexer (string_buffer_append buffer 8) start_line start_column
        else if next = 102 then
          scan_string_loop fuel lexer (string_buffer_append buffer 12) start_line start_column
        else if next = 118 then
          scan_string_loop fuel lexer (string_buffer_append buffer 11) start_line start_column
        else if next = 97 then
          scan_string_loop fuel lexer (string_buffer_append buffer 7) start_line start_column
        else
          let error_msg := invalid_escape_message next
          let lexer := { lexer with errors := (lexer_report lexer.errors
              ErrorSeverity.ERROR_ERROR lexer.filename lexer.line lexer.column error_msg
              "Use a valid escape sequence (\\n, \\t, etc.)") }
          Sum.inl (error_token lexer error_msg, lexer)
      else
        scan_string_loop fuel lexer (string_buffer_append buffer c) start_line start_column
    else Sum.inr (buffer, lexer)

/-- Function `scan_string` from `lexer.c` (the `malloc` / `realloc` failure
branches are unreachable in the model). -/
def scan_string (lexer : LexerState) : Token × LexerState :=
  let start_line := lexer.line
  let start_column := lexer.column - 1
  match scan_string_loop (lexer.source.length - lexer.current + 1) lexer [] start_line
      start_column with
  | Sum.inl res => res
  | Sum.inr (buffer, lexer) =>
    if lexer.source.length ≤ lexer.current ∨ peek lexer ≠ 34 then
      let lexer := { lexer with errors := (lexer_report lexer.errors
          ErrorSeverity.ERROR_ERROR lexer.filename start_line start_column
          "Unterminated string literal" "Add closing double quote") }
      (error_token lexer "Unterminated string", lexer)
    else
      let lexer := (advance lexer).2
      let token := make_token lexer TOKEN_STRING
      ({ token with value := TokenValue.string_value buffer }, lexer)

/-- Continuation-byte loop of the regular-character branch of
`scan_character_literal` (`for (int i = 1; i < bytes_to_read; i++)`), with
its two error paths.  The `(char)` store truncates to a byte. -/
def scan_char_utf8_loop : Nat → LexerState → List Nat → Int → Int →
    Sum (Token × LexerState) (List Nat × LexerState)
  | 0, lexer, acc, _, _ => Sum.inr (acc, lexer)
  | count + 1, lexer, acc, start_line, start_column =>
    if lexer.source.length ≤ lexer.current then
      let lexer := { lexer with errors := (lexer_report lexer.errors
          ErrorSeverity.ERROR_ERROR lexer.filename start_line start_column
          "Incomplete UTF-8 character" "Character must be complete UTF-8 sequence") }
      Sum.inl (error_token lexer "Incomplete UTF-8 character", lexer)
    else
      let (next_byte, lexer) := advance lexer
      if next_byte &&& 0xC0 ≠ 0x80 then
        let lexer := { lexer with errors := (lexer_report lexer.errors
            ErrorSeverity.ERROR_ERROR lexer.filename start_line start_column
            "Invalid UTF-8 continuation byte" "Character must be valid UTF-8") }
        Sum.inl (error_token lexer "Invalid UTF-8 continuation byte", lexer)
      else
        scan_char_utf8_loop count lexer (acc ++ [next_byte % 256]) start_line start_column

/-- Function `scan_character_literal` from `lexer.c`.  The intermediate
`read` value is the `int32_t c` produced by the escape / regular-character
part of the function body (`inl` = early error return).  The dead
`bytes_to_read <= 0` branch is unreachable because `determine_utf8_bytes`
never returns less than 1. -/
def scan_character_literal (lexer : LexerState) : Token × LexerState :=
  let start_line := lexer.line
  let start_column := lexer.column - 1
  let read : Sum (Token × LexerState) (Nat × LexerState) :=
    if peek lexer = 92 then
      let lexer := (advance lexer).2
      let p := peek lexer
      if p = 39 then Sum.inr (39, (advance lexer).2)
      else if p = 92 then Sum.inr (92, (advance lexer).2)
      else if p = 110 then Sum.inr (10, (advance lexer).2)
      else if p = 114 then Sum.inr (13, (advance lexer).2)
      else if p = 116 then Sum.inr (9, (advance lexer).2)
      else if p = 48 then Sum.inr (0, (advance lexer).2)
      else if p = 117 then
        let lexer := (advance lexer).2
        match scan_hex_loop 4 lexer [] with
        | Sum.inl lexer =>
          let lexer := { lexer with errors := (lexer_report lexer.errors
              ErrorSeverity.ERROR_ERROR lexer.filename start_line start_column
              "Invalid Unicode escape sequence"
              "Unicode escape must be in the form \\uXXXX") }
          Sum.inl (error_token lexer "Invalid Unicode escape", lexer)
        | Sum.inr (hex, lexer) => Sum.inr (hex_value hex, lexer)
      else
        let error_msg := invalid_escape_message p
        let lexer := { lexer with errors := (lexer_report lexer.errors
            ErrorSeverity.ERROR_ERROR lexer.filename lexer.line lexer.column error_msg
            "Use a valid escape sequence (\\n, \\t, etc.)") }
        Sum.inl (error_token lexer error_msg, lexer)
    else
      let (c, lexer) := advance lexer
      if c &&& 0x80 ≠ 0 then
        let first_byte := c % 256
        let bytes_to_read := determine_utf8_bytes first_byte
        match scan_char_utf8_loop (bytes_to_read - 1) lexer [first_byte] start_line
            start_column with
        | Sum.inl res => Sum.inl res
        | Sum.inr (acc, lexer) =>
          match utf8_decode acc with
          | (0, _) =>
            let lexer := { lexer with errors := (lexer_report lexer.errors
                ErrorSeverity.ERROR_ERROR lexer.filename start_line start_column
                "Invalid UTF-8 character" "Character must be valid UTF-8") }
            Sum.inl (error_token lexer "Invalid UTF-8 character", lexer)
          | (_, character) => Sum.inr (character.codepoint, lexer)
      else Sum.inr (c, lexer)
  match read with
  | Sum.inl res => res
  | Sum.inr (c, lexer) =>
    if peek lexer ≠ 39 then
      let lexer := { lexer with errors := (lexer_report lexer.errors
          ErrorSeverity.ERROR_ERROR lexer.filename start_line start_column
          "Unterminated character literal" "Add closing single quote") }
      (error_token lexer "Unterminated character literal", lexer)
    else
      let lexer := (advance lexer).2
      let token := make_token lexer TOKEN_CHAR_LITERAL
      ({ token with value := TokenValue.char_value c }, lexer)

/-- Function `scan_token` from `lexer.c`: dispatch on the consumed
codepoint.  Note that the default case returns an error token WITHOUT any
`error_report` call. -/
def scan_token (lexer : LexerState) : Token × LexerState :=
  let (c, lexer) := advance lexer
  if is_identifier_start (c : Int) then scan_identifier lexer
  else if isdigit c then scan_number lexer
  else if c = 40 then (make_token lexer TOKEN_LEFT_PAREN, lexer)
  else if c = 41 then (make_token lexer TOKEN_RIGHT_PAREN, lexer)
  else if c = 91 then (make_token lexer TOKEN_LEFT_BRACKET, lexer)
  else if c = 93 then (make_token lexer TOKEN_RIGHT_BRACKET, lexer)
  else if c = 58 then (make_token lexer TOKEN_COLON, lexer)
  else if c = 59 then (make_token lexer TOKEN_SEMICOLON, lexer)
  else if c = 44 then (make_token lexer TOKEN_COMMA, lexer)
  else if c = 46 then (make_token lexer TOKEN_DOT, lexer)
  else if c = 43 then (make_token lexer TOKEN_PLUS, lexer)
  else if c = 45 then (make_token lexer TOKEN_MINUS, lexer)
  else if c = 42 then (make_token lexer TOKEN_STAR, lexer)
  else if c = 47 then (make_token lexer TOKEN_SLASH, lexer)
  else if c = 37 then (make_token lexer TOKEN_PERCENT, lexer)
  else if c = 94 then (make_token lexer TOKEN_CARET, lexer)
  else if c = 126 then (make_token lexer TOKEN_TILDE, lexer)
  else if c = 33 then
    let (m, lexer) := lexer_match lexer 61
    (make_token lexer (if m then TOKEN_NOT_EQUALS else TOKEN_NOT), lexer)
  else if c = 61 then
    let (m, lexer) := lexer_match lexer 61
    (make_token lexer (if m then TOKEN_DOUBLE_EQUALS else TOKEN_EQUALS), lexer)
  else if c = 60 then
    let (m, lexer) := lexer_match lexer 61
    (make_token lexer (if m then TOKEN_LESS_EQUALS else TOKEN_LESS), lexer)
  else if c = 62 then
    let (m, lexer) := lexer_match lexer 61
    (make_token lexer (if m then TOKEN_GREATER_EQUALS else TOKEN_GREATER), lexer)
  else if c = 38 then
    let (m, lexer) := lexer_match lexer 38
    (make_token lexer (if m then TOKEN_DOUBLE_AND else TOKEN_AND), lexer)
  else if c = 124 then
    let (m, lexer) := lexer_match lexer 124
    (make_token lexer (if m then TOKEN_DOUBLE_OR else TOKEN_OR), lexer)
  else if c = 34 then scan_string lexer
  else if c = 39 then scan_character_literal lexer
  else (error_token lexer "Unexpected character", lexer)

/-- Function `lexer_next_token` from `lexer.c`: consume the cached lookahead
if present, otherwise skip whitespace, record the lexeme start and scan. -/
def lexer_next_token (lexer : LexerState) : Token × LexerState :=
  if lexer.has_next_token then
    (lexer.next_token, { lexer with has_next_token := false })
  else
    let lexer := skip_whitespace lexer
    let lexer := { lexer with start := lexer.current }
    if lexer.source.length ≤ lexer.current then
      (make_token lexer TOKEN_EOF, lexer)
    else
      let (token, lexer) := scan_token lexer
      (token, { lexer with current_token := token })

/-- Function `lexer_peek_token` from `lexer.c`: snapshot (current, start,
line, column, previous_column), produce the next token, cache it, and
restore the snapshot. -/
def lexer_peek_token (lexer : LexerState) : Token × LexerState :=
  if lexer.has_next_token then (lexer.next_token, lexer)
  else
    let saved_current := lexer.current
    let saved_start := lexer.start
    let saved_line := lexer.line
    let saved_column := lexer.column
    let saved_prev_column := lexer.previous_column
    let (token, lexer) := lexer_next_token lexer
    let lexer :=
      { lexer with
        next_token := token, has_next_token := true, current := saved_current,
        start := saved_start, line := saved_line, column := saved_column,
        previous_column := saved_prev_column }
    (token, lexer)


def sample_lexer (bytes : List Nat) : LexerState := lexer_init bytes "test" error_init

/-- Stream of the next `n` tokens produced by repeated `lexer_next_token`
calls. -/
def lexer_token_stream : Nat → LexerState → List Token
  | 0, _ => []
  | n + 1, lexer =>
    let r := lexer_next_token lexer
    r.1 :: lexer_token_stream n r.2

theorem lexer_next_token_eof (lexer : LexerState)
    (h1 : lexer.source.length ≤ lexer.current) (h2 : lexer.has_next_token = false) :
    lexer_next_token lexer =
      (make_token { lexer with start := lexer.current } TOKEN_EOF,
       { lexer with start := lexer.current }) := by
  have hf : lexer.source.length - lexer.current + 1 = 0 + 1 := by omega
  simp only [lexer_next_token, h2, Bool.false_eq_true, if_false, skip_whitespace, hf,
    skip_whitespace_loop]
  rw [if_neg (by omega : ¬ lexer.current < lexer.source.length)]
  rw [if_pos (show ({ lexer with start := lexer.current } : LexerState).source.length ≤
    ({ lexer with start := lexer.current } : LexerState).current from h1)]
  rw [h2]

theorem lexer_eof_stream (lexer : LexerState) (h1 : lexer.source.length ≤ lexer.current)
    (h2 : lexer.has_next_token = false) :
    ∀ n, lexer_token_stream n lexer =
      List.replicate n (make_token { lexer with start := lexer.current } TOKEN_EOF) := by
  intro n
  induction n generalizing lexer with
  | zero => simp [lexer_token_stream]
  | succ n ih =>
    rw [lexer_token_stream, lexer_next_token_eof lexer h1 h2, List.replicate_succ]
    show _ :: _ = _ :: _
    congr 1
    have := ih { lexer with start := lexer.current } h1 h2
    rw [this]

set_option maxRecDepth 4000 in
theorem and_128_small (d : Nat) (h : d < 128) : d &&& 128 = 0 := by
  revert h; revert d; decide

theorem hexdigit_facts (d : Nat) (h : isxdigit d = true) :
    d < 128 ∧ d ≠ 10 ∧ (d &&& 128 = 0) ∧ d ≠ 34 ∧ d ≠ 39 := by
  have h9 : (48 ≤ d ∧ d ≤ 57) ∨ (65 ≤ d ∧ d ≤ 70) ∨ (97 ≤ d ∧ d ≤ 102) := by
    simpa [isxdigit] using h
  have hlt : d < 128 := by omega
  exact ⟨hlt, by omega, and_128_small d hlt, by omega, by omega⟩

/-- C10: after exhaustion, `lexer_next_token` only ever returns `TOKEN_EOF`
and only rewrites `start` to the (unchanged) cursor; with a cached lookahead
the cache is returned and then the same applies. -/
theorem lexer_eof_forever (lexer : LexerState) (h1 : lexer.source.length ≤ lexer.current) :
    (lexer.has_next_token = false →
      (lexer_next_token lexer).1.type = TOKEN_EOF ∧
      (lexer_next_token lexer).2 = { lexer with start := lexer.current } ∧
      ∀ n, lexer_token_stream n lexer =
        List.replicate n (make_token { lexer with start := lexer.current } TOKEN_EOF)) ∧
    (lexer.has_next_token = true →
      (lexer_next_token lexer).1 = lexer.next_token ∧
      (lexer_next_token lexer).2 = { lexer with has_next_token := false } ∧
      ∀ n, lexer_token_stream n (lexer_next_token lexer).2 =
        List.replicate n
          (make_token { lexer with has_next_token := false, start := lexer.current }
            TOKEN_EOF)) := by
  constructor
  · intro h2
    refine ⟨?_, ?_, lexer_eof_stream lexer h1 h2⟩
    · rw [lexer_next_token_eof lexer h1 h2]
      rfl
    · rw [lexer_next_token_eof lexer h1 h2]
  · intro h2
    have hnext : lexer_next_token lexer =
        (lexer.next_token, { lexer with has_next_token := false }) := by
      simp only [lexer_next_token, h2, if_true]
    refine ⟨by rw [hnext], by rw [hnext], ?_⟩
    rw [hnext]
    exact lexer_eof_stream { lexer with has_next_token := false } h1 rfl

/-- C10 witness. -/
theorem lexer_eof_forever_witness :
    (lexer_next_token (lexer_next_token (sample_lexer [43])).2).1.type = TOKEN_EOF ∧
    (lexer_next_token (lexer_next_token (sample_lexer [43])).2).2 =
      { (lexer_next_token (sample_lexer [43])).2 with
        start := (lexer_next_token (sample_lexer [43])).2.current } ∧
    lexer_token_stream 3 (lexer_next_token (sample_lexer [43])).2 =
      List.replicate 3
        (make_token
          { (lexer_next_token (sample_lexer [43])).2 with
            start := (lexer_next_token (sample_lexer [43])).2.current } TOKEN_EOF) :=
  ⟨((lexer_eof_forever (lexer_next_token (sample_lexer [43])).2 (by decide)).1 (by decide)).1,
   ((lexer_eof_forever (lexer_next_token (sample_lexer [43])).2 (by decide)).1 (by decide)).2.1,
   ((lexer_eof_forever (lexer_next_token (sample_lexer [43])).2 (by decide)).1 (by decide)).2.2 3⟩

/-- C5: demonstration that a peek changes the subsequent token stream. -/
theorem lexer_peek_duplicates_token :
    ((lexer_token_stream 3 (sample_lexer [43, 45])).map Token.type =
      [TOKEN_PLUS, TOKEN_MINUS, TOKEN_EOF]) ∧
    (lexer_peek_token (sample_lexer [43, 45])).1.type = TOKEN_PLUS ∧
    ((lexer_token_stream 3 (lexer_peek_token (sample_lexer [43, 45])).2).map Token.type =
      [TOKEN_PLUS, TOKEN_PLUS, TOKEN_MINUS]) := by decide

/-- C4 counterexample. -/
theorem unexpected_char_reports_nothing :
    (lexer_next_token (sample_lexer [64])).1.type = TOKEN_ERROR ∧
    (lexer_next_token (sample_lexer [64])).1.lexeme = Lexeme.msg "Unexpected character" ∧
    (lexer_next_token (sample_lexer [64])).2.errors = error_init := by decide

/-- C4 amended. -/
theorem error_token_contract :
    (∀ (lexer : LexerState) (message : String),
      (error_token lexer message).type = TOKEN_ERROR ∧
      (error_token lexer message).lexeme = Lexeme.msg message ∧
      (error_token lexer message).lexeme_length = message.utf8ByteSize) ∧
    ((lexer_next_token (sample_lexer [39, 120])).1.type = TOKEN_ERROR ∧
      (lexer_next_token (sample_lexer [39, 120])).2.errors.error_list.map Error.etype =
        [ErrorType.ERROR_LEXICAL]) ∧
    ((lexer_next_token (sample_lexer [34, 104])).1.type = TOKEN_ERROR ∧
      (lexer_next_token (sample_lexer [34, 104])).2.errors.error_list.map Error.etype =
        [ErrorType.ERROR_LEXICAL]) ∧
    ((lexer_next_token (sample_lexer [64])).1.type = TOKEN_ERROR ∧
      (lexer_next_token (sample_lexer [64])).2.errors.error_list = []) :=
  ⟨fun _ _ => ⟨rfl, rfl, rfl⟩, by decide, by decide, by decide⟩

/-- C3 counterexample. -/
theorem char_literal_rejects_string_escape :
    ((lexer_next_token (sample_lexer [34, 92, 98, 34])).1.type = TOKEN_STRING ∧
     (lexer_next_token (sample_lexer [34, 92, 98, 34])).1.value =
       TokenValue.string_value [8] ∧
     (lexer_next_token (sample_lexer [34, 92, 98, 34])).2.errors = error_init) ∧
    ((lexer_next_token (sample_lexer [39, 92, 98, 39])).1.type = TOKEN_ERROR ∧
     (lexer_next_token (sample_lexer [39, 92, 98, 39])).2.errors.error_list.map Error.etype =
       [ErrorType.ERROR_LEXICAL]) := by decide

set_option maxHeartbeats 2000000 in
set_option maxRecDepth 20000 in
/-- C3 amended. -/
theorem char_string_escape_correspondence (d1 d2 d3 d4 e : Nat) :
    ((lexer_next_token (sample_lexer [39, 92, 92, 39])).1.value = TokenValue.char_value 92 ∧
     (lexer_next_token (sample_lexer [34, 92, 92, 34])).1.value =
       TokenValue.string_value [92] ∧
     (lexer_next_token (sample_lexer [39, 92, 110, 39])).1.value = TokenValue.char_value 10 ∧
     (lexer_next_token (sample_lexer [34, 92, 110, 34])).1.value =
       TokenValue.string_value [10] ∧
     (lexer_next_token (sample_lexer [39, 92, 114, 39])).1.value = TokenValue.char_value 13 ∧
     (lexer_next_token (sample_lexer [34, 92, 114, 34])).1.value =
       TokenValue.string_value [13] ∧
     (lexer_next_token (sample_lexer [39, 92, 116, 39])).1.value = TokenValue.char_value 9 ∧
     (lexer_next_token (sample_lexer [34, 92, 116, 34])).1.value =
       TokenValue.string_value [9] ∧
     (lexer_next_token (sample_lexer [39, 92, 48, 39])).1.value = TokenValue.char_value 0 ∧
     (lexer_next_token (sample_lexer [34, 92, 48, 34])).1.value =
       TokenValue.string_value [0]) ∧
    ((lexer_next_token (sample_lexer [39, 92, 39, 39])).1.value = TokenValue.char_value 39 ∧
     (lexer_next_token (sample_lexer [34, 92, 39, 34])).1.type = TOKEN_ERROR ∧
     (lexer_next_token (sample_lexer [34, 92, 34, 34])).1.value =
       TokenValue.string_value [34] ∧
     (lexer_next_token (sample_lexer [39, 92, 34, 39])).1.type = TOKEN_ERROR) ∧
    (isxdigit d1 = true → isxdigit d2 = true → isxdigit d3 = true → isxdigit d4 = true →
      (lexer_next_token (sample_lexer [39, 92, 117, d1, d2, d3, d4, 39])).1.type =
        TOKEN_CHAR_LITERAL ∧
      (lexer_next_token (sample_lexer [39, 92, 117, d1, d2, d3, d4, 39])).1.value =
        TokenValue.char_value (hex_value [d1, d2, d3, d4]) ∧
      (lexer_next_token (sample_lexer [34, 92, 117, d1, d2, d3, d4, 34])).1.type =
        TOKEN_STRING ∧
      (lexer_next_token (sample_lexer [34, 92, 117, d1, d2, d3, d4, 34])).1.value =
        TokenValue.string_value (string_buffer_append [] (hex_value [d1, d2, d3, d4]))) ∧
    (e < 256 →
      e = 39 ∨ e = 92 ∨ e = 110 ∨ e = 114 ∨ e = 116 ∨ e = 48 ∨ e = 117 ∨
        ((lexer_next_token (sample_lexer [39, 92, e, 39])).1.type = TOKEN_ERROR ∧
          (lexer_next_token (sample_lexer [39, 92, e, 39])).2.errors.error_list.map
              Error.etype = [ErrorType.ERROR_LEXICAL])) ∧
    (e < 256 →
      e = 34 ∨ e = 92 ∨ e = 114 ∨ e = 116 ∨ e = 48 ∨ e = 110 ∨ e = 117 ∨ e = 120 ∨
        e = 98 ∨ e = 102 ∨ e = 118 ∨ e = 97 ∨
        ((lexer_next_token (sample_lexer [34, 92, e, 34])).1.type = TOKEN_ERROR ∧
          (lexer_next_token (sample_lexer [34, 92, e, 34])).2.errors.error_list.map
              Error.etype = [ErrorType.ERROR_LEXICAL])) := by
  refine ⟨by decide, by decide, ?_, ?_, ?_⟩
  · intro h1 h2 h3 h4
    obtain ⟨-, hn1, hb1, hq1, hp1⟩ := hexdigit_facts d1 h1
    obtain ⟨-, hn2, hb2, hq2, hp2⟩ := hexdigit_facts d2 h2
    obtain ⟨-, hn3, hb3, hq3, hp3⟩ := hexdigit_facts d3 h3
    obtain ⟨-, hn4, hb4, hq4, hp4⟩ := hexdigit_facts d4 h4
    simp +decide [lexer_next_token, sample_lexer, lexer_init, skip_whitespace,
      skip_whitespace_loop, peek, peek_next, advance, scan_token, is_identifier_start,
      isdigit, scan_character_literal, scan_string, scan_string_loop, scan_hex_loop,
      make_token, uninit_token, h1, h2, h3, h4, hn1, hn2, hn3, hn4, hb1, hb2, hb3, hb4,
      hq1, hq2, hq3, hq4, hp1, hp2, hp3, hp4]
  · intro he
    exact (by decide : ∀ b : Nat, b < 256 →
      b = 39 ∨ b = 92 ∨ b = 110 ∨ b = 114 ∨ b = 116 ∨ b = 48 ∨ b = 117 ∨
        ((lexer_next_token (sample_lexer [39, 92, b, 39])).1.type = TOKEN_ERROR ∧
          (lexer_next_token (sample_lexer [39, 92, b, 39])).2.errors.error_list.map
              Error.etype = [ErrorType.ERROR_LEXICAL])) e he
  · intro he
    exact (by decide : ∀ b : Nat, b < 256 →
      b = 34 ∨ b = 92 ∨ b = 114 ∨ b = 116 ∨ b = 48 ∨ b = 110 ∨ b = 117 ∨ b = 120 ∨
        b = 98 ∨ b = 102 ∨ b = 118 ∨ b = 97 ∨
        ((lexer_next_token (sample_lexer [34, 92, b, 34])).1.type = TOKEN_ERROR ∧
          (lexer_next_token (sample_lexer [34, 92, b, 34])).2.errors.error_list.map
              Error.etype = [ErrorType.ERROR_LEXICAL])) e he

/-- C3 witness. -/
theorem char_string_escape_correspondence_witness :
    ((lexer_next_token (sample_lexer [39, 92, 117, 48, 48, 52, 49, 39])).1.type =
        TOKEN_CHAR_LITERAL ∧
      (lexer_next_token (sample_lexer [39, 92, 117, 48, 48, 52, 49, 39])).1.value =
        TokenValue.char_value (hex_value [48, 48, 52, 49]) ∧
      (lexer_next_token (sample_lexer [34, 92, 117, 48, 48, 52, 49, 34])).1.type =
        TOKEN_STRING ∧
      (lexer_next_token (sample_lexer [34, 92, 117, 48, 48, 52, 49, 34])).1.value =
        TokenValue.string_value (string_buffer_append [] (hex_value [48, 48, 52, 49]))) ∧
    (63 = 39 ∨ 63 = 92 ∨ 63 = 110 ∨ 63 = 114 ∨ 63 = 116 ∨ 63 = 48 ∨ 63 = 117 ∨
      ((lexer_next_token (sample_lexer [39, 92, 63, 39])).1.type = TOKEN_ERROR ∧
        (lexer_next_token (sample_lexer [39, 92, 63, 39])).2.errors.error_list.map
            Error.etype = [ErrorType.ERROR_LEXICAL])) ∧
    (63 = 34 ∨ 63 = 92 ∨ 63 = 114 ∨ 63 = 116 ∨ 63 = 48 ∨ 63 = 110 ∨ 63 = 117 ∨ 63 = 120 ∨
      63 = 98 ∨ 63 = 102 ∨ 63 = 118 ∨ 63 = 97 ∨
      ((lexer_next_token (sample_lexer [34, 92, 63, 34])).1.type = TOKEN_ERROR ∧
        (lexer_next_token (sample_lexer [34, 92, 63, 34])).2.errors.error_list.map
            Error.etype = [ErrorType.ERROR_LEXICAL])) :=
  ⟨(char_string_escape_correspondence 48 48 52 49 63).2.2.1 (by decide) (by decide)
      (by decide) (by decide),
   (char_string_escape_correspondence 48 48 52 49 63).2.2.2.1 (by decide),
   (char_string_escape_correspondence 48 48 52 49 63).2.2.2.2 (by decide)⟩

/-! ### ast.h / ast.c — the AST, its create functions, and `ast_clone`

Modelling conventions for the heap: every heap object that `ast_clone` is
claimed not to share (an `AstNode`, a `TypeInfo`, a `char*` string owned by a
node) carries an allocation identifier `id : Nat`.  Allocation is modelled by
threading a counter: a function that in C calls `malloc` takes the next free
id `ctr` and returns the bumped counter.  `malloc` is assumed to succeed, so
the `check_null` failure paths after fresh allocations are dead; the NULL
checks the C code performs on its *inputs* (`string_duplicate(NULL)`,
`clone_type(NULL)`, `ast_clone(NULL)`, `type_create_array(NULL, …)`,
`type_create_function(NULL, …)`) are all modelled.  `AstNode*` pointers are
`AstNodeOpt` (`null` or `ptr`), `AstNode**` arrays are `AstNodeListOpt`
(`null` or an `arr` of element pointers), and likewise for `TypeInfo`.
The `for` loops that copy `count` pointers from a caller's array into a
freshly `malloc`ed one are modelled as keeping the list of pointers: they
are exact whenever `count` equals the array length, which the
well-formedness predicate below guarantees at every use.  C `int` fields
are `Int`; `location.filename` is a borrowed `const char*` that no AST
function allocates, frees or mutates, so it is a plain value.
`AST_EXTERNAL_DECL` appears in the `AstNodeType` enum only: no create
function builds such a node and no union arm belongs to it, so the model
has no variant for it. -/

structure SourceLocation where
  line : Int
  column : Int
  filename : String
deriving DecidableEq, Repr

/-- A heap-allocated `char*` string: allocation id plus contents. -/
structure StrObj where
  id : Nat
  chars : String
deriving DecidableEq, Repr

/-- `string_duplicate` (ast.c): NULL stays NULL, otherwise a fresh allocation
with the same characters. -/
def string_duplicate (str : Option StrObj) (ctr : Nat) : Option StrObj × Nat :=
  match str with
  | none => (none, ctr)
  | some s => (some ⟨ctr, s.chars⟩, ctr + 1)

mutual

/-- `struct TypeInfo`: allocation id, then category with its union arm. -/
inductive TypeInfo where
  | mk (id : Nat) (variant : TypeVariant) : TypeInfo

/-- `TypeCategory` together with the matching arm of the `info` union. -/
inductive TypeVariant where
  | TYPE_VOID : TypeVariant
  | TYPE_BOOL : TypeVariant
  | TYPE_CHAR : TypeVariant
  | TYPE_INT : TypeVariant
  | TYPE_ARRAY (element_type : TypeInfoOpt) (size : Int) : TypeVariant
  | TYPE_FUNCTION (return_type : TypeInfoOpt) (param_types : TypeInfoListOpt)
      (param_count : Int) : TypeVariant

/-- A `TypeInfo*` pointer. -/
inductive TypeInfoOpt where
  | null : TypeInfoOpt
  | ptr (t : TypeInfo) : TypeInfoOpt

/-- A `TypeInfo**` array pointer. -/
inductive TypeInfoListOpt where
  | null : TypeInfoListOpt
  | arr (ts : TypeInfoList) : TypeInfoListOpt

/-- The elements of a `TypeInfo**` array (each a possibly-NULL pointer). -/
inductive TypeInfoList where
  | nil : TypeInfoList
  | cons (head : TypeInfoOpt) (tail : TypeInfoList) : TypeInfoList

end

/-- `type_create_void`. -/
def type_create_void (ctr : Nat) : TypeInfo × Nat :=
  (.mk ctr .TYPE_VOID, ctr + 1)

/-- `type_create_bool`. -/
def type_create_bool (ctr : Nat) : TypeInfo × Nat :=
  (.mk ctr .TYPE_BOOL, ctr + 1)

/-- `type_create_char`. -/
def type_create_char (ctr : Nat) : TypeInfo × Nat :=
  (.mk ctr .TYPE_CHAR, ctr + 1)

/-- `type_create_int`. -/
def type_create_int (ctr : Nat) : TypeInfo × Nat :=
  (.mk ctr .TYPE_INT, ctr + 1)

/-- `type_create_array`: rejects a NULL element type. -/
def type_create_array (element_type : TypeInfoOpt) (size : Int) (ctr : Nat) :
    TypeInfoOpt × Nat :=
  match element_type with
  | .null => (.null, ctr)
  | .ptr e => (.ptr (.mk ctr (.TYPE_ARRAY (.ptr e) size)), ctr + 1)

/-- `type_create_function`: rejects a NULL return type; stores the parameter
array only when `param_count > 0` and the array is non-NULL, else `(NULL, 0)`. -/
def type_create_function (return_type : TypeInfoOpt) (param_types : TypeInfoListOpt)
    (param_count : Int) (ctr : Nat) : TypeInfoOpt × Nat :=
  match return_type with
  | .null => (.null, ctr)
  | .ptr r =>
    if 0 < param_count then
      match param_types with
      | .arr ps =>
        (.ptr (.mk ctr (.TYPE_FUNCTION (.ptr r) (.arr ps) param_count)), ctr + 1)
      | .null => (.ptr (.mk ctr (.TYPE_FUNCTION (.ptr r) .null 0)), ctr + 1)
    else (.ptr (.mk ctr (.TYPE_FUNCTION (.ptr r) .null 0)), ctr + 1)

mutual

/-- `clone_type` (ast.c): NULL stays NULL; a deep copy otherwise.  A NULL
element type, return type or parameter makes the whole clone return NULL. -/
def clone_type (type : TypeInfoOpt) (ctr : Nat) : TypeInfoOpt × Nat :=
  match type with
  | .null => (.null, ctr)
  | .ptr (.mk _ v) =>
    match v with
    | .TYPE_VOID => let r := type_create_void ctr; (.ptr r.1, r.2)
    | .TYPE_BOOL => let r := type_create_bool ctr; (.ptr r.1, r.2)
    | .TYPE_CHAR => let r := type_create_char ctr; (.ptr r.1, r.2)
    | .TYPE_INT => let r := type_create_int ctr; (.ptr r.1, r.2)
    | .TYPE_ARRAY element_type size =>
      match clone_type element_type ctr with
      | (.null, c1) => (.null, c1)
      | (.ptr e, c1) => type_create_array (.ptr e) size c1
    | .TYPE_FUNCTION return_type param_types param_count =>
      match param_types with
      | .arr ps =>
        match clone_type return_type ctr with
        | (.null, c1) => (.null, c1)
        | (.ptr r, c1) =>
          if 0 < param_count then
            match clone_type_params ps c1 with
            | (none, c2) => (.null, c2)
            | (some qs, c2) => type_create_function (.ptr r) (.arr qs) param_count c2
          else type_create_function (.ptr r) .null param_count c1
      | .null =>
        match clone_type return_type ctr with
        | (.null, c1) => (.null, c1)
        | (.ptr r, c1) => type_create_function (.ptr r) .null param_count c1

/-- The parameter-cloning loop of `clone_type`'s `TYPE_FUNCTION` case: clones
each parameter in order, failing (with cleanup) as soon as one clone is NULL. -/
def clone_type_params (ps : TypeInfoList) (ctr : Nat) : Option TypeInfoList × Nat :=
  match ps with
  | .nil => (some .nil, ctr)
  | .cons p rest =>
    match clone_type p ctr with
    | (.null, c1) => (none, c1)
    | (.ptr q, c1) =>
      match clone_type_params rest c1 with
      | (none, c2) => (none, c2)
      | (some qs, c2) => (some (.cons (.ptr q) qs), c2)

end

mutual

/-- `struct AstNode`: allocation id, discriminant with its union arm,
location, and the `type_info` annotation field. -/
inductive AstNode where
  | mk (id : Nat) (variant : AstVariant) (location : SourceLocation)
      (type_info : TypeInfoOpt) : AstNode

/-- `AstNodeType` together with the matching arm of the `as` union. -/
inductive AstVariant where
  | AST_PROGRAM (declarations : AstNodeListOpt) (declaration_count : Int) : AstVariant
  | AST_FUNCTION_DECL (name : Option StrObj) (parameters : AstNodeListOpt)
      (parameter_count : Int) (body : AstNodeOpt) (return_type : TypeInfoOpt)
      ( is_external : Bool) : AstVariant
  | AST_VAR_DECL (name : Option StrObj) (initializer : AstNodeOpt)
      (var_type : TypeInfoOpt) : AstVariant
  | AST_ARRAY_DECL (name : Option StrObj) (size : Int) (initializers : AstNodeListOpt)
      (initializer_count : Int) (element_type : TypeInfoOpt) : AstVariant
  | AST_BLOCK (statements : AstNodeListOpt) (statement_count : Int) : AstVariant
  | AST_IF_STMT (condition : AstNodeOpt) (then_branch : AstNodeOpt)
      (else_branch : AstNodeOpt) : AstVariant
  | AST_WHILE_STMT (condition : AstNodeOpt) (body : AstNodeOpt) : AstVariant
  | AST_DO_WHILE_STMT (condition : AstNodeOpt) (body : AstNodeOpt) : AstVariant
  | AST_FOR_STMT (initializer : AstNodeOpt) (condition : AstNodeOpt)
      (increment : AstNodeOpt) (body : AstNodeOpt) : AstVariant
  | AST_RETURN_STMT (value : AstNodeOpt) : AstVariant
  | AST_BREAK_STMT : AstVariant
  | AST_EXPR_STMT (expression : AstNodeOpt) : AstVariant
  | AST_BINARY_EXPR (left : AstNodeOpt) (right : AstNodeOpt)
      (operator : TokenType) : AstVariant
  | AST_UNARY_EXPR (operand : AstNodeOpt) (operator : TokenType)
      ( is_prefix : Bool) : AstVariant
  | AST_LITERAL_INT (value : Int) : AstVariant
  | AST_LITERAL_CHAR (value : Int) : AstVariant
  | AST_LITERAL_STRING (value : Option StrObj) : AstVariant
  | AST_LITERAL_BOOL (value : Bool) : AstVariant
  | AST_IDENTIFIER (name : Option StrObj) : AstVariant
  | AST_ARRAY_ACCESS (array : AstNodeOpt) (index : AstNodeOpt) : AstVariant
  | AST_CALL_EXPR (callee : AstNodeOpt) (arguments : AstNodeListOpt)
      (argument_count : Int) : AstVariant
  | AST_ASSIGNMENT (target : AstNodeOpt) (value : AstNodeOpt) : AstVariant
  | AST_TYPE (type_data : TypeInfoOpt) : AstVariant

/-- An `AstNode*` pointer. -/
inductive AstNodeOpt where
  | null : AstNodeOpt
  | ptr (n : AstNode) : AstNodeOpt

/-- An `AstNode**` array pointer. -/
inductive AstNodeListOpt where
  | null : AstNodeListOpt
  | arr (ns : AstNodeList) : AstNodeListOpt

/-- The elements of an `AstNode**` array (each a possibly-NULL pointer). -/
inductive AstNodeList where
  | nil : AstNodeList
  | cons (head : AstNodeOpt) (tail : AstNodeList) : AstNodeList

end

/-- The `count > 0 && array` store pattern every create function uses for its
pointer array: keep `(array, count)` when positive and non-NULL, else
`(NULL, 0)`. -/
def store_array (nodes : AstNodeListOpt) (count : Int) : AstNodeListOpt × Int :=
  if 0 < count then
    match nodes with
    | .arr ns => (.arr ns, count)
    | .null => (.null, 0)
  else (.null, 0)

/-- `ast_create_program`. -/
def ast_create_program (declarations : AstNodeListOpt) (declaration_count : Int)
    (location : SourceLocation) (ctr : Nat) : AstNodeOpt × Nat :=
  let s := store_array declarations declaration_count
  (.ptr (.mk ctr (.AST_PROGRAM s.1 s.2) location .null), ctr + 1)

/-- `ast_create_function_decl`: duplicates the name (failing on NULL). -/
def ast_create_function_decl (name : Option StrObj) (parameters : AstNodeListOpt)
    (parameter_count : Int) (body : AstNodeOpt) (return_type : TypeInfoOpt)
    ( is_external : Bool) (location : SourceLocation) (ctr : Nat) : AstNodeOpt × Nat :=
  match string_duplicate name (ctr + 1) with
  | (none, _) => (.null, ctr)
  | (some s, c1) =>
    let a := store_array parameters parameter_count
    (.ptr (.mk ctr (.AST_FUNCTION_DECL (some s) a.1 a.2 body return_type is_external)
      location .null), c1)

/-- `ast_create_var_decl`. -/
def ast_create_var_decl (name : Option StrObj) (initializer : AstNodeOpt)
    (var_type : TypeInfoOpt) (location : SourceLocation) (ctr : Nat) :
    AstNodeOpt × Nat :=
  match string_duplicate name (ctr + 1) with
  | (none, _) => (.null, ctr)
  | (some s, c1) =>
    (.ptr (.mk ctr (.AST_VAR_DECL (some s) initializer var_type) location .null), c1)

/-- `ast_create_array_decl`. -/
def ast_create_array_decl (name : Option StrObj) (size : Int)
    (initializers : AstNodeListOpt) (initializer_count : Int)
    (element_type : TypeInfoOpt) (location : SourceLocation) (ctr : Nat) :
    AstNodeOpt × Nat :=
  match string_duplicate name (ctr + 1) with
  | (none, _) => (.null, ctr)
  | (some s, c1) =>
    let a := store_array initializers initializer_count
    (.ptr (.mk ctr (.AST_ARRAY_DECL (some s) size a.1 a.2 element_type)
      location .null), c1)

/-- `ast_create_block`. -/
def ast_create_block (statements : AstNodeListOpt) (statement_count : Int)
    (location : SourceLocation) (ctr : Nat) : AstNodeOpt × Nat :=
  let s := store_array statements statement_count
  (.ptr (.mk ctr (.AST_BLOCK s.1 s.2) location .null), ctr + 1)

/-- `ast_create_if_stmt`. -/
def ast_create_if_stmt (condition then_branch else_branch : AstNodeOpt)
    (location : SourceLocation) (ctr : Nat) : AstNodeOpt × Nat :=
  (.ptr (.mk ctr (.AST_IF_STMT condition then_branch else_branch) location .null),
    ctr + 1)

/-- `ast_create_while_stmt`. -/
def ast_create_while_stmt (condition body : AstNodeOpt) (location : SourceLocation)
    (ctr : Nat) : AstNodeOpt × Nat :=
  (.ptr (.mk ctr (.AST_WHILE_STMT condition body) location .null), ctr + 1)

/-- `ast_create_for_stmt`. -/
def ast_create_for_stmt (initializer condition increment body : AstNodeOpt)
    (location : SourceLocation) (ctr : Nat) : AstNodeOpt × Nat :=
  (.ptr (.mk ctr (.AST_FOR_STMT initializer condition increment body) location .null),
    ctr + 1)

/-- `ast_create_do_while_stmt` (takes body first, like the C function). -/
def ast_create_do_while_stmt (body condition : AstNodeOpt) (location : SourceLocation)
    (ctr : Nat) : AstNodeOpt × Nat :=
  (.ptr (.mk ctr (.AST_DO_WHILE_STMT condition body) location .null), ctr + 1)

/-- `ast_create_return_stmt`. -/
def ast_create_return_stmt (value : AstNodeOpt) (location : SourceLocation)
    (ctr : Nat) : AstNodeOpt × Nat :=
  (.ptr (.mk ctr (.AST_RETURN_STMT value) location .null), ctr + 1)

/-- `ast_create_break_stmt`. -/
def ast_create_break_stmt (location : SourceLocation) (ctr : Nat) :
    AstNodeOpt × Nat :=
  (.ptr (.mk ctr .AST_BREAK_STMT location .null), ctr + 1)

/-- `ast_create_expr_stmt`. -/
def ast_create_expr_stmt (expression : AstNodeOpt) (location : SourceLocation)
    (ctr : Nat) : AstNodeOpt × Nat :=
  (.ptr (.mk ctr (.AST_EXPR_STMT expression) location .null), ctr + 1)

/-- `ast_create_binary_expr`. -/
def ast_create_binary_expr (left : AstNodeOpt) (operator : TokenType)
    (right : AstNodeOpt) (location : SourceLocation) (ctr : Nat) : AstNodeOpt × Nat :=
  (.ptr (.mk ctr (.AST_BINARY_EXPR left right operator) location .null), ctr + 1)

/-- `ast_create_unary_expr`. -/
def ast_create_unary_expr (operand : AstNodeOpt) (operator : TokenType) (p : Bool)
    (location : SourceLocation) (ctr : Nat) : AstNodeOpt × Nat :=
  (.ptr (.mk ctr (.AST_UNARY_EXPR operand operator p) location .null), ctr + 1)

/-- `ast_create_literal_int`: pre-fills `type_info` with a fresh int type. -/
def ast_create_literal_int (value : Int) (location : SourceLocation) (ctr : Nat) :
    AstNodeOpt × Nat :=
  let t := type_create_int (ctr + 1)
  (.ptr (.mk ctr (.AST_LITERAL_INT value) location (.ptr t.1)), t.2)

/-- `ast_create_literal_char`: pre-fills `type_info` with a fresh char type. -/
def ast_create_literal_char (value : Int) (location : SourceLocation) (ctr : Nat) :
    AstNodeOpt × Nat :=
  let t := type_create_char (ctr + 1)
  (.ptr (.mk ctr (.AST_LITERAL_CHAR value) location (.ptr t.1)), t.2)

/-- `ast_create_literal_string`: duplicates the value (failing on NULL);
`type_info` stays NULL. -/
def ast_create_literal_string (value : Option StrObj) (location : SourceLocation)
    (ctr : Nat) : AstNodeOpt × Nat :=
  match string_duplicate value (ctr + 1) with
  | (none, _) => (.null, ctr)
  | (some s, c1) =>
    (.ptr (.mk ctr (.AST_LITERAL_STRING (some s)) location .null), c1)

/-- `ast_create_literal_bool`: pre-fills `type_info` with a fresh bool type. -/
def ast_create_literal_bool (value : Bool) (location : SourceLocation) (ctr : Nat) :
    AstNodeOpt × Nat :=
  let t := type_create_bool (ctr + 1)
  (.ptr (.mk ctr (.AST_LITERAL_BOOL value) location (.ptr t.1)), t.2)

/-- `ast_create_identifier`. -/
def ast_create_identifier (name : Option StrObj) (location : SourceLocation)
    (ctr : Nat) : AstNodeOpt × Nat :=
  match string_duplicate name (ctr + 1) with
  | (none, _) => (.null, ctr)
  | (some s, c1) =>
    (.ptr (.mk ctr (.AST_IDENTIFIER (some s)) location .null), c1)

/-- `ast_create_array_access`. -/
def ast_create_array_access (array index : AstNodeOpt) (location : SourceLocation)
    (ctr : Nat) : AstNodeOpt × Nat :=
  (.ptr (.mk ctr (.AST_ARRAY_ACCESS array index) location .null), ctr + 1)

/-- `ast_create_call_expr`. -/
def ast_create_call_expr (callee : AstNodeOpt) (arguments : AstNodeListOpt)
    (argument_count : Int) (location : SourceLocation) (ctr : Nat) :
    AstNodeOpt × Nat :=
  let a := store_array arguments argument_count
  (.ptr (.mk ctr (.AST_CALL_EXPR callee a.1 a.2) location .null), ctr + 1)

/-- `ast_create_assignment`. -/
def ast_create_assignment (target value : AstNodeOpt) (location : SourceLocation)
    (ctr : Nat) : AstNodeOpt × Nat :=
  (.ptr (.mk ctr (.AST_ASSIGNMENT target value) location .null), ctr + 1)

/-- `ast_create_type` (stores `type_data` without a NULL check). -/
def ast_create_type (type_data : TypeInfoOpt) (location : SourceLocation) (ctr : Nat) :
    AstNodeOpt × Nat :=
  (.ptr (.mk ctr (.AST_TYPE type_data) location .null), ctr + 1)

/-- The tail of `ast_clone`: `if (cloned && node->type_info)
cloned->type_info = clone_type(node->type_info);`. -/
def ast_clone_copy_type_info (res : AstNodeOpt × Nat) (type_info : TypeInfoOpt) :
    AstNodeOpt × Nat :=
  match res with
  | (.null, c) => (.null, c)
  | (.ptr (.mk cid cv cloc cti), c) =>
    match type_info with
    | .null => (.ptr (.mk cid cv cloc cti), c)
    | .ptr ti =>
      let r := clone_type (.ptr ti) c
      (.ptr (.mk cid cv cloc r.1), r.2)

mutual

/-- `ast_clone` (ast.c): NULL stays NULL; otherwise the per-variant deep copy
through the create functions, followed by the `type_info` copy. -/
def ast_clone (node : AstNodeOpt) (ctr : Nat) : AstNodeOpt × Nat :=
  match node with
  | .null => (.null, ctr)
  | .ptr (.mk _ v location type_info) =>
    let res : AstNodeOpt × Nat :=
      match v with
      | .AST_PROGRAM declarations declaration_count =>
        let d := clone_node_array declarations declaration_count ctr
        ast_create_program d.1 declaration_count location d.2
      | .AST_FUNCTION_DECL name parameters parameter_count body return_type ext =>
        let p := clone_node_array parameters parameter_count ctr
        let b := ast_clone body p.2
        let r := clone_type return_type b.2
        ast_create_function_decl name p.1 parameter_count b.1 r.1 ext location r.2
      | .AST_VAR_DECL name initializer var_type =>
        let i := ast_clone initializer ctr
        let t := clone_type var_type i.2
        ast_create_var_decl name i.1 t.1 location t.2
      | .AST_ARRAY_DECL name size initializers initializer_count element_type =>
        let i := clone_node_array initializers initializer_count ctr
        let e := clone_type element_type i.2
        ast_create_array_decl name size i.1 initializer_count e.1 location e.2
      | .AST_BLOCK statements statement_count =>
        let s := clone_node_array statements statement_count ctr
        ast_create_block s.1 statement_count location s.2
      | .AST_IF_STMT condition then_branch else_branch =>
        let c := ast_clone condition ctr
        let t := ast_clone then_branch c.2
        let e := ast_clone else_branch t.2
        ast_create_if_stmt c.1 t.1 e.1 location e.2
      | .AST_WHILE_STMT condition body =>
        let c := ast_clone condition ctr
        let b := ast_clone body c.2
        ast_create_while_stmt c.1 b.1 location b.2
      | .AST_DO_WHILE_STMT condition body =>
        let b := ast_clone body ctr
        let c := ast_clone condition b.2
        ast_create_do_while_stmt b.1 c.1 location c.2
      | .AST_FOR_STMT initializer condition increment body =>
        let i := ast_clone initializer ctr
        let c := ast_clone condition i.2
        let n := ast_clone increment c.2
        let b := ast_clone body n.2
        ast_create_for_stmt i.1 c.1 n.1 b.1 location b.2
      | .AST_RETURN_STMT value =>
        let r := ast_clone value ctr
        ast_create_return_stmt r.1 location r.2
      | .AST_BREAK_STMT =>
        ast_create_break_stmt location ctr
      | .AST_EXPR_STMT expression =>
        let e := ast_clone expression ctr
        ast_create_expr_stmt e.1 location e.2
      | .AST_BINARY_EXPR left right operator =>
        let l := ast_clone left ctr
        let r := ast_clone right l.2
        ast_create_binary_expr l.1 operator r.1 location r.2
      | .AST_UNARY_EXPR operand operator p =>
        let o := ast_clone operand ctr
        ast_create_unary_expr o.1 operator p location o.2
      | .AST_LITERAL_INT value =>
        ast_create_literal_int value location ctr
      | .AST_LITERAL_CHAR value =>
        ast_create_literal_char value location ctr
      | .AST_LITERAL_STRING value =>
        ast_create_literal_string value location ctr
      | .AST_LITERAL_BOOL value =>
        ast_create_literal_bool value location ctr
      | .AST_IDENTIFIER name =>
        ast_create_identifier name location ctr
      | .AST_ARRAY_ACCESS array index =>
        let a := ast_clone array ctr
        let i := ast_clone index a.2
        ast_create_array_access a.1 i.1 location i.2
      | .AST_CALL_EXPR callee arguments argument_count =>
        let c := ast_clone callee ctr
        let a := clone_node_array arguments argument_count c.2
        ast_create_call_expr c.1 a.1 argument_count location a.2
      | .AST_ASSIGNMENT target value =>
        let t := ast_clone target ctr
        let v := ast_clone value t.2
        ast_create_assignment t.1 v.1 location v.2
      | .AST_TYPE type_data =>
        let t := clone_type type_data ctr
        ast_create_type t.1 location t.2
    ast_clone_copy_type_info res type_info

/-- `clone_node_array` (ast.c): NULL for a NULL array or `count <= 0`;
otherwise clones each element, failing (with cleanup) on a NULL clone. -/
def clone_node_array (nodes : AstNodeListOpt) (count : Int) (ctr : Nat) :
    AstNodeListOpt × Nat :=
  match nodes with
  | .null => (.null, ctr)
  | .arr ns =>
    if count ≤ 0 then (.null, ctr)
    else
      match clone_node_list ns ctr with
      | (some cs, c2) => (.arr cs, c2)
      | (none, c2) => (.null, c2)

/-- The element loop of `clone_node_array`. -/
def clone_node_list (ns : AstNodeList) (ctr : Nat) : Option AstNodeList × Nat :=
  match ns with
  | .nil => (some .nil, ctr)
  | .cons h rest =>
    match ast_clone h ctr with
    | (.null, c1) => (none, c1)
    | (.ptr cl, c1) =>
      match clone_node_list rest c1 with
      | (none, c2) => (none, c2)
      | (some cs, c2) => (some (.cons (.ptr cl) cs), c2)

end

end Chpp

namespace Chpp

/-! Identity-erased mirrors of the two families: the same trees with every
allocation id removed.  "Structurally equal" in the deep-copy claim means
equal after erasure. -/

mutual

inductive ETypeInfo where
  | TYPE_VOID : ETypeInfo
  | TYPE_BOOL : ETypeInfo
  | TYPE_CHAR : ETypeInfo
  | TYPE_INT : ETypeInfo
  | TYPE_ARRAY (element_type : ETypeInfoOpt) (size : Int) : ETypeInfo
  | TYPE_FUNCTION (return_type : ETypeInfoOpt) (param_types : ETypeInfoListOpt)
      (param_count : Int) : ETypeInfo

inductive ETypeInfoOpt where
  | null : ETypeInfoOpt
  | ptr (t : ETypeInfo) : ETypeInfoOpt

inductive ETypeInfoListOpt where
  | null : ETypeInfoListOpt
  | arr (ts : ETypeInfoList) : ETypeInfoListOpt

inductive ETypeInfoList where
  | nil : ETypeInfoList
  | cons (head : ETypeInfoOpt) (tail : ETypeInfoList) : ETypeInfoList

end

mutual

inductive EAstNode where
  | mk (variant : EAstVariant) (location : SourceLocation)
      (type_info : ETypeInfoOpt) : EAstNode

inductive EAstVariant where
  | AST_PROGRAM (declarations : EAstNodeListOpt) (declaration_count : Int) : EAstVariant
  | AST_FUNCTION_DECL (name : Option String) (parameters : EAstNodeListOpt)
      (parameter_count : Int) (body : EAstNodeOpt) (return_type : ETypeInfoOpt)
      ( is_external : Bool) : EAstVariant
  | AST_VAR_DECL (name : Option String) (initializer : EAstNodeOpt)
      (var_type : ETypeInfoOpt) : EAstVariant
  | AST_ARRAY_DECL (name : Option String) (size : Int) (initializers : EAstNodeListOpt)
      (initializer_count : Int) (element_type : ETypeInfoOpt) : EAstVariant
  | AST_BLOCK (statements : EAstNodeListOpt) (statement_count : Int) : EAstVariant
  | AST_IF_STMT (condition : EAstNodeOpt) (then_branch : EAstNodeOpt)
      (else_branch : EAstNodeOpt) : EAstVariant
  | AST_WHILE_STMT (condition : EAstNodeOpt) (body : EAstNodeOpt) : EAstVariant
  | AST_DO_WHILE_STMT (condition : EAstNodeOpt) (body : EAstNodeOpt) : EAstVariant
  | AST_FOR_STMT (initializer : EAstNodeOpt) (condition : EAstNodeOpt)
      (increment : EAstNodeOpt) (body : EAstNodeOpt) : EAstVariant
  | AST_RETURN_STMT (value : EAstNodeOpt) : EAstVariant
  | AST_BREAK_STMT : EAstVariant
  | AST_EXPR_STMT (expression : EAstNodeOpt) : EAstVariant
  | AST_BINARY_EXPR (left : EAstNodeOpt) (right : EAstNodeOpt)
      (operator : TokenType) : EAstVariant
  | AST_UNARY_EXPR (operand : EAstNodeOpt) (operator : TokenType)
      ( is_prefix : Bool) : EAstVariant
  | AST_LITERAL_INT (value : Int) : EAstVariant
  | AST_LITERAL_CHAR (value : Int) : EAstVariant
  | AST_LITERAL_STRING (value : Option String) : EAstVariant
  | AST_LITERAL_BOOL (value : Bool) : EAstVariant
  | AST_IDENTIFIER (name : Option String) : EAstVariant
  | AST_ARRAY_ACCESS (array : EAstNodeOpt) (index : EAstNodeOpt) : EAstVariant
  | AST_CALL_EXPR (callee : EAstNodeOpt) (arguments : EAstNodeListOpt)
      (argument_count : Int) : EAstVariant
  | AST_ASSIGNMENT (target : EAstNodeOpt) (value : EAstNodeOpt) : EAstVariant
  | AST_TYPE (type_data : ETypeInfoOpt) : EAstVariant

inductive EAstNodeOpt where
  | null : EAstNodeOpt
  | ptr (n : EAstNode) : EAstNodeOpt

inductive EAstNodeListOpt where
  | null : EAstNodeListOpt
  | arr (ns : EAstNodeList) : EAstNodeListOpt

inductive EAstNodeList where
  | nil : EAstNodeList
  | cons (head : EAstNodeOpt) (tail : EAstNodeList) : EAstNodeList

end

/-- Erase a string object to its characters. -/
def erase_str (s : Option StrObj) : Option String :=
  s.map StrObj.chars

mutual

/-- Erase the allocation ids of a type. -/
def erase_type (t : TypeInfo) : ETypeInfo :=
  match t with
  | .mk _ v =>
    match v with
    | .TYPE_VOID => .TYPE_VOID
    | .TYPE_BOOL => .TYPE_BOOL
    | .TYPE_CHAR => .TYPE_CHAR
    | .TYPE_INT => .TYPE_INT
    | .TYPE_ARRAY e size => .TYPE_ARRAY (erase_type_opt e) size
    | .TYPE_FUNCTION r ps count =>
      .TYPE_FUNCTION (erase_type_opt r) (erase_type_list_opt ps) count

def erase_type_opt (t : TypeInfoOpt) : ETypeInfoOpt :=
  match t with
  | .null => .null
  | .ptr t => .ptr (erase_type t)

def erase_type_list_opt (ts : TypeInfoListOpt) : ETypeInfoListOpt :=
  match ts with
  | .null => .null
  | .arr ts => .arr (erase_type_list ts)

def erase_type_list (ts : TypeInfoList) : ETypeInfoList :=
  match ts with
  | .nil => .nil
  | .cons h rest => .cons (erase_type_opt h) (erase_type_list rest)

end

mutual

/-- Erase the allocation ids of a node. -/
def erase_node (n : AstNode) : EAstNode :=
  match n with
  | .mk _ v location type_info =>
    .mk (erase_variant v) location (erase_type_opt type_info)

def erase_variant (v : AstVariant) : EAstVariant :=
  match v with
  | .AST_PROGRAM ds count => .AST_PROGRAM (erase_node_list_opt ds) count
  | .AST_FUNCTION_DECL name ps count body ret ext =>
    .AST_FUNCTION_DECL (erase_str name) (erase_node_list_opt ps) count
      (erase_node_opt body) (erase_type_opt ret) ext
  | .AST_VAR_DECL name init vt =>
    .AST_VAR_DECL (erase_str name) (erase_node_opt init) (erase_type_opt vt)
  | .AST_ARRAY_DECL name size inits count et =>
    .AST_ARRAY_DECL (erase_str name) size (erase_node_list_opt inits) count
      (erase_type_opt et)
  | .AST_BLOCK ss count => .AST_BLOCK (erase_node_list_opt ss) count
  | .AST_IF_STMT c t e =>
    .AST_IF_STMT (erase_node_opt c) (erase_node_opt t) (erase_node_opt e)
  | .AST_WHILE_STMT c b => .AST_WHILE_STMT (erase_node_opt c) (erase_node_opt b)
  | .AST_DO_WHILE_STMT c b =>
    .AST_DO_WHILE_STMT (erase_node_opt c) (erase_node_opt b)
  | .AST_FOR_STMT i c n b =>
    .AST_FOR_STMT (erase_node_opt i) (erase_node_opt c) (erase_node_opt n)
      (erase_node_opt b)
  | .AST_RETURN_STMT r => .AST_RETURN_STMT (erase_node_opt r)
  | .AST_BREAK_STMT => .AST_BREAK_STMT
  | .AST_EXPR_STMT e => .AST_EXPR_STMT (erase_node_opt e)
  | .AST_BINARY_EXPR l r op => .AST_BINARY_EXPR (erase_node_opt l) (erase_node_opt r) op
  | .AST_UNARY_EXPR o op p => .AST_UNARY_EXPR (erase_node_opt o) op p
  | .AST_LITERAL_INT v => .AST_LITERAL_INT v
  | .AST_LITERAL_CHAR v => .AST_LITERAL_CHAR v
  | .AST_LITERAL_STRING v => .AST_LITERAL_STRING (erase_str v)
  | .AST_LITERAL_BOOL v => .AST_LITERAL_BOOL v
  | .AST_IDENTIFIER name => .AST_IDENTIFIER (erase_str name)
  | .AST_ARRAY_ACCESS a i => .AST_ARRAY_ACCESS (erase_node_opt a) (erase_node_opt i)
  | .AST_CALL_EXPR c args count =>
    .AST_CALL_EXPR (erase_node_opt c) (erase_node_list_opt args) count
  | .AST_ASSIGNMENT t v => .AST_ASSIGNMENT (erase_node_opt t) (erase_node_opt v)
  | .AST_TYPE td => .AST_TYPE (erase_type_opt td)

def erase_node_opt (n : AstNodeOpt) : EAstNodeOpt :=
  match n with
  | .null => .null
  | .ptr n => .ptr (erase_node n)

def erase_node_list_opt (ns : AstNodeListOpt) : EAstNodeListOpt :=
  match ns with
  | .null => .null
  | .arr ns => .arr (erase_node_list ns)

def erase_node_list (ns : AstNodeList) : EAstNodeList :=
  match ns with
  | .nil => .nil
  | .cons h rest => .cons (erase_node_opt h) (erase_node_list rest)

end

/-- The allocation ids of a string pointer. -/
def str_ids (s : Option StrObj) : List Nat :=
  match s with
  | none => []
  | some s => [s.id]

mutual

/-- Every allocation id occurring in a type tree. -/
def type_ids (t : TypeInfo) : List Nat :=
  match t with
  | .mk id v =>
    id ::
      (match v with
       | .TYPE_VOID => []
       | .TYPE_BOOL => []
       | .TYPE_CHAR => []
       | .TYPE_INT => []
       | .TYPE_ARRAY e _ => type_opt_ids e
       | .TYPE_FUNCTION r ps _ => type_opt_ids r ++ type_list_opt_ids ps)

def type_opt_ids (t : TypeInfoOpt) : List Nat :=
  match t with
  | .null => []
  | .ptr t => type_ids t

def type_list_opt_ids (ts : TypeInfoListOpt) : List Nat :=
  match ts with
  | .null => []
  | .arr ts => type_list_ids ts

def type_list_ids (ts : TypeInfoList) : List Nat :=
  match ts with
  | .nil => []
  | .cons h rest => type_opt_ids h ++ type_list_ids rest

end

mutual

/-- Every allocation id (node, string or type object) occurring in a node tree. -/
def node_ids (n : AstNode) : List Nat :=
  match n with
  | .mk id v _ type_info => id :: variant_ids v ++ type_opt_ids type_info

def variant_ids (v : AstVariant) : List Nat :=
  match v with
  | .AST_PROGRAM ds _ => node_list_opt_ids ds
  | .AST_FUNCTION_DECL name ps _ body ret _ =>
    str_ids name ++ node_list_opt_ids ps ++ node_opt_ids body ++ type_opt_ids ret
  | .AST_VAR_DECL name init vt =>
    str_ids name ++ node_opt_ids init ++ type_opt_ids vt
  | .AST_ARRAY_DECL name _ inits _ et =>
    str_ids name ++ node_list_opt_ids inits ++ type_opt_ids et
  | .AST_BLOCK ss _ => node_list_opt_ids ss
  | .AST_IF_STMT c t e => node_opt_ids c ++ node_opt_ids t ++ node_opt_ids e
  | .AST_WHILE_STMT c b => node_opt_ids c ++ node_opt_ids b
  | .AST_DO_WHILE_STMT c b => node_opt_ids c ++ node_opt_ids b
  | .AST_FOR_STMT i c n b =>
    node_opt_ids i ++ node_opt_ids c ++ node_opt_ids n ++ node_opt_ids b
  | .AST_RETURN_STMT r => node_opt_ids r
  | .AST_BREAK_STMT => []
  | .AST_EXPR_STMT e => node_opt_ids e
  | .AST_BINARY_EXPR l r _ => node_opt_ids l ++ node_opt_ids r
  | .AST_UNARY_EXPR o _ _ => node_opt_ids o
  | .AST_LITERAL_INT _ => []
  | .AST_LITERAL_CHAR _ => []
  | .AST_LITERAL_STRING v => str_ids v
  | .AST_LITERAL_BOOL _ => []
  | .AST_IDENTIFIER name => str_ids name
  | .AST_ARRAY_ACCESS a i => node_opt_ids a ++ node_opt_ids i
  | .AST_CALL_EXPR c args _ => node_opt_ids c ++ node_list_opt_ids args
  | .AST_ASSIGNMENT t v => node_opt_ids t ++ node_opt_ids v
  | .AST_TYPE td => type_opt_ids td

def node_opt_ids (n : AstNodeOpt) : List Nat :=
  match n with
  | .null => []
  | .ptr n => node_ids n

def node_list_opt_ids (ns : AstNodeListOpt) : List Nat :=
  match ns with
  | .null => []
  | .arr ns => node_list_ids ns

def node_list_ids (ns : AstNodeList) : List Nat :=
  match ns with
  | .nil => []
  | .cons h rest => node_opt_ids h ++ node_list_ids rest

end

/-- Length of a parameter list. -/
def tlist_len (ts : TypeInfoList) : Nat :=
  match ts with
  | .nil => 0
  | .cons _ rest => tlist_len rest + 1

/-- Length of a node array. -/
def nlist_len (ns : AstNodeList) : Nat :=
  match ns with
  | .nil => 0
  | .cons _ rest => nlist_len rest + 1

mutual

/-- Well-formed types: the shape every type built by the `type_create_*`
functions has.  Array element types and function return types are non-NULL,
parameter arrays are NULL exactly when `param_count` is 0, the stored count
matches the array length, and parameters are non-NULL. -/
def wf_type (t : TypeInfo) : Bool :=
  match t with
  | .mk _ v =>
    match v with
    | .TYPE_VOID => true
    | .TYPE_BOOL => true
    | .TYPE_CHAR => true
    | .TYPE_INT => true
    | .TYPE_ARRAY e _ =>
      match e with
      | .null => false
      | .ptr e => wf_type e
    | .TYPE_FUNCTION r ps count =>
      (match r with
       | .null => false
       | .ptr r => wf_type r) &&
      (match ps with
       | .null => count == 0
       | .arr ps => (count == (tlist_len ps : Int)) && decide (0 < count) &&
           wf_type_params ps)

def wf_type_opt (t : TypeInfoOpt) : Bool :=
  match t with
  | .null => true
  | .ptr t => wf_type t

def wf_type_params (ts : TypeInfoList) : Bool :=
  match ts with
  | .nil => true
  | .cons h rest =>
    (match h with
     | .null => false
     | .ptr t => wf_type t) && wf_type_params rest

end

/-- The int, char and bool literal create functions pre-fill `type_info`, so a
node built by them carries a non-NULL `type_info`. -/
def literal_ti_ok (v : AstVariant) (ti : TypeInfoOpt) : Bool :=
  match v, ti with
  | .AST_LITERAL_INT _, .null => false
  | .AST_LITERAL_CHAR _, .null => false
  | .AST_LITERAL_BOOL _, .null => false
  | _, _ => true

mutual

/-- Well-formed nodes: the shape every node built by the `ast_create_*`
functions has.  Names and string-literal values are non-NULL, pointer
arrays are NULL exactly when their count is 0 and otherwise have matching
length and non-NULL elements, every reachable type is well formed, and the
int, char and bool literal nodes (whose create functions pre-fill
`type_info`) carry a non-NULL `type_info`. -/
def wf_node (n : AstNode) : Bool :=
  match n with
  | .mk _ v _ type_info =>
    wf_variant v && wf_type_opt type_info && literal_ti_ok v type_info

def wf_variant (v : AstVariant) : Bool :=
  match v with
  | .AST_PROGRAM ds count => wf_array ds count
  | .AST_FUNCTION_DECL name ps count body ret _ =>
    name.isSome && wf_array ps count && wf_node_opt body && wf_type_opt ret
  | .AST_VAR_DECL name init vt =>
    name.isSome && wf_node_opt init && wf_type_opt vt
  | .AST_ARRAY_DECL name _ inits count et =>
    name.isSome && wf_array inits count && wf_type_opt et
  | .AST_BLOCK ss count => wf_array ss count
  | .AST_IF_STMT c t e => wf_node_opt c && wf_node_opt t && wf_node_opt e
  | .AST_WHILE_STMT c b => wf_node_opt c && wf_node_opt b
  | .AST_DO_WHILE_STMT c b => wf_node_opt c && wf_node_opt b
  | .AST_FOR_STMT i c n b =>
    wf_node_opt i && wf_node_opt c && wf_node_opt n && wf_node_opt b
  | .AST_RETURN_STMT r => wf_node_opt r
  | .AST_BREAK_STMT => true
  | .AST_EXPR_STMT e => wf_node_opt e
  | .AST_BINARY_EXPR l r _ => wf_node_opt l && wf_node_opt r
  | .AST_UNARY_EXPR o _ _ => wf_node_opt o
  | .AST_LITERAL_INT _ => true
  | .AST_LITERAL_CHAR _ => true
  | .AST_LITERAL_STRING v => v.isSome
  | .AST_LITERAL_BOOL _ => true
  | .AST_IDENTIFIER name => name.isSome
  | .AST_ARRAY_ACCESS a i => wf_node_opt a && wf_node_opt i
  | .AST_CALL_EXPR c args count => wf_node_opt c && wf_array args count
  | .AST_ASSIGNMENT t v => wf_node_opt t && wf_node_opt v
  | .AST_TYPE td => wf_type_opt td

def wf_node_opt (n : AstNodeOpt) : Bool :=
  match n with
  | .null => true
  | .ptr n => wf_node n

def wf_array (ns : AstNodeListOpt) (count : Int) : Bool :=
  match ns with
  | .null => count == 0
  | .arr ns => (count == (nlist_len ns : Int)) && decide (0 < count) &&
      wf_node_elems ns

def wf_node_elems (ns : AstNodeList) : Bool :=
  match ns with
  | .nil => true
  | .cons h rest =>
    (match h with
     | .null => false
     | .ptr n => wf_node n) && wf_node_elems rest

end

/-- A lower bound on every id in a list. -/
def ids_bound (l : List Nat) (ctr : Nat) : Prop :=
  ∀ i ∈ l, ctr ≤ i

theorem ids_bound_nil (c : Nat) : ids_bound [] c := by
  intro i hi
  simp at hi

theorem ids_bound_cons {x : Nat} {l : List Nat} {c : Nat} :
    ids_bound (x :: l) c ↔ c ≤ x ∧ ids_bound l c := by
  constructor
  · intro h
    exact ⟨h x (by simp), fun i hi => h i (by simp [hi])⟩
  · rintro ⟨h1, h2⟩ i hi
    rcases List.mem_cons.mp hi with rfl | hi
    · exact h1
    · exact h2 i hi

theorem ids_bound_append {a b : List Nat} {c : Nat} :
    ids_bound (a ++ b) c ↔ ids_bound a c ∧ ids_bound b c := by
  constructor
  · intro h
    exact ⟨fun i hi => h i (by simp [hi]), fun i hi => h i (by simp [hi])⟩
  · rintro ⟨h1, h2⟩ i hi
    rcases List.mem_append.mp hi with hi | hi
    · exact h1 i hi
    · exact h2 i hi

theorem ids_bound_mono {l : List Nat} {c d : Nat} (h : c ≤ d) (hb : ids_bound l d) :
    ids_bound l c :=
  fun i hi => le_trans h (hb i hi)

theorem ids_bound_nil_iff (c : Nat) : ids_bound [] c ↔ True := by
  constructor
  · intro _
    trivial
  · intro _
    exact ids_bound_nil c

/-! One-step unfolding equations for the mutual clone functions (Lean does not
generate equation lemmas for them automatically). -/

theorem clone_type_null_eq (ctr : Nat) : clone_type .null ctr = (.null, ctr) := rfl

theorem clone_type_void_eq (id ctr : Nat) :
    clone_type (.ptr (.mk id .TYPE_VOID)) ctr = (.ptr (.mk ctr .TYPE_VOID), ctr + 1) := rfl

theorem clone_type_bool_eq (id ctr : Nat) :
    clone_type (.ptr (.mk id .TYPE_BOOL)) ctr = (.ptr (.mk ctr .TYPE_BOOL), ctr + 1) := rfl

theorem clone_type_char_eq (id ctr : Nat) :
    clone_type (.ptr (.mk id .TYPE_CHAR)) ctr = (.ptr (.mk ctr .TYPE_CHAR), ctr + 1) := rfl

theorem clone_type_int_eq (id ctr : Nat) :
    clone_type (.ptr (.mk id .TYPE_INT)) ctr = (.ptr (.mk ctr .TYPE_INT), ctr + 1) := rfl

theorem clone_type_array_eq (id : Nat) (e : TypeInfoOpt) (size : Int) (ctr : Nat) :
    clone_type (.ptr (.mk id (.TYPE_ARRAY e size))) ctr =
      (match clone_type e ctr with
       | (.null, c1) => (.null, c1)
       | (.ptr q, c1) => type_create_array (.ptr q) size c1) := rfl

theorem clone_type_function_null_eq (id : Nat) (r : TypeInfoOpt) (count : Int)
    (ctr : Nat) :
    clone_type (.ptr (.mk id (.TYPE_FUNCTION r .null count))) ctr =
      (match clone_type r ctr with
       | (.null, c1) => (.null, c1)
       | (.ptr q, c1) => type_create_function (.ptr q) .null count c1) := rfl

theorem clone_type_function_arr_eq (id : Nat) (r : TypeInfoOpt) (ps : TypeInfoList)
    (count : Int) (ctr : Nat) :
    clone_type (.ptr (.mk id (.TYPE_FUNCTION r (.arr ps) count))) ctr =
      (match clone_type r ctr with
       | (.null, c1) => (.null, c1)
       | (.ptr q, c1) =>
         if 0 < count then
           match clone_type_params ps c1 with
           | (none, c2) => (.null, c2)
           | (some qs, c2) => type_create_function (.ptr q) (.arr qs) count c2
         else type_create_function (.ptr q) .null count c1) := rfl

theorem clone_type_params_nil_eq (ctr : Nat) :
    clone_type_params .nil ctr = (some .nil, ctr) := rfl

theorem clone_type_params_cons_eq (p : TypeInfoOpt) (rest : TypeInfoList) (ctr : Nat) :
    clone_type_params (.cons p rest) ctr =
      (match clone_type p ctr with
       | (.null, c1) => (none, c1)
       | (.ptr q, c1) =>
         match clone_type_params rest c1 with
         | (none, c2) => (none, c2)
         | (some qs, c2) => (some (.cons (.ptr q) qs), c2)) := rfl

mutual

/-- Cloning a well-formed type succeeds, preserves the erased tree, moves the
counter forward, and uses only fresh ids. -/
theorem clone_type_ptr_good (t : TypeInfo) (ctr : Nat) (h : wf_type t = true) :
    ∃ q c2, clone_type (.ptr t) ctr = (.ptr q, c2) ∧ erase_type q = erase_type t ∧
      ctr ≤ c2 ∧ ids_bound (type_ids q) ctr := by
  cases t with
  | mk id v =>
    cases v with
    | TYPE_VOID =>
      refine ⟨.mk ctr .TYPE_VOID, ctr + 1, rfl, rfl, Nat.le_succ ctr, ?_⟩
      intro i hi
      simp only [type_ids, List.mem_cons, List.not_mem_nil, or_false] at hi
      omega
    | TYPE_BOOL =>
      refine ⟨.mk ctr .TYPE_BOOL, ctr + 1, rfl, rfl, Nat.le_succ ctr, ?_⟩
      intro i hi
      simp only [type_ids, List.mem_cons, List.not_mem_nil, or_false] at hi
      omega
    | TYPE_CHAR =>
      refine ⟨.mk ctr .TYPE_CHAR, ctr + 1, rfl, rfl, Nat.le_succ ctr, ?_⟩
      intro i hi
      simp only [type_ids, List.mem_cons, List.not_mem_nil, or_false] at hi
      omega
    | TYPE_INT =>
      refine ⟨.mk ctr .TYPE_INT, ctr + 1, rfl, rfl, Nat.le_succ ctr, ?_⟩
      intro i hi
      simp only [type_ids, List.mem_cons, List.not_mem_nil, or_false] at hi
      omega
    | TYPE_ARRAY e size =>
      cases e with
      | null => simp [wf_type] at h
      | ptr e2 =>
        have h2 : wf_type e2 = true := by simpa [wf_type] using h
        obtain ⟨q, c2, heq, her, hle, hids⟩ := clone_type_ptr_good e2 ctr h2
        refine ⟨.mk c2 (.TYPE_ARRAY (.ptr q) size), c2 + 1, ?_, ?_, by omega, ?_⟩
        · simp only [clone_type_array_eq, heq, type_create_array]
        · simp only [erase_type, erase_type_opt, her]
        · intro i hi
          simp only [type_ids, type_opt_ids, List.mem_cons] at hi
          rcases hi with rfl | hi
          · omega
          · exact hids i hi
    | TYPE_FUNCTION r ps count =>
      cases r with
      | null => simp [wf_type] at h
      | ptr r2 =>
        cases ps with
        | null =>
          have h2 : wf_type r2 = true ∧ count = 0 := by
            simpa [wf_type, Bool.and_eq_true] using h
          obtain ⟨hr, hc0⟩ := h2
          subst hc0
          obtain ⟨q, c1, heq, her, hle, hids⟩ := clone_type_ptr_good r2 ctr hr
          refine ⟨.mk c1 (.TYPE_FUNCTION (.ptr q) .null 0), c1 + 1, ?_, ?_, by omega, ?_⟩
          · simp [clone_type_function_null_eq, heq, type_create_function]
          · simp only [erase_type, erase_type_opt, erase_type_list_opt, her]
          · intro i hi
            simp only [type_ids, type_opt_ids, type_list_opt_ids, List.append_nil,
              List.mem_cons] at hi
            rcases hi with rfl | hi
            · omega
            · exact hids i hi
        | arr ps2 =>
          have h2 : wf_type r2 = true ∧ (count = (tlist_len ps2 : Int) ∧ 0 < count ∧
              wf_type_params ps2 = true) := by
            simpa [wf_type, Bool.and_eq_true, and_assoc] using h
          obtain ⟨hr, hlen, hpos, hps⟩ := h2
          obtain ⟨q, c1, heq, her, hle, hids⟩ := clone_type_ptr_good r2 ctr hr
          obtain ⟨qs, c2, heqs, hers, hle2, hids2⟩ := clone_type_params_good ps2 c1 hps
          refine ⟨.mk c2 (.TYPE_FUNCTION (.ptr q) (.arr qs) count), c2 + 1, ?_, ?_,
            by omega, ?_⟩
          · simp [clone_type_function_arr_eq, heq, heqs, hpos, type_create_function]
          · simp only [erase_type, erase_type_opt, erase_type_list_opt, her, hers]
          · intro i hi
            simp only [type_ids, type_opt_ids, type_list_opt_ids, List.mem_cons,
              List.mem_append] at hi
            rcases hi with rfl | hi | hi
            · omega
            · exact hids i hi
            · exact le_trans hle (hids2 i hi)

/-- Cloning a well-formed parameter list succeeds, preserves the erased list,
moves the counter forward, and uses only fresh ids. -/
theorem clone_type_params_good (ps : TypeInfoList) (ctr : Nat)
    (h : wf_type_params ps = true) :
    ∃ qs c2, clone_type_params ps ctr = (some qs, c2) ∧
      erase_type_list qs = erase_type_list ps ∧ ctr ≤ c2 ∧
      ids_bound (type_list_ids qs) ctr := by
  cases ps with
  | nil => exact ⟨.nil, ctr, rfl, rfl, le_refl ctr, ids_bound_nil ctr⟩
  | cons p rest =>
    cases p with
    | null => simp [wf_type_params] at h
    | ptr p2 =>
      have h2 : wf_type p2 = true ∧ wf_type_params rest = true := by
        simpa [wf_type_params, Bool.and_eq_true] using h
      obtain ⟨q, c1, heq, her, hle, hids⟩ := clone_type_ptr_good p2 ctr h2.1
      obtain ⟨qs, c2, heqs, hers, hle2, hids2⟩ := clone_type_params_good rest c1 h2.2
      refine ⟨.cons (.ptr q) qs, c2, ?_, ?_, by omega, ?_⟩
      · simp only [clone_type_params_cons_eq, heq, heqs]
      · simp only [erase_type_list, erase_type_opt, her, hers]
      · intro i hi
        simp only [type_list_ids, type_opt_ids, List.mem_append] at hi
        rcases hi with hi | hi
        · exact hids i hi
        · exact le_trans hle (hids2 i hi)

end

/-- `clone_type` on any well-formed pointer (possibly NULL): the erased result
is the erased input, the counter moves forward, and all ids are fresh. -/
theorem clone_type_opt_good (t : TypeInfoOpt) (ctr : Nat) (h : wf_type_opt t = true) :
    erase_type_opt (clone_type t ctr).1 = erase_type_opt t ∧
      ctr ≤ (clone_type t ctr).2 ∧ ids_bound (type_opt_ids (clone_type t ctr).1) ctr := by
  cases t with
  | null => exact ⟨rfl, le_refl ctr, ids_bound_nil ctr⟩
  | ptr t2 =>
    obtain ⟨q, c2, heq, her, hle, hids⟩ := clone_type_ptr_good t2 ctr (by simpa [wf_type_opt] using h)
    rw [heq]
    exact ⟨by simp only [erase_type_opt, her], hle, hids⟩

/-! One-step unfolding equations for `ast_clone` and its array loop. -/

theorem ast_clone_null_eq (ctr : Nat) : ast_clone .null ctr = (.null, ctr) := rfl

theorem ast_clone_program_eq (id : Nat) (ds : AstNodeListOpt) (count : Int)
    (loc : SourceLocation) (ti : TypeInfoOpt) (ctr : Nat) :
    ast_clone (.ptr (.mk id (.AST_PROGRAM ds count) loc ti)) ctr =
      ast_clone_copy_type_info
        (ast_create_program (clone_node_array ds count ctr).1 count loc
          (clone_node_array ds count ctr).2) ti := rfl

theorem ast_clone_function_decl_eq (id : Nat) (name : Option StrObj)
    (ps : AstNodeListOpt) (count : Int) (body : AstNodeOpt) (ret : TypeInfoOpt)
    (ext : Bool) (loc : SourceLocation) (ti : TypeInfoOpt) (ctr : Nat) :
    ast_clone (.ptr (.mk id (.AST_FUNCTION_DECL name ps count body ret ext) loc ti))
        ctr =
      ast_clone_copy_type_info
        (ast_create_function_decl name (clone_node_array ps count ctr).1 count
          (ast_clone body (clone_node_array ps count ctr).2).1
          (clone_type ret (ast_clone body (clone_node_array ps count ctr).2).2).1
          ext loc
          (clone_type ret (ast_clone body (clone_node_array ps count ctr).2).2).2)
        ti := rfl

theorem ast_clone_var_decl_eq (id : Nat) (name : Option StrObj) (init : AstNodeOpt)
    (vt : TypeInfoOpt) (loc : SourceLocation) (ti : TypeInfoOpt) (ctr : Nat) :
    ast_clone (.ptr (.mk id (.AST_VAR_DECL name init vt) loc ti)) ctr =
      ast_clone_copy_type_info
        (ast_create_var_decl name (ast_clone init ctr).1
          (clone_type vt (ast_clone init ctr).2).1 loc
          (clone_type vt (ast_clone init ctr).2).2) ti := rfl

theorem ast_clone_array_decl_eq (id : Nat) (name : Option StrObj) (size : Int)
    (inits : AstNodeListOpt) (count : Int) (et : TypeInfoOpt) (loc : SourceLocation)
    (ti : TypeInfoOpt) (ctr : Nat) :
    ast_clone (.ptr (.mk id (.AST_ARRAY_DECL name size inits count et) loc ti)) ctr =
      ast_clone_copy_type_info
        (ast_create_array_decl name size (clone_node_array inits count ctr).1 count
          (clone_type et (clone_node_array inits count ctr).2).1 loc
          (clone_type et (clone_node_array inits count ctr).2).2) ti := rfl

theorem ast_clone_block_eq (id : Nat) (ss : AstNodeListOpt) (count : Int)
    (loc : SourceLocation) (ti : TypeInfoOpt) (ctr : Nat) :
    ast_clone (.ptr (.mk id (.AST_BLOCK ss count) loc ti)) ctr =
      ast_clone_copy_type_info
        (ast_create_block (clone_node_array ss count ctr).1 count loc
          (clone_node_array ss count ctr).2) ti := rfl

theorem ast_clone_if_eq (id : Nat) (c t e : AstNodeOpt) (loc : SourceLocation)
    (ti : TypeInfoOpt) (ctr : Nat) :
    ast_clone (.ptr (.mk id (.AST_IF_STMT c t e) loc ti)) ctr =
      ast_clone_copy_type_info
        (ast_create_if_stmt (ast_clone c ctr).1
          (ast_clone t (ast_clone c ctr).2).1
          (ast_clone e (ast_clone t (ast_clone c ctr).2).2).1 loc
          (ast_clone e (ast_clone t (ast_clone c ctr).2).2).2) ti := rfl

theorem ast_clone_while_eq (id : Nat) (c b : AstNodeOpt) (loc : SourceLocation)
    (ti : TypeInfoOpt) (ctr : Nat) :
    ast_clone (.ptr (.mk id (.AST_WHILE_STMT c b) loc ti)) ctr =
      ast_clone_copy_type_info
        (ast_create_while_stmt (ast_clone c ctr).1 (ast_clone b (ast_clone c ctr).2).1
          loc (ast_clone b (ast_clone c ctr).2).2) ti := rfl

theorem ast_clone_do_while_eq (id : Nat) (c b : AstNodeOpt) (loc : SourceLocation)
    (ti : TypeInfoOpt) (ctr : Nat) :
    ast_clone (.ptr (.mk id (.AST_DO_WHILE_STMT c b) loc ti)) ctr =
      ast_clone_copy_type_info
        (ast_create_do_while_stmt (ast_clone b ctr).1 (ast_clone c (ast_clone b ctr).2).1
          loc (ast_clone c (ast_clone b ctr).2).2) ti := rfl

theorem ast_clone_for_eq (id : Nat) (i c n b : AstNodeOpt) (loc : SourceLocation)
    (ti : TypeInfoOpt) (ctr : Nat) :
    ast_clone (.ptr (.mk id (.AST_FOR_STMT i c n b) loc ti)) ctr =
      ast_clone_copy_type_info
        (ast_create_for_stmt (ast_clone i ctr).1
          (ast_clone c (ast_clone i ctr).2).1
          (ast_clone n (ast_clone c (ast_clone i ctr).2).2).1
          (ast_clone b (ast_clone n (ast_clone c (ast_clone i ctr).2).2).2).1 loc
          (ast_clone b (ast_clone n (ast_clone c (ast_clone i ctr).2).2).2).2) ti := rfl

theorem ast_clone_return_eq (id : Nat) (r : AstNodeOpt) (loc : SourceLocation)
    (ti : TypeInfoOpt) (ctr : Nat) :
    ast_clone (.ptr (.mk id (.AST_RETURN_STMT r) loc ti)) ctr =
      ast_clone_copy_type_info
        (ast_create_return_stmt (ast_clone r ctr).1 loc (ast_clone r ctr).2) ti := rfl

theorem ast_clone_break_eq (id : Nat) (loc : SourceLocation) (ti : TypeInfoOpt)
    (ctr : Nat) :
    ast_clone (.ptr (.mk id .AST_BREAK_STMT loc ti)) ctr =
      ast_clone_copy_type_info (ast_create_break_stmt loc ctr) ti := rfl

theorem ast_clone_expr_stmt_eq (id : Nat) (e : AstNodeOpt) (loc : SourceLocation)
    (ti : TypeInfoOpt) (ctr : Nat) :
    ast_clone (.ptr (.mk id (.AST_EXPR_STMT e) loc ti)) ctr =
      ast_clone_copy_type_info
        (ast_create_expr_stmt (ast_clone e ctr).1 loc (ast_clone e ctr).2) ti := rfl

theorem ast_clone_binary_eq (id : Nat) (l r : AstNodeOpt) (op : TokenType)
    (loc : SourceLocation) (ti : TypeInfoOpt) (ctr : Nat) :
    ast_clone (.ptr (.mk id (.AST_BINARY_EXPR l r op) loc ti)) ctr =
      ast_clone_copy_type_info
        (ast_create_binary_expr (ast_clone l ctr).1 op (ast_clone r (ast_clone l ctr).2).1
          loc (ast_clone r (ast_clone l ctr).2).2) ti := rfl

theorem ast_clone_unary_eq (id : Nat) (o : AstNodeOpt) (op : TokenType) (p : Bool)
    (loc : SourceLocation) (ti : TypeInfoOpt) (ctr : Nat) :
    ast_clone (.ptr (.mk id (.AST_UNARY_EXPR o op p) loc ti)) ctr =
      ast_clone_copy_type_info
        (ast_create_unary_expr (ast_clone o ctr).1 op p loc (ast_clone o ctr).2) ti := rfl

theorem ast_clone_lit_int_eq (id : Nat) (v : Int) (loc : SourceLocation)
    (ti : TypeInfoOpt) (ctr : Nat) :
    ast_clone (.ptr (.mk id (.AST_LITERAL_INT v) loc ti)) ctr =
      ast_clone_copy_type_info (ast_create_literal_int v loc ctr) ti := rfl

theorem ast_clone_lit_char_eq (id : Nat) (v : Int) (loc : SourceLocation)
    (ti : TypeInfoOpt) (ctr : Nat) :
    ast_clone (.ptr (.mk id (.AST_LITERAL_CHAR v) loc ti)) ctr =
      ast_clone_copy_type_info (ast_create_literal_char v loc ctr) ti := rfl

theorem ast_clone_lit_string_eq (id : Nat) (v : Option StrObj) (loc : SourceLocation)
    (ti : TypeInfoOpt) (ctr : Nat) :
    ast_clone (.ptr (.mk id (.AST_LITERAL_STRING v) loc ti)) ctr =
      ast_clone_copy_type_info (ast_create_literal_string v loc ctr) ti := rfl

theorem ast_clone_lit_bool_eq (id : Nat) (v : Bool) (loc : SourceLocation)
    (ti : TypeInfoOpt) (ctr : Nat) :
    ast_clone (.ptr (.mk id (.AST_LITERAL_BOOL v) loc ti)) ctr =
      ast_clone_copy_type_info (ast_create_literal_bool v loc ctr) ti := rfl

theorem ast_clone_identifier_eq (id : Nat) (name : Option StrObj)
    (loc : SourceLocation) (ti : TypeInfoOpt) (ctr : Nat) :
    ast_clone (.ptr (.mk id (.AST_IDENTIFIER name) loc ti)) ctr =
      ast_clone_copy_type_info (ast_create_identifier name loc ctr) ti := rfl

theorem ast_clone_array_access_eq (id : Nat) (a i : AstNodeOpt) (loc : SourceLocation)
    (ti : TypeInfoOpt) (ctr : Nat) :
    ast_clone (.ptr (.mk id (.AST_ARRAY_ACCESS a i) loc ti)) ctr =
      ast_clone_copy_type_info
        (ast_create_array_access (ast_clone a ctr).1 (ast_clone i (ast_clone a ctr).2).1
          loc (ast_clone i (ast_clone a ctr).2).2) ti := rfl

theorem ast_clone_call_eq (id : Nat) (c : AstNodeOpt) (args : AstNodeListOpt)
    (count : Int) (loc : SourceLocation) (ti : TypeInfoOpt) (ctr : Nat) :
    ast_clone (.ptr (.mk id (.AST_CALL_EXPR c args count) loc ti)) ctr =
      ast_clone_copy_type_info
        (ast_create_call_expr (ast_clone c ctr).1
          (clone_node_array args count (ast_clone c ctr).2).1 count loc
          (clone_node_array args count (ast_clone c ctr).2).2) ti := rfl

theorem ast_clone_assignment_eq (id : Nat) (t v : AstNodeOpt) (loc : SourceLocation)
    (ti : TypeInfoOpt) (ctr : Nat) :
    ast_clone (.ptr (.mk id (.AST_ASSIGNMENT t v) loc ti)) ctr =
      ast_clone_copy_type_info
        (ast_create_assignment (ast_clone t ctr).1 (ast_clone v (ast_clone t ctr).2).1
          loc (ast_clone v (ast_clone t ctr).2).2) ti := rfl

theorem ast_clone_type_eq (id : Nat) (td : TypeInfoOpt) (loc : SourceLocation)
    (ti : TypeInfoOpt) (ctr : Nat) :
    ast_clone (.ptr (.mk id (.AST_TYPE td) loc ti)) ctr =
      ast_clone_copy_type_info
        (ast_create_type (clone_type td ctr).1 loc (clone_type td ctr).2) ti := rfl

theorem clone_node_array_null_eq (count : Int) (ctr : Nat) :
    clone_node_array .null count ctr = (.null, ctr) := rfl

theorem clone_node_array_arr_eq (ns : AstNodeList) (count : Int) (ctr : Nat) :
    clone_node_array (.arr ns) count ctr =
      (if count ≤ 0 then (.null, ctr)
       else
         match clone_node_list ns ctr with
         | (some cs, c2) => (.arr cs, c2)
         | (none, c2) => (.null, c2)) := rfl

theorem clone_node_list_nil_eq (ctr : Nat) :
    clone_node_list .nil ctr = (some .nil, ctr) := rfl

theorem clone_node_list_cons_eq (h : AstNodeOpt) (rest : AstNodeList) (ctr : Nat) :
    clone_node_list (.cons h rest) ctr =
      (match ast_clone h ctr with
       | (.null, c1) => (none, c1)
       | (.ptr cl, c1) =>
         match clone_node_list rest c1 with
         | (none, c2) => (none, c2)
         | (some cs, c2) => (some (.cons (.ptr cl) cs), c2)) := rfl

/-- The `type_info` copy at the end of `ast_clone` keeps the cloned node,
replaces its `type_info` by a clone of the original annotation whenever that
annotation is non-NULL, and uses only fresh ids. -/
theorem copy_type_info_good (ctr mid : Nat) (mv : AstVariant) (mloc : SourceLocation)
    (mti : TypeInfoOpt) (c : Nat) (ti : TypeInfoOpt)
    (hti : wf_type_opt ti = true) (hnull : ti = .null → mti = .null)
    (hc : ctr ≤ c) (hidm : ids_bound (mid :: variant_ids mv) ctr) :
    ∃ m2 c2, ast_clone_copy_type_info (.ptr (.mk mid mv mloc mti), c) ti = (.ptr m2, c2) ∧
      erase_node m2 = .mk (erase_variant mv) mloc (erase_type_opt ti) ∧
      ctr ≤ c2 ∧ ids_bound (node_ids m2) ctr := by
  cases ti with
  | null =>
    have h0 : mti = .null := hnull rfl
    subst h0
    refine ⟨.mk mid mv mloc .null, c, rfl, ?_, hc, ?_⟩
    · simp only [erase_node, erase_type_opt]
    · intro i hi
      simp only [node_ids, type_opt_ids, List.append_nil] at hi
      exact hidm i hi
  | ptr t =>
    obtain ⟨q, c2, heq, her, hle, hids⟩ :=
      clone_type_ptr_good t c (by simpa [wf_type_opt] using hti)
    refine ⟨.mk mid mv mloc (.ptr q), c2, ?_, ?_, le_trans hc hle, ?_⟩
    · simp only [ast_clone_copy_type_info, heq]
    · simp only [erase_node, erase_type_opt, her]
    · intro i hi
      simp only [node_ids, type_opt_ids, List.mem_cons, List.mem_append] at hi
      rcases hi with (rfl | hi) | hi
      · exact hidm i (by simp)
      · exact hidm i (by simp [hi])
      · exact le_trans hc (hids i hi)

/-- Dispatch lemma for the per-variant cases of the deep-copy theorem: once the
clone of a variant has been computed into create-function output form, the
`type_info` tail preserves the erased tree and id freshness. -/
theorem clone_case_finish {ctr idv : Nat} {v RV : AstVariant} {loc : SourceLocation}
    {ti MTI : TypeInfoOpt} {C C2 : Nat}
    (hres : ast_clone (.ptr (.mk idv v loc ti)) ctr =
      ast_clone_copy_type_info (.ptr (.mk C RV loc MTI), C2) ti)
    (hti : wf_type_opt ti = true) (hnull : ti = .null → MTI = .null)
    (hrv : erase_variant RV = erase_variant v) (hc : ctr ≤ C2)
    (hvb : ids_bound (C :: variant_ids RV) ctr) :
    ∃ m c2, ast_clone (.ptr (.mk idv v loc ti)) ctr = (.ptr m, c2) ∧
      erase_node m = erase_node (.mk idv v loc ti) ∧
      ctr ≤ c2 ∧ ids_bound (node_ids m) ctr := by
  obtain ⟨m2, c2, heq2, her2, hc2, hids2⟩ :=
    copy_type_info_good ctr C RV loc MTI C2 ti hti hnull hc hvb
  refine ⟨m2, c2, hres.trans heq2, ?_, hc2, hids2⟩
  rw [her2, hrv]
  simp only [erase_node]

set_option maxHeartbeats 1000000 in
mutual

/-- Cloning a well-formed node succeeds, preserves the erased tree, moves the
counter forward, and uses only fresh ids. -/
theorem ast_clone_ptr_good (n : AstNode) (ctr : Nat) (h : wf_node n = true) :
    ∃ m c2, ast_clone (.ptr n) ctr = (.ptr m, c2) ∧ erase_node m = erase_node n ∧
      ctr ≤ c2 ∧ ids_bound (node_ids m) ctr := by
  cases n with
  | mk id v loc ti =>
    cases v with
    | AST_PROGRAM ds count =>
      simp only [wf_node, wf_variant, literal_ti_ok, Bool.and_eq_true, Bool.and_true,
        and_assoc] at h
      obtain ⟨hv, hti⟩ := h
      obtain ⟨heS, hcS, hleS, hidsS⟩ := clone_node_array_good ds count ctr hv
      cases hcna : clone_node_array ds count ctr with
      | mk ms c1 =>
        simp only [hcna] at heS hcS hleS hidsS
        cases hst : store_array ms count with
        | mk s1 s2 =>
          simp only [hst] at heS hcS hidsS
          have hres : ast_clone (.ptr (.mk id (.AST_PROGRAM ds count) loc ti)) ctr =
              ast_clone_copy_type_info
                (.ptr (.mk c1 (.AST_PROGRAM s1 s2) loc .null), c1 + 1) ti := by
            simp only [ast_clone_program_eq, hcna, ast_create_program, hst]
          refine clone_case_finish hres hti (fun _ => rfl) ?_ (by omega) ?_
          · simp only [erase_variant, heS, hcS]
          · intro i hi
            simp only [variant_ids, List.mem_cons] at hi
            rcases hi with rfl | hi
            · omega
            · exact hidsS i hi
    | AST_BLOCK ss count =>
      simp only [wf_node, wf_variant, literal_ti_ok, Bool.and_eq_true, Bool.and_true,
        and_assoc] at h
      obtain ⟨hv, hti⟩ := h
      obtain ⟨heS, hcS, hleS, hidsS⟩ := clone_node_array_good ss count ctr hv
      cases hcna : clone_node_array ss count ctr with
      | mk ms c1 =>
        simp only [hcna] at heS hcS hleS hidsS
        cases hst : store_array ms count with
        | mk s1 s2 =>
          simp only [hst] at heS hcS hidsS
          have hres : ast_clone (.ptr (.mk id (.AST_BLOCK ss count) loc ti)) ctr =
              ast_clone_copy_type_info
                (.ptr (.mk c1 (.AST_BLOCK s1 s2) loc .null), c1 + 1) ti := by
            simp only [ast_clone_block_eq, hcna, ast_create_block, hst]
          refine clone_case_finish hres hti (fun _ => rfl) ?_ (by omega) ?_
          · simp only [erase_variant, heS, hcS]
          · intro i hi
            simp only [variant_ids, List.mem_cons] at hi
            rcases hi with rfl | hi
            · omega
            · exact hidsS i hi
    | AST_VAR_DECL name init vt =>
      cases name with
      | none => simp [wf_node, wf_variant] at h
      | some nm =>
        simp only [wf_node, wf_variant, literal_ti_ok, Bool.and_eq_true, Bool.and_true,
          and_assoc, Option.isSome_some, true_and] at h
        obtain ⟨hin, hvt, hti⟩ := h
        obtain ⟨he1, hl1, hb1⟩ := ast_clone_opt_good init ctr hin
        cases hc1 : ast_clone init ctr with
        | mk i1 ci =>
          simp only [hc1] at he1 hl1 hb1
          obtain ⟨he2, hl2, hb2⟩ := clone_type_opt_good vt ci hvt
          cases hc2 : clone_type vt ci with
          | mk t1 ct =>
            simp only [hc2] at he2 hl2 hb2
            have hres : ast_clone (.ptr (.mk id (.AST_VAR_DECL (some nm) init vt)
                loc ti)) ctr =
                ast_clone_copy_type_info
                  (.ptr (.mk ct (.AST_VAR_DECL (some ⟨ct + 1, nm.chars⟩) i1 t1)
                    loc .null), ct + 2) ti := by
              simp only [ast_clone_var_decl_eq, hc1, hc2, ast_create_var_decl,
                string_duplicate]
            refine clone_case_finish hres hti (fun _ => rfl) ?_ (by omega) ?_
            · simp [erase_variant, erase_str, he1, he2]
            · simp only [variant_ids, str_ids, ids_bound_cons, ids_bound_append,
                ids_bound_nil_iff, and_true, true_and, and_assoc]
              exact ⟨by omega, by omega, hb1, ids_bound_mono hl1 hb2⟩
    | AST_LITERAL_INT val =>
      cases ti with
      | null => simp [wf_node, literal_ti_ok] at h
      | ptr t =>
        simp only [wf_node, wf_variant, literal_ti_ok, Bool.and_eq_true, Bool.and_true,
          true_and] at h
        have hres : ast_clone (.ptr (.mk id (.AST_LITERAL_INT val) loc (.ptr t))) ctr =
            ast_clone_copy_type_info
              (.ptr (.mk ctr (.AST_LITERAL_INT val) loc
                (.ptr (.mk (ctr + 1) .TYPE_INT))), ctr + 2) (.ptr t) := by
          simp only [ast_clone_lit_int_eq, ast_create_literal_int, type_create_int]
        refine clone_case_finish hres h (fun hh => nomatch hh) rfl (by omega) ?_
        intro i hi
        simp only [variant_ids, List.mem_cons, List.not_mem_nil, or_false] at hi
        omega
    | AST_BREAK_STMT =>
      simp only [wf_node, wf_variant, literal_ti_ok, Bool.and_eq_true, Bool.and_true,
        true_and] at h
      have hres : ast_clone (.ptr (.mk id .AST_BREAK_STMT loc ti)) ctr =
          ast_clone_copy_type_info
            (.ptr (.mk ctr .AST_BREAK_STMT loc .null), ctr + 1) ti := by
        simp only [ast_clone_break_eq, ast_create_break_stmt]
      refine clone_case_finish hres h (fun _ => rfl) rfl (by omega) ?_
      intro i hi
      simp only [variant_ids, List.mem_cons, List.not_mem_nil, or_false] at hi
      omega
    | AST_FUNCTION_DECL name ps count body ret ext =>
      cases name with
      | none => simp [wf_node, wf_variant] at h
      | some nm =>
        simp only [wf_node, wf_variant, literal_ti_ok, Bool.and_eq_true, Bool.and_true,
          and_assoc, Option.isSome_some, true_and] at h
        obtain ⟨hps, hbd, hrt, hti⟩ := h
        obtain ⟨heS, hcS, hleS, hidsS⟩ := clone_node_array_good ps count ctr hps
        cases hcna : clone_node_array ps count ctr with
        | mk ms c1 =>
          simp only [hcna] at heS hcS hleS hidsS
          cases hst : store_array ms count with
          | mk s1 s2 =>
            simp only [hst] at heS hcS hidsS
            obtain ⟨heB, hlB, hbB⟩ := ast_clone_opt_good body c1 hbd
            cases hcb : ast_clone body c1 with
            | mk b1 cb =>
              simp only [hcb] at heB hlB hbB
              obtain ⟨heR, hlR, hbR⟩ := clone_type_opt_good ret cb hrt
              cases hcr : clone_type ret cb with
              | mk r1 cr =>
                simp only [hcr] at heR hlR hbR
                have hres : ast_clone (.ptr (.mk id
                    (.AST_FUNCTION_DECL (some nm) ps count body ret ext) loc ti))
                    ctr =
                    ast_clone_copy_type_info
                      (.ptr (.mk cr (.AST_FUNCTION_DECL (some ⟨cr + 1, nm.chars⟩)
                        s1 s2 b1 r1 ext) loc .null), cr + 2) ti := by
                  simp only [ast_clone_function_decl_eq, hcna, hcb, hcr,
                    ast_create_function_decl, string_duplicate, hst]
                refine clone_case_finish hres hti (fun _ => rfl) ?_ (by omega) ?_
                · simp [erase_variant, erase_str, heS, hcS, heB, heR]
                · simp only [variant_ids, str_ids, ids_bound_cons, ids_bound_append,
                    ids_bound_nil_iff, and_true, true_and, and_assoc]
                  exact ⟨by omega, by omega, hidsS, ids_bound_mono hleS hbB,
                    ids_bound_mono (le_trans hleS hlB) hbR⟩
    | AST_ARRAY_DECL name size inits count et =>
      cases name with
      | none => simp [wf_node, wf_variant] at h
      | some nm =>
        simp only [wf_node, wf_variant, literal_ti_ok, Bool.and_eq_true, Bool.and_true,
          and_assoc, Option.isSome_some, true_and] at h
        obtain ⟨hin, het, hti⟩ := h
        obtain ⟨heS, hcS, hleS, hidsS⟩ := clone_node_array_good inits count ctr hin
        cases hcna : clone_node_array inits count ctr with
        | mk ms c1 =>
          simp only [hcna] at heS hcS hleS hidsS
          cases hst : store_array ms count with
          | mk s1 s2 =>
            simp only [hst] at heS hcS hidsS
            obtain ⟨heE, hlE, hbE⟩ := clone_type_opt_good et c1 het
            cases hce : clone_type et c1 with
            | mk e1 ce =>
              simp only [hce] at heE hlE hbE
              have hres : ast_clone (.ptr (.mk id
                  (.AST_ARRAY_DECL (some nm) size inits count et) loc ti)) ctr =
                  ast_clone_copy_type_info
                    (.ptr (.mk ce (.AST_ARRAY_DECL (some ⟨ce + 1, nm.chars⟩) size
                      s1 s2 e1) loc .null), ce + 2) ti := by
                simp only [ast_clone_array_decl_eq, hcna, hce,
                  ast_create_array_decl, string_duplicate, hst]
              refine clone_case_finish hres hti (fun _ => rfl) ?_ (by omega) ?_
              · simp [erase_variant, erase_str, heS, hcS, heE]
              · simp only [variant_ids, str_ids, ids_bound_cons, ids_bound_append,
                  ids_bound_nil_iff, and_true, true_and, and_assoc]
                exact ⟨by omega, by omega, hidsS, ids_bound_mono hleS hbE⟩
    | AST_IF_STMT c t e =>
      simp only [wf_node, wf_variant, literal_ti_ok, Bool.and_eq_true, Bool.and_true,
        and_assoc] at h
      obtain ⟨h1, h2, h3, hti⟩ := h
      obtain ⟨he1, hl1, hb1⟩ := ast_clone_opt_good c ctr h1
      cases hq1 : ast_clone c ctr with
      | mk c1 k1 =>
        simp only [hq1] at he1 hl1 hb1
        obtain ⟨he2, hl2, hb2⟩ := ast_clone_opt_good t k1 h2
        cases hq2 : ast_clone t k1 with
        | mk t1 k2 =>
          simp only [hq2] at he2 hl2 hb2
          obtain ⟨he3, hl3, hb3⟩ := ast_clone_opt_good e k2 h3
          cases hq3 : ast_clone e k2 with
          | mk e1 k3 =>
            simp only [hq3] at he3 hl3 hb3
            have hres : ast_clone (.ptr (.mk id (.AST_IF_STMT c t e) loc ti)) ctr =
                ast_clone_copy_type_info
                  (.ptr (.mk k3 (.AST_IF_STMT c1 t1 e1) loc .null), k3 + 1) ti := by
              simp only [ast_clone_if_eq, hq1, hq2, hq3, ast_create_if_stmt]
            refine clone_case_finish hres hti (fun _ => rfl) ?_ (by omega) ?_
            · simp [erase_variant, he1, he2, he3]
            · simp only [variant_ids, ids_bound_cons, ids_bound_append, and_assoc]
              exact ⟨by omega, hb1, ids_bound_mono hl1 hb2,
                ids_bound_mono (le_trans hl1 hl2) hb3⟩
    | AST_WHILE_STMT c b =>
      simp only [wf_node, wf_variant, literal_ti_ok, Bool.and_eq_true, Bool.and_true,
        and_assoc] at h
      obtain ⟨h1, h2, hti⟩ := h
      obtain ⟨he1, hl1, hb1⟩ := ast_clone_opt_good c ctr h1
      cases hq1 : ast_clone c ctr with
      | mk c1 k1 =>
        simp only [hq1] at he1 hl1 hb1
        obtain ⟨he2, hl2, hb2⟩ := ast_clone_opt_good b k1 h2
        cases hq2 : ast_clone b k1 with
        | mk b1 k2 =>
          simp only [hq2] at he2 hl2 hb2
          have hres : ast_clone (.ptr (.mk id (.AST_WHILE_STMT c b) loc ti)) ctr =
              ast_clone_copy_type_info
                (.ptr (.mk k2 (.AST_WHILE_STMT c1 b1) loc .null), k2 + 1) ti := by
            simp only [ast_clone_while_eq, hq1, hq2, ast_create_while_stmt]
          refine clone_case_finish hres hti (fun _ => rfl) ?_ (by omega) ?_
          · simp [erase_variant, he1, he2]
          · simp only [variant_ids, ids_bound_cons, ids_bound_append, and_assoc]
            exact ⟨by omega, hb1, ids_bound_mono hl1 hb2⟩
    | AST_DO_WHILE_STMT c b =>
      simp only [wf_node, wf_variant, literal_ti_ok, Bool.and_eq_true, Bool.and_true,
        and_assoc] at h
      obtain ⟨h1, h2, hti⟩ := h
      obtain ⟨he2, hl2, hb2⟩ := ast_clone_opt_good b ctr h2
      cases hq2 : ast_clone b ctr with
      | mk b1 k1 =>
        simp only [hq2] at he2 hl2 hb2
        obtain ⟨he1, hl1, hb1⟩ := ast_clone_opt_good c k1 h1
        cases hq1 : ast_clone c k1 with
        | mk c1 k2 =>
          simp only [hq1] at he1 hl1 hb1
          have hres : ast_clone (.ptr (.mk id (.AST_DO_WHILE_STMT c b) loc ti)) ctr =
              ast_clone_copy_type_info
                (.ptr (.mk k2 (.AST_DO_WHILE_STMT c1 b1) loc .null), k2 + 1) ti := by
            simp only [ast_clone_do_while_eq, hq2, hq1, ast_create_do_while_stmt]
          refine clone_case_finish hres hti (fun _ => rfl) ?_ (by omega) ?_
          · simp [erase_variant, he1, he2]
          · simp only [variant_ids, ids_bound_cons, ids_bound_append, and_assoc]
            exact ⟨by omega, ids_bound_mono hl2 hb1, hb2⟩
    | AST_FOR_STMT i c n b =>
      simp only [wf_node, wf_variant, literal_ti_ok, Bool.and_eq_true, Bool.and_true,
        and_assoc] at h
      obtain ⟨h1, h2, h3, h4, hti⟩ := h
      obtain ⟨he1, hl1, hb1⟩ := ast_clone_opt_good i ctr h1
      cases hq1 : ast_clone i ctr with
      | mk i1 k1 =>
        simp only [hq1] at he1 hl1 hb1
        obtain ⟨he2, hl2, hb2⟩ := ast_clone_opt_good c k1 h2
        cases hq2 : ast_clone c k1 with
        | mk c1 k2 =>
          simp only [hq2] at he2 hl2 hb2
          obtain ⟨he3, hl3, hb3⟩ := ast_clone_opt_good n k2 h3
          cases hq3 : ast_clone n k2 with
          | mk n1 k3 =>
            simp only [hq3] at he3 hl3 hb3
            obtain ⟨he4, hl4, hb4⟩ := ast_clone_opt_good b k3 h4
            cases hq4 : ast_clone b k3 with
            | mk b1 k4 =>
              simp only [hq4] at he4 hl4 hb4
              have hres : ast_clone (.ptr (.mk id (.AST_FOR_STMT i c n b) loc ti))
                  ctr =
                  ast_clone_copy_type_info
                    (.ptr (.mk k4 (.AST_FOR_STMT i1 c1 n1 b1) loc .null), k4 + 1)
                    ti := by
                simp only [ast_clone_for_eq, hq1, hq2, hq3, hq4, ast_create_for_stmt]
              refine clone_case_finish hres hti (fun _ => rfl) ?_ (by omega) ?_
              · simp [erase_variant, he1, he2, he3, he4]
              · simp only [variant_ids, ids_bound_cons, ids_bound_append, and_assoc]
                exact ⟨by omega, hb1, ids_bound_mono hl1 hb2,
                  ids_bound_mono (le_trans hl1 hl2) hb3,
                  ids_bound_mono (le_trans (le_trans hl1 hl2) hl3) hb4⟩
    | AST_RETURN_STMT r =>
      simp only [wf_node, wf_variant, literal_ti_ok, Bool.and_eq_true, Bool.and_true,
        and_assoc] at h
      obtain ⟨h1, hti⟩ := h
      obtain ⟨he1, hl1, hb1⟩ := ast_clone_opt_good r ctr h1
      cases hq1 : ast_clone r ctr with
      | mk r1 k1 =>
        simp only [hq1] at he1 hl1 hb1
        have hres : ast_clone (.ptr (.mk id (.AST_RETURN_STMT r) loc ti)) ctr =
            ast_clone_copy_type_info
              (.ptr (.mk k1 (.AST_RETURN_STMT r1) loc .null), k1 + 1) ti := by
          simp only [ast_clone_return_eq, hq1, ast_create_return_stmt]
        refine clone_case_finish hres hti (fun _ => rfl) ?_ (by omega) ?_
        · simp [erase_variant, he1]
        · simp only [variant_ids, ids_bound_cons, and_assoc]
          exact ⟨by omega, hb1⟩
    | AST_EXPR_STMT e =>
      simp only [wf_node, wf_variant, literal_ti_ok, Bool.and_eq_true, Bool.and_true,
        and_assoc] at h
      obtain ⟨h1, hti⟩ := h
      obtain ⟨he1, hl1, hb1⟩ := ast_clone_opt_good e ctr h1
      cases hq1 : ast_clone e ctr with
      | mk e1 k1 =>
        simp only [hq1] at he1 hl1 hb1
        have hres : ast_clone (.ptr (.mk id (.AST_EXPR_STMT e) loc ti)) ctr =
            ast_clone_copy_type_info
              (.ptr (.mk k1 (.AST_EXPR_STMT e1) loc .null), k1 + 1) ti := by
          simp only [ast_clone_expr_stmt_eq, hq1, ast_create_expr_stmt]
        refine clone_case_finish hres hti (fun _ => rfl) ?_ (by omega) ?_
        · simp [erase_variant, he1]
        · simp only [variant_ids, ids_bound_cons, and_assoc]
          exact ⟨by omega, hb1⟩
    | AST_BINARY_EXPR l r op =>
      simp only [wf_node, wf_variant, literal_ti_ok, Bool.and_eq_true, Bool.and_true,
        and_assoc] at h
      obtain ⟨h1, h2, hti⟩ := h
      obtain ⟨he1, hl1, hb1⟩ := ast_clone_opt_good l ctr h1
      cases hq1 : ast_clone l ctr with
      | mk l1 k1 =>
        simp only [hq1] at he1 hl1 hb1
        obtain ⟨he2, hl2, hb2⟩ := ast_clone_opt_good r k1 h2
        cases hq2 : ast_clone r k1 with
        | mk r1 k2 =>
          simp only [hq2] at he2 hl2 hb2
          have hres : ast_clone (.ptr (.mk id (.AST_BINARY_EXPR l r op) loc ti)) ctr =
              ast_clone_copy_type_info
                (.ptr (.mk k2 (.AST_BINARY_EXPR l1 r1 op) loc .null), k2 + 1) ti := by
            simp only [ast_clone_binary_eq, hq1, hq2, ast_create_binary_expr]
          refine clone_case_finish hres hti (fun _ => rfl) ?_ (by omega) ?_
          · simp [erase_variant, he1, he2]
          · simp only [variant_ids, ids_bound_cons, ids_bound_append, and_assoc]
            exact ⟨by omega, hb1, ids_bound_mono hl1 hb2⟩
    | AST_UNARY_EXPR o op p =>
      simp only [wf_node, wf_variant, literal_ti_ok, Bool.and_eq_true, Bool.and_true,
        and_assoc] at h
      obtain ⟨h1, hti⟩ := h
      obtain ⟨he1, hl1, hb1⟩ := ast_clone_opt_good o ctr h1
      cases hq1 : ast_clone o ctr with
      | mk o1 k1 =>
        simp only [hq1] at he1 hl1 hb1
        have hres : ast_clone (.ptr (.mk id (.AST_UNARY_EXPR o op p) loc ti)) ctr =
            ast_clone_copy_type_info
              (.ptr (.mk k1 (.AST_UNARY_EXPR o1 op p) loc .null), k1 + 1) ti := by
          simp only [ast_clone_unary_eq, hq1, ast_create_unary_expr]
        refine clone_case_finish hres hti (fun _ => rfl) ?_ (by omega) ?_
        · simp [erase_variant, he1]
        · simp only [variant_ids, ids_bound_cons, and_assoc]
          exact ⟨by omega, hb1⟩
    | AST_LITERAL_CHAR val =>
      cases ti with
      | null => simp [wf_node, literal_ti_ok] at h
      | ptr t =>
        simp only [wf_node, wf_variant, literal_ti_ok, Bool.and_eq_true, Bool.and_true,
          true_and] at h
        have hres : ast_clone (.ptr (.mk id (.AST_LITERAL_CHAR val) loc (.ptr t)))
            ctr =
            ast_clone_copy_type_info
              (.ptr (.mk ctr (.AST_LITERAL_CHAR val) loc
                (.ptr (.mk (ctr + 1) .TYPE_CHAR))), ctr + 2) (.ptr t) := by
          simp only [ast_clone_lit_char_eq, ast_create_literal_char, type_create_char]
        refine clone_case_finish hres h (fun hh => nomatch hh) rfl (by omega) ?_
        intro i hi
        simp only [variant_ids, List.mem_cons, List.not_mem_nil, or_false] at hi
        omega
    | AST_LITERAL_STRING val =>
      cases val with
      | none => simp [wf_node, wf_variant] at h
      | some sv =>
        simp only [wf_node, wf_variant, literal_ti_ok, Bool.and_eq_true, Bool.and_true,
          Option.isSome_some, true_and] at h
        have hres : ast_clone (.ptr (.mk id (.AST_LITERAL_STRING (some sv)) loc ti))
            ctr =
            ast_clone_copy_type_info
              (.ptr (.mk ctr (.AST_LITERAL_STRING (some ⟨ctr + 1, sv.chars⟩)) loc
                .null), ctr + 2) ti := by
          simp only [ast_clone_lit_string_eq, ast_create_literal_string,
            string_duplicate]
        refine clone_case_finish hres h (fun _ => rfl) ?_ (by omega) ?_
        · simp [erase_variant, erase_str]
        · simp only [variant_ids, str_ids, ids_bound_cons, ids_bound_nil_iff,
            and_true, and_assoc]
          exact ⟨by omega, by omega⟩
    | AST_LITERAL_BOOL val =>
      cases ti with
      | null => simp [wf_node, literal_ti_ok] at h
      | ptr t =>
        simp only [wf_node, wf_variant, literal_ti_ok, Bool.and_eq_true, Bool.and_true,
          true_and] at h
        have hres : ast_clone (.ptr (.mk id (.AST_LITERAL_BOOL val) loc (.ptr t)))
            ctr =
            ast_clone_copy_type_info
              (.ptr (.mk ctr (.AST_LITERAL_BOOL val) loc
                (.ptr (.mk (ctr + 1) .TYPE_BOOL))), ctr + 2) (.ptr t) := by
          simp only [ast_clone_lit_bool_eq, ast_create_literal_bool, type_create_bool]
        refine clone_case_finish hres h (fun hh => nomatch hh) rfl (by omega) ?_
        intro i hi
        simp only [variant_ids, List.mem_cons, List.not_mem_nil, or_false] at hi
        omega
    | AST_IDENTIFIER name =>
      cases name with
      | none => simp [wf_node, wf_variant] at h
      | some nm =>
        simp only [wf_node, wf_variant, literal_ti_ok, Bool.and_eq_true, Bool.and_true,
          Option.isSome_some, true_and] at h
        have hres : ast_clone (.ptr (.mk id (.AST_IDENTIFIER (some nm)) loc ti))
            ctr =
            ast_clone_copy_type_info
              (.ptr (.mk ctr (.AST_IDENTIFIER (some ⟨ctr + 1, nm.chars⟩)) loc
                .null), ctr + 2) ti := by
          simp only [ast_clone_identifier_eq, ast_create_identifier, string_duplicate]
        refine clone_case_finish hres h (fun _ => rfl) ?_ (by omega) ?_
        · simp [erase_variant, erase_str]
        · simp only [variant_ids, str_ids, ids_bound_cons, ids_bound_nil_iff,
            and_true, and_assoc]
          exact ⟨by omega, by omega⟩
    | AST_ARRAY_ACCESS a i =>
      simp only [wf_node, wf_variant, literal_ti_ok, Bool.and_eq_true, Bool.and_true,
        and_assoc] at h
      obtain ⟨h1, h2, hti⟩ := h
      obtain ⟨he1, hl1, hb1⟩ := ast_clone_opt_good a ctr h1
      cases hq1 : ast_clone a ctr with
      | mk a1 k1 =>
        simp only [hq1] at he1 hl1 hb1
        obtain ⟨he2, hl2, hb2⟩ := ast_clone_opt_good i k1 h2
        cases hq2 : ast_clone i k1 with
        | mk i1 k2 =>
          simp only [hq2] at he2 hl2 hb2
          have hres : ast_clone (.ptr (.mk id (.AST_ARRAY_ACCESS a i) loc ti)) ctr =
              ast_clone_copy_type_info
                (.ptr (.mk k2 (.AST_ARRAY_ACCESS a1 i1) loc .null), k2 + 1) ti := by
            simp only [ast_clone_array_access_eq, hq1, hq2, ast_create_array_access]
          refine clone_case_finish hres hti (fun _ => rfl) ?_ (by omega) ?_
          · simp [erase_variant, he1, he2]
          · simp only [variant_ids, ids_bound_cons, ids_bound_append, and_assoc]
            exact ⟨by omega, hb1, ids_bound_mono hl1 hb2⟩
    | AST_CALL_EXPR c args count =>
      simp only [wf_node, wf_variant, literal_ti_ok, Bool.and_eq_true, Bool.and_true,
        and_assoc] at h
      obtain ⟨h1, hargs, hti⟩ := h
      obtain ⟨he1, hl1, hb1⟩ := ast_clone_opt_good c ctr h1
      cases hq1 : ast_clone c ctr with
      | mk c1 k1 =>
        simp only [hq1] at he1 hl1 hb1
        obtain ⟨heS, hcS, hleS, hidsS⟩ := clone_node_array_good args count k1 hargs
        cases hcna : clone_node_array args count k1 with
        | mk ms c2 =>
          simp only [hcna] at heS hcS hleS hidsS
          cases hst : store_array ms count with
          | mk s1 s2 =>
            simp only [hst] at heS hcS hidsS
            have hres : ast_clone (.ptr (.mk id (.AST_CALL_EXPR c args count) loc ti))
                ctr =
                ast_clone_copy_type_info
                  (.ptr (.mk c2 (.AST_CALL_EXPR c1 s1 s2) loc .null), c2 + 1) ti := by
              simp only [ast_clone_call_eq, hq1, hcna, ast_create_call_expr, hst]
            refine clone_case_finish hres hti (fun _ => rfl) ?_ (by omega) ?_
            · simp [erase_variant, he1, heS, hcS]
            · simp only [variant_ids, ids_bound_cons, ids_bound_append, and_assoc]
              exact ⟨by omega, hb1, ids_bound_mono hl1 hidsS⟩
    | AST_ASSIGNMENT t v =>
      simp only [wf_node, wf_variant, literal_ti_ok, Bool.and_eq_true, Bool.and_true,
        and_assoc] at h
      obtain ⟨h1, h2, hti⟩ := h
      obtain ⟨he1, hl1, hb1⟩ := ast_clone_opt_good t ctr h1
      cases hq1 : ast_clone t ctr with
      | mk t1 k1 =>
        simp only [hq1] at he1 hl1 hb1
        obtain ⟨he2, hl2, hb2⟩ := ast_clone_opt_good v k1 h2
        cases hq2 : ast_clone v k1 with
        | mk v1 k2 =>
          simp only [hq2] at he2 hl2 hb2
          have hres : ast_clone (.ptr (.mk id (.AST_ASSIGNMENT t v) loc ti)) ctr =
              ast_clone_copy_type_info
                (.ptr (.mk k2 (.AST_ASSIGNMENT t1 v1) loc .null), k2 + 1) ti := by
            simp only [ast_clone_assignment_eq, hq1, hq2, ast_create_assignment]
          refine clone_case_finish hres hti (fun _ => rfl) ?_ (by omega) ?_
          · simp [erase_variant, he1, he2]
          · simp only [variant_ids, ids_bound_cons, ids_bound_append, and_assoc]
            exact ⟨by omega, hb1, ids_bound_mono hl1 hb2⟩
    | AST_TYPE td =>
      simp only [wf_node, wf_variant, literal_ti_ok, Bool.and_eq_true, Bool.and_true,
        and_assoc] at h
      obtain ⟨htd, hti⟩ := h
      obtain ⟨he1, hl1, hb1⟩ := clone_type_opt_good td ctr htd
      cases hq1 : clone_type td ctr with
      | mk t1 k1 =>
        simp only [hq1] at he1 hl1 hb1
        have hres : ast_clone (.ptr (.mk id (.AST_TYPE td) loc ti)) ctr =
            ast_clone_copy_type_info
              (.ptr (.mk k1 (.AST_TYPE t1) loc .null), k1 + 1) ti := by
          simp only [ast_clone_type_eq, hq1, ast_create_type]
        refine clone_case_finish hres hti (fun _ => rfl) ?_ (by omega) ?_
        · simp [erase_variant, he1]
        · simp only [variant_ids, ids_bound_cons, and_assoc]
          exact ⟨by omega, hb1⟩

/-- `ast_clone` on any well-formed pointer (possibly NULL). -/
theorem ast_clone_opt_good (n : AstNodeOpt) (ctr : Nat) (h : wf_node_opt n = true) :
    erase_node_opt (ast_clone n ctr).1 = erase_node_opt n ∧
      ctr ≤ (ast_clone n ctr).2 ∧ ids_bound (node_opt_ids (ast_clone n ctr).1) ctr := by
  cases n with
  | null => exact ⟨rfl, le_refl ctr, ids_bound_nil ctr⟩
  | ptr n2 =>
    obtain ⟨m, c2, heq, her, hle, hids⟩ :=
      ast_clone_ptr_good n2 ctr (by simpa [wf_node_opt] using h)
    rw [heq]
    exact ⟨by simp only [erase_node_opt, her], hle, hids⟩

/-- `clone_node_array` followed by the create functions' array store step:
on well-formed input the stored array has the same erased elements and count,
and all fresh ids. -/
theorem clone_node_array_good (ns : AstNodeListOpt) (count : Int) (ctr : Nat)
    (h : wf_array ns count = true) :
    erase_node_list_opt (store_array (clone_node_array ns count ctr).1 count).1 =
      erase_node_list_opt ns ∧
    (store_array (clone_node_array ns count ctr).1 count).2 = count ∧
    ctr ≤ (clone_node_array ns count ctr).2 ∧
    ids_bound (node_list_opt_ids (store_array (clone_node_array ns count ctr).1
      count).1) ctr := by
  cases ns with
  | null =>
    have hc0 : count = 0 := by simpa [wf_array] using h
    subst hc0
    refine ⟨?_, ?_, le_refl ctr, ?_⟩
    · simp [clone_node_array_null_eq, store_array]
    · simp [clone_node_array_null_eq, store_array]
    · simp only [clone_node_array_null_eq, store_array]
      norm_num [node_list_opt_ids]
      exact ids_bound_nil ctr
  | arr l =>
    simp only [wf_array, Bool.and_eq_true, beq_iff_eq, decide_eq_true_eq,
      and_assoc] at h
    obtain ⟨hlen, hpos, hels⟩ := h
    obtain ⟨cs, c2, heq, her, hle, hids⟩ := clone_node_list_good l ctr hels
    have hnot : ¬ count ≤ 0 := by omega
    refine ⟨?_, ?_, ?_, ?_⟩
    · simp only [clone_node_array_arr_eq, if_neg hnot, heq, store_array, if_pos hpos,
        erase_node_list_opt, her]
    · simp only [clone_node_array_arr_eq, if_neg hnot, heq, store_array, if_pos hpos]
    · simp only [clone_node_array_arr_eq, if_neg hnot, heq]
      exact hle
    · simp only [clone_node_array_arr_eq, if_neg hnot, heq, store_array, if_pos hpos,
        node_list_opt_ids]
      exact hids

/-- The element loop of `clone_node_array` on well-formed elements. -/
theorem clone_node_list_good (l : AstNodeList) (ctr : Nat)
    (h : wf_node_elems l = true) :
    ∃ cs c2, clone_node_list l ctr = (some cs, c2) ∧
      erase_node_list cs = erase_node_list l ∧ ctr ≤ c2 ∧
      ids_bound (node_list_ids cs) ctr := by
  cases l with
  | nil => exact ⟨.nil, ctr, rfl, rfl, le_refl ctr, ids_bound_nil ctr⟩
  | cons hd rest =>
    cases hd with
    | null => simp [wf_node_elems] at h
    | ptr n2 =>
      simp only [wf_node_elems, Bool.and_eq_true] at h
      obtain ⟨m, c1, heq, her, hle, hids⟩ := ast_clone_ptr_good n2 ctr h.1
      obtain ⟨cs, c2, heqs, hers, hle2, hids2⟩ := clone_node_list_good rest c1 h.2
      refine ⟨.cons (.ptr m) cs, c2, ?_, ?_, by omega, ?_⟩
      · simp only [clone_node_list_cons_eq, heq, heqs]
      · simp only [erase_node_list, erase_node_opt, her, hers]
      · intro i hi
        simp only [node_list_ids, node_opt_ids, List.mem_append] at hi
        rcases hi with hi | hi
        · exact hids i hi
        · exact ids_bound_mono hle hids2 i hi

end

/- Reduction sanity test: a var decl «x = 5» cloned at counter 100. -/
def sample_loc : SourceLocation := ⟨1, 1, "t.chpp"⟩

def sample_node : AstNode :=
  .mk 0 (.AST_VAR_DECL (some ⟨1, "x"⟩)
    (.ptr (.mk 2 (.AST_LITERAL_INT 5) sample_loc (.ptr (.mk 3 .TYPE_INT))))
    (.ptr (.mk 4 .TYPE_INT))) sample_loc .null

theorem sanity_wf : wf_node sample_node = true := by decide

theorem sanity_clone :
    erase_node_opt (ast_clone (.ptr sample_node) 100).1 =
      .ptr (erase_node sample_node) ∧
    (ast_clone (.ptr sample_node) 100).2 = 106 ∧
    node_opt_ids (ast_clone (.ptr sample_node) 100).1 = [104, 105, 100, 102, 103] := by
  refine ⟨by rfl, by decide, by decide⟩

end Chpp

namespace Chpp

/-- C9: for every well-formed AST node, `ast_clone` returns a tree that is
structurally equal to the original (equal after erasing allocation
identities: same node kinds, payload values, child order, locations and
TypeInfo structure) and that shares no node, string or TypeInfo allocation
with the original, provided the clone counter is past every id of the
original (ids are allocated increasingly). -/
theorem ast_clone_deep_copy (n : AstNode) (ctr : Nat)
    (hwf : wf_node n = true) (hfresh : ∀ i ∈ node_ids n, i < ctr) :
    ∃ m c2, ast_clone (.ptr n) ctr = (.ptr m, c2) ∧
      erase_node m = erase_node n ∧
      ∀ i ∈ node_ids m, i ∉ node_ids n := by
  obtain ⟨m, c2, heq, her, hle, hids⟩ := ast_clone_ptr_good n ctr hwf
  refine ⟨m, c2, heq, her, ?_⟩
  intro i him hin
  have h1 := hids i him
  have h2 := hfresh i hin
  omega

/-- C9 witness: the deep-copy theorem applied to a concrete well-formed
variable declaration «x = 5» at counter 100. -/
theorem ast_clone_deep_copy_witness :
    wf_node sample_node = true ∧
    (∀ i ∈ node_ids sample_node, i < 100) ∧
    ∃ m c2, ast_clone (.ptr sample_node) 100 = (.ptr m, c2) ∧
      erase_node m = erase_node sample_node ∧
      ∀ i ∈ node_ids m, i ∉ node_ids sample_node :=
  ⟨by decide, by decide, ast_clone_deep_copy sample_node 100 (by decide) (by decide)⟩

end Chpp
